import Mathlib

/-!
# Verification of the open-rts authoritative game server

Shallow embedding of the game-server modules of the repository
(`src/lib/game-server/room-manager.ts` — which also carries the
`GameEngine` — together with `validator.ts`, `anticheat.ts`, the
win-condition manager, and `types.ts`), with theorems settling the
frozen claims about the specification.

Modelling conventions, used throughout:

* JavaScript numbers are embedded as `ℚ` where fractional values occur
  (positions, hp, resources) and as `ℕ`/`ℤ` where the source only ever
  holds integers (tick counters, seeds, upgrade levels).
* `Math.sqrt` followed by a comparison is embedded as the equivalent
  comparison of squares (exact for the nonnegative reals the code
  approximates); a `Math.sqrt` whose value flows into arithmetic is
  embedded as `Rat.sqrt`, which agrees with the real square root on
  perfect squares — every concrete scenario evaluated in this file only
  takes square roots of perfect squares.
* `generateId()` returns `` `${Date.now()}-${idCounter++}-${random}` ``
  for a module-global, monotonically increasing `idCounter`; distinct
  counter values give distinct id strings, so ids are embedded as the
  `idCounter` value (`ℕ`) at which they were drawn, and the counter is
  threaded explicitly.
* `Math.random()` draws and `Date.now()` reads are nondeterministic
  inputs; they are threaded explicitly (a list of pending draws, a
  `now` parameter).
* JavaScript `Map`s preserve insertion order; they are embedded as
  association lists (`List (String × α)` keyed by id), and
  `Array.from(map.values())` is the list of values in that order.
-/

namespace OpenRTS

/-- Tile kinds of `types.ts` (`TileType`). -/
inductive Tile where
  | grass | forest | water | mountain | gold | sand | dirt
  deriving DecidableEq, Repr

/-- Unit kinds of `types.ts` (`UnitType`). -/
inductive UnitKind where
  | worker | soldier | archer | healer | catapult
  deriving DecidableEq, Repr

/-- Building kinds of `types.ts` (`BuildingType`). -/
inductive BuildingKind where
  | base | barracks | farm | tower | blacksmith | siegeWorkshop | wall
  deriving DecidableEq, Repr

/-- Resource kinds of `types.ts` (`ResourceType`). -/
inductive ResKind where
  | gold | wood
  deriving DecidableEq, Repr

/-- `Position` of `types.ts`. -/
structure Pos where
  x : ℚ
  y : ℚ
  deriving DecidableEq, Repr

/-- `Resource` of `types.ts`. The `id` is the `idCounter` value at which
`generateId()` produced it (see the header). -/
structure Res where
  id : ℕ
  kind : ResKind
  x : ℚ
  y : ℚ
  amount : ℚ
  maxAmount : ℚ
  deriving DecidableEq, Repr

/-- `GameMap` of `types.ts`. -/
structure GameMap where
  width : ℕ
  height : ℕ
  tileSize : ℚ
  tiles : List (List Tile)
  resources : List Res
  deriving DecidableEq, Repr

/-! ## Seeded random stream (`GameEngine.seededRandom`)

`seededRandom` closes over `s`; each call performs
`s = (s * 9301 + 49297) % 233280` and returns `s / 233280`.
We thread the state `s : ℕ` explicitly; `randQ` is the value the call
returns. -/
/-- One step of the linear-congruential stream of `seededRandom`. -/
def lcgNext (s : ℕ) : ℕ := (s * 9301 + 49297) % 233280

/-- The value `random()` returns when the post-step state is `s`. -/
def randQ (s : ℕ) : ℚ := (s : ℚ) / 233280

/-! ## Map generation (`GameEngine.generateMap`) -/
/-- The terrain tile chosen from a fresh `random()` draw `r`
(the `else` branch of the terrain loop in `generateMap`). -/
def terrainFor (r : ℚ) : Tile :=
  if r < 1/2 then .grass
  else if r < 7/10 then .forest
  else if r < 85/100 then .dirt
  else if r < 92/100 then .sand
  else if r < 96/100 then .gold
  else .water

/-- `List.mapM` over an explicit state: applies `f` left-to-right
threading the state, returning outputs in order. -/
def mapState (f : α → σ → β × σ) : List α → σ → List β × σ
  | [], s => ([], s)
  | a :: l, s =>
    let p := f a s
    let q := mapState f l p.2
    (p.1 :: q.1, q.2)

/-- The tile generated at grid cell `(x, y)` in the terrain loop of
`generateMap`: spawn areas are forced to grass (consuming no draw);
otherwise one `random()` draw classifies the terrain. -/
def tileAt (x y : ℕ) (s : ℕ) : Tile × ℕ :=
  if (x < 5 ∧ y < 5) ∨ (x > 54 ∧ y > 54) then (.grass, s)
  else
    let s' := lcgNext s
    (terrainFor (randQ s'), s')

/-- The terrain double loop of `generateMap` (rows `y`, inner loop `x`),
threading the random state. -/
def genTerrain (s : ℕ) : List (List Tile) × ℕ :=
  mapState (fun y s => mapState (fun x s => tileAt x y s) (List.range 60) s)
    (List.range 60) s

/-- Read `tiles[y][x]` (both always in bounds in the source's uses). -/
def getTile (tiles : List (List Tile)) (x y : ℕ) : Tile :=
  (tiles.getD y []).getD x .grass

/-- Write `tiles[y][x] = v`. -/
def setTile (tiles : List (List Tile)) (x y : ℕ) (v : Tile) : List (List Tile) :=
  tiles.set y ((tiles.getD y []).set x v)

/-- State threaded through the resource-placement loops of `generateMap`:
the (mutable) tile grid, the resources pushed so far, the random state,
and the global `idCounter`. -/
structure MapGenSt where
  tiles : List (List Tile)
  resources : List Res
  s : ℕ
  idCtr : ℕ
  deriving DecidableEq, Repr

/-- One iteration of the gold-mine loop of `generateMap`: draw `x`, `y`;
if the tile there is not grass, set it to `gold` and push a gold
resource (drawing its amount, and one id from the counter). -/
def goldMineStep (st : MapGenSt) : MapGenSt :=
  let s1 := lcgNext st.s
  let x := (⌊randQ s1 * (60 - 4)⌋).toNat + 2
  let s2 := lcgNext s1
  let y := (⌊randQ s2 * (60 - 4)⌋).toNat + 2
  if getTile st.tiles x y ≠ .grass then
    let s3 := lcgNext s2
    { tiles := setTile st.tiles x y .gold
      resources := st.resources ++
        [{ id := st.idCtr, kind := .gold,
           x := (x : ℚ) * 40 + 40 / 2, y := (y : ℚ) * 40 + 40 / 2,
           amount := 1500 + (⌊randQ s3 * 1500⌋ : ℤ), maxAmount := 3000 }]
      s := s3
      idCtr := st.idCtr + 1 }
  else { st with s := s2 }

/-- One iteration of the forest loop of `generateMap`: draw `x`, `y`;
if the tile there is neither grass nor gold, set it to `forest` and push
a wood resource. -/
def forestStep (st : MapGenSt) : MapGenSt :=
  let s1 := lcgNext st.s
  let x := (⌊randQ s1 * (60 - 4)⌋).toNat + 2
  let s2 := lcgNext s1
  let y := (⌊randQ s2 * (60 - 4)⌋).toNat + 2
  if getTile st.tiles x y ≠ .grass ∧ getTile st.tiles x y ≠ .gold then
    let s3 := lcgNext s2
    { tiles := setTile st.tiles x y .forest
      resources := st.resources ++
        [{ id := st.idCtr, kind := .wood,
           x := (x : ℚ) * 40 + 40 / 2, y := (y : ℚ) * 40 + 40 / 2,
           amount := 800 + (⌊randQ s3 * 700⌋ : ℤ), maxAmount := 1500 }]
      s := s3
      idCtr := st.idCtr + 1 }
  else { st with s := s2 }

/-- Iterate a step `n` times (a `for (let i = 0; i < n; i++)` loop whose
body only touches the threaded state). -/
def iterSteps (f : MapGenSt → MapGenSt) : ℕ → MapGenSt → MapGenSt
  | 0, st => st
  | n + 1, st => iterSteps f n (f st)

/-- `GameEngine.generateMap(seed)`, with the global `idCounter` threaded
in and out (ids are drawn from it when resources are pushed).
Width, height and tile size are the source's constants 60, 60, 40. -/
def generateMap (seed : ℕ) (idCtr : ℕ) : GameMap × ℕ :=
  let t := genTerrain seed
  let sG := lcgNext t.2
  let numGoldMines := 20 + (⌊randQ sG * 10⌋).toNat
  let sF := lcgNext sG
  let numForests := 30 + (⌊randQ sF * 15⌋).toNat
  let st0 : MapGenSt := { tiles := t.1, resources := [], s := sF, idCtr := idCtr }
  let st1 := iterSteps goldMineStep numGoldMines st0
  let st2 := iterSteps forestStep numForests st1
  ({ width := 60, height := 60, tileSize := 40, tiles := st2.tiles,
     resources := st2.resources }, st2.idCtr)

/-! ### Integer computation forms

The definitions above mirror the source's real-number arithmetic on `ℚ`.
For concrete evaluation we use equivalent pure-`ℕ` forms (`…N`), proved
equal to the faithful definitions below; all concrete map facts are
transported back through `generateMap_eq_generateMapN`. -/
/-- `terrainFor` with the comparisons of `random()` against the five
thresholds rewritten as exact integer comparisons on the stream state. -/
def terrainForN (v : ℕ) : Tile :=
  if v < 116640 then .grass
  else if v < 163296 then .forest
  else if v < 198288 then .dirt
  else if v < 214618 then .sand
  else if v < 223949 then .gold
  else .water

/-- Integer form of `tileAt`. -/
def tileAtN (x y : ℕ) (s : ℕ) : Tile × ℕ :=
  if (x < 5 ∧ y < 5) ∨ (x > 54 ∧ y > 54) then (.grass, s)
  else
    let s' := lcgNext s
    (terrainForN s', s')

/-- Integer form of `goldMineStep`. -/
def goldMineStepN (st : MapGenSt) : MapGenSt :=
  let s1 := lcgNext st.s
  let x := 56 * s1 / 233280 + 2
  let s2 := lcgNext s1
  let y := 56 * s2 / 233280 + 2
  if getTile st.tiles x y ≠ .grass then
    let s3 := lcgNext s2
    { tiles := setTile st.tiles x y .gold
      resources := st.resources ++
        [{ id := st.idCtr, kind := .gold,
           x := ((40 * x + 20 : ℕ) : ℚ), y := ((40 * y + 20 : ℕ) : ℚ),
           amount := ((1500 + 1500 * s3 / 233280 : ℕ) : ℚ), maxAmount := 3000 }]
      s := s3
      idCtr := st.idCtr + 1 }
  else { st with s := s2 }

/-- Integer form of `forestStep`. -/
def forestStepN (st : MapGenSt) : MapGenSt :=
  let s1 := lcgNext st.s
  let x := 56 * s1 / 233280 + 2
  let s2 := lcgNext s1
  let y := 56 * s2 / 233280 + 2
  if getTile st.tiles x y ≠ .grass ∧ getTile st.tiles x y ≠ .gold then
    let s3 := lcgNext s2
    { tiles := setTile st.tiles x y .forest
      resources := st.resources ++
        [{ id := st.idCtr, kind := .wood,
           x := ((40 * x + 20 : ℕ) : ℚ), y := ((40 * y + 20 : ℕ) : ℚ),
           amount := ((800 + 700 * s3 / 233280 : ℕ) : ℚ), maxAmount := 1500 }]
      s := s3
      idCtr := st.idCtr + 1 }
  else { st with s := s2 }

/-- The part of the integer form of `generateMap` after the terrain loop
(kept `let`-free so concrete evaluations can be chained by rewriting). -/
def mapGenPack (st2 : MapGenSt) : GameMap × ℕ :=
  ({ width := 60, height := 60, tileSize := 40, tiles := st2.tiles,
     resources := st2.resources }, st2.idCtr)

/-- The resource-placement phase of the integer form of `generateMap`
(kept `let`-free so concrete evaluations can be chained by rewriting). -/
def mapGenFinishN (t : List (List Tile) × ℕ) (idCtr : ℕ) : GameMap × ℕ :=
  mapGenPack
    (iterSteps forestStepN (30 + 15 * lcgNext (lcgNext t.2) / 233280)
      (iterSteps goldMineStepN (20 + 10 * lcgNext t.2 / 233280)
        { tiles := t.1, resources := [], s := lcgNext (lcgNext t.2), idCtr := idCtr }))

/-- Integer form of `generateMap`. -/
def generateMapN (seed : ℕ) (idCtr : ℕ) : GameMap × ℕ :=
  mapGenFinishN
    (mapState (fun y s => mapState (fun x s => tileAtN x y s) (List.range 60) s)
      (List.range 60) seed) idCtr

/-! ### Concrete evaluation of `generateMap` at seed 424242

The terrain loop is evaluated one grid row per lemma (each lemma is a
kernel computation over the integer forms), the rows are chained with
`mapState_cons`, and the resource loops are evaluated on top. -/
/-- Row 0 of the terrain grid for seed 424242. -/
def gridRow424242y0 : List Tile := [.grass, .grass, .grass, .grass, .grass, .water, .forest, .grass, .grass, .grass, .grass, .grass, .forest, .grass, .grass, .forest, .grass, .forest, .sand, .grass, .gold, .dirt, .grass, .forest, .dirt, .grass, .dirt, .grass, .forest, .grass, .dirt, .forest, .grass, .grass, .grass, .dirt, .gold, .grass, .grass, .forest, .sand, .water, .sand, .forest, .grass, .grass, .dirt, .sand, .dirt, .dirt, .forest, .grass, .grass, .sand, .gold, .grass, .water, .grass, .grass, .grass]

/-- Row 1 of the terrain grid for seed 424242. -/
def gridRow424242y1 : List Tile := [.grass, .grass, .grass, .grass, .grass, .dirt, .grass, .grass, .dirt, .dirt, .forest, .forest, .sand, .grass, .sand, .dirt, .sand, .dirt, .sand, .sand, .water, .forest, .forest, .forest, .grass, .forest, .grass, .dirt, .grass, .forest, .sand, .dirt, .grass, .grass, .dirt, .forest, .forest, .dirt, .forest, .sand, .sand, .grass, .dirt, .dirt, .gold, .forest, .dirt, .grass, .dirt, .grass, .water, .sand, .forest, .grass, .grass, .grass, .grass, .grass, .grass, .grass]

/-- Row 2 of the terrain grid for seed 424242. -/
def gridRow424242y2 : List Tile := [.grass, .grass, .grass, .grass, .grass, .water, .dirt, .grass, .grass, .grass, .water, .dirt, .forest, .grass, .grass, .grass, .grass, .forest, .grass, .grass, .grass, .grass, .dirt, .grass, .dirt, .dirt, .grass, .grass, .forest, .forest, .dirt, .dirt, .forest, .grass, .forest, .grass, .forest, .dirt, .grass, .grass, .grass, .grass, .forest, .grass, .dirt, .dirt, .grass, .grass, .water, .water, .gold, .forest, .grass, .grass, .grass, .gold, .grass, .sand, .dirt, .grass]

/-- Row 3 of the terrain grid for seed 424242. -/
def gridRow424242y3 : List Tile := [.grass, .grass, .grass, .grass, .grass, .grass, .grass, .grass, .gold, .forest, .dirt, .grass, .grass, .grass, .grass, .forest, .forest, .forest, .grass, .sand, .forest, .grass, .grass, .grass, .grass, .dirt, .grass, .sand, .grass, .grass, .grass, .grass, .forest, .dirt, .sand, .dirt, .grass, .forest, .grass, .grass, .sand, .forest, .grass, .grass, .grass, .grass, .dirt, .water, .grass, .grass, .dirt, .grass, .gold, .grass, .grass, .grass, .grass, .forest, .forest, .grass]

/-- Row 4 of the terrain grid for seed 424242. -/
def gridRow424242y4 : List Tile := [.grass, .grass, .grass, .grass, .grass, .grass, .grass, .grass, .grass, .grass, .dirt, .grass, .grass, .grass, .grass, .water, .grass, .water, .dirt, .forest, .dirt, .grass, .forest, .grass, .forest, .sand, .grass, .grass, .forest, .water, .grass, .grass, .grass, .sand, .grass, .dirt, .grass, .grass, .sand, .dirt, .grass, .gold, .dirt, .forest, .grass, .forest, .grass, .dirt, .sand, .grass, .grass, .dirt, .grass, .forest, .dirt, .grass, .dirt, .grass, .grass, .forest]

/-- Row 5 of the terrain grid for seed 424242. -/
def gridRow424242y5 : List Tile := [.sand, .grass, .grass, .dirt, .dirt, .grass, .forest, .grass, .grass, .grass, .grass, .grass, .grass, .dirt, .forest, .dirt, .forest, .grass, .dirt, .sand, .grass, .dirt, .grass, .water, .grass, .grass, .grass, .grass, .gold, .dirt, .grass, .gold, .grass, .grass, .forest, .dirt, .dirt, .grass, .gold, .dirt, .dirt, .grass, .forest, .grass, .dirt, .dirt, .forest, .grass, .grass, .grass, .grass, .grass, .forest, .grass, .forest, .sand, .forest, .forest, .grass, .sand]

/-- Row 6 of the terrain grid for seed 424242. -/
def gridRow424242y6 : List Tile := [.grass, .dirt, .grass, .grass, .grass, .forest, .forest, .grass, .dirt, .grass, .forest, .forest, .grass, .grass, .grass, .grass, .grass, .grass, .grass, .grass, .water, .dirt, .sand, .sand, .forest, .grass, .grass, .grass, .grass, .dirt, .sand, .grass, .dirt, .grass, .forest, .grass, .dirt, .grass, .grass, .grass, .grass, .grass, .grass, .gold, .dirt, .grass, .grass, .grass, .grass, .forest, .grass, .dirt, .forest, .forest, .gold, .grass, .sand, .grass, .dirt, .grass]

/-- Row 7 of the terrain grid for seed 424242. -/
def gridRow424242y7 : List Tile := [.grass, .dirt, .grass, .grass, .gold, .grass, .sand, .dirt, .forest, .grass, .forest, .dirt, .grass, .sand, .grass, .grass, .grass, .grass, .grass, .grass, .grass, .grass, .forest, .grass, .grass, .dirt, .dirt, .dirt, .forest, .dirt, .grass, .grass, .grass, .forest, .grass, .grass, .dirt, .grass, .forest, .sand, .grass, .grass, .forest, .dirt, .water, .grass, .grass, .forest, .grass, .grass, .forest, .forest, .grass, .grass, .grass, .forest, .dirt, .forest, .forest, .water]

/-- Row 8 of the terrain grid for seed 424242. -/
def gridRow424242y8 : List Tile := [.dirt, .forest, .grass, .grass, .grass, .grass, .sand, .forest, .forest, .forest, .grass, .water, .dirt, .grass, .sand, .grass, .gold, .dirt, .gold, .grass, .grass, .forest, .dirt, .grass, .forest, .dirt, .forest, .grass, .grass, .forest, .grass, .grass, .dirt, .forest, .grass, .grass, .water, .grass, .grass, .dirt, .grass, .sand, .grass, .forest, .forest, .grass, .grass, .grass, .forest, .dirt, .dirt, .grass, .grass, .grass, .water, .forest, .sand, .dirt, .sand, .grass]

/-- Row 9 of the terrain grid for seed 424242. -/
def gridRow424242y9 : List Tile := [.gold, .forest, .grass, .dirt, .grass, .sand, .dirt, .water, .grass, .grass, .forest, .forest, .dirt, .grass, .forest, .dirt, .grass, .water, .grass, .grass, .grass, .grass, .sand, .grass, .gold, .grass, .grass, .forest, .forest, .grass, .forest, .forest, .grass, .forest, .forest, .grass, .sand, .grass, .dirt, .sand, .forest, .dirt, .grass, .grass, .dirt, .dirt, .forest, .grass, .grass, .gold, .sand, .grass, .sand, .dirt, .grass, .dirt, .grass, .grass, .grass, .grass]

/-- Row 10 of the terrain grid for seed 424242. -/
def gridRow424242y10 : List Tile := [.grass, .grass, .grass, .dirt, .grass, .forest, .grass, .grass, .grass, .grass, .grass, .water, .forest, .grass, .dirt, .forest, .forest, .grass, .gold, .grass, .dirt, .dirt, .grass, .sand, .forest, .grass, .sand, .dirt, .grass, .grass, .dirt, .sand, .grass, .gold, .water, .grass, .dirt, .dirt, .grass, .forest, .sand, .water, .grass, .forest, .grass, .grass, .grass, .grass, .dirt, .grass, .forest, .grass, .grass, .grass, .forest, .forest, .grass, .grass, .grass, .grass]

/-- Row 11 of the terrain grid for seed 424242. -/
def gridRow424242y11 : List Tile := [.grass, .forest, .grass, .dirt, .grass, .grass, .dirt, .forest, .dirt, .grass, .forest, .grass, .grass, .grass, .dirt, .grass, .grass, .water, .dirt, .grass, .forest, .grass, .gold, .grass, .dirt, .sand, .sand, .grass, .forest, .grass, .dirt, .dirt, .dirt, .sand, .grass, .dirt, .gold, .grass, .dirt, .grass, .forest, .water, .forest, .grass, .water, .grass, .dirt, .grass, .grass, .grass, .sand, .grass, .dirt, .forest, .grass, .grass, .dirt, .forest, .grass, .dirt]

/-- Row 12 of the terrain grid for seed 424242. -/
def gridRow424242y12 : List Tile := [.grass, .grass, .water, .water, .forest, .sand, .forest, .forest, .dirt, .sand, .grass, .grass, .grass, .dirt, .forest, .dirt, .gold, .grass, .grass, .grass, .sand, .dirt, .forest, .grass, .water, .dirt, .dirt, .grass, .grass, .sand, .grass, .grass, .forest, .dirt, .grass, .water, .dirt, .water, .forest, .grass, .grass, .grass, .grass, .grass, .grass, .forest, .grass, .grass, .water, .sand, .grass, .dirt, .sand, .grass, .grass, .dirt, .grass, .grass, .grass, .forest]

/-- Row 13 of the terrain grid for seed 424242. -/
def gridRow424242y13 : List Tile := [.grass, .grass, .grass, .dirt, .grass, .sand, .dirt, .grass, .water, .forest, .grass, .sand, .forest, .forest, .grass, .forest, .dirt, .sand, .grass, .grass, .dirt, .water, .grass, .grass, .grass, .forest, .forest, .grass, .grass, .grass, .grass, .grass, .forest, .gold, .grass, .grass, .grass, .grass, .grass, .grass, .grass, .forest, .grass, .gold, .grass, .grass, .forest, .grass, .grass, .dirt, .grass, .grass, .dirt, .grass, .grass, .grass, .dirt, .grass, .grass, .dirt]

/-- Row 14 of the terrain grid for seed 424242. -/
def gridRow424242y14 : List Tile := [.forest, .grass, .forest, .forest, .dirt, .forest, .forest, .grass, .forest, .forest, .grass, .forest, .grass, .sand, .grass, .gold, .dirt, .dirt, .grass, .grass, .sand, .grass, .dirt, .dirt, .forest, .forest, .sand, .dirt, .forest, .forest, .gold, .forest, .forest, .dirt, .grass, .sand, .forest, .grass, .grass, .forest, .forest, .dirt, .forest, .grass, .grass, .dirt, .dirt, .forest, .forest, .grass, .dirt, .grass, .sand, .dirt, .dirt, .grass, .grass, .grass, .forest, .forest]

/-- Row 15 of the terrain grid for seed 424242. -/
def gridRow424242y15 : List Tile := [.forest, .grass, .grass, .dirt, .sand, .forest, .grass, .dirt, .dirt, .grass, .grass, .forest, .grass, .grass, .grass, .grass, .grass, .grass, .grass, .grass, .grass, .dirt, .gold, .grass, .forest, .grass, .sand, .dirt, .dirt, .grass, .grass, .dirt, .grass, .forest, .gold, .grass, .grass, .grass, .grass, .forest, .sand, .grass, .grass, .forest, .dirt, .grass, .water, .grass, .grass, .grass, .grass, .forest, .forest, .sand, .sand, .grass, .grass, .grass, .dirt, .forest]

/-- Row 16 of the terrain grid for seed 424242. -/
def gridRow424242y16 : List Tile := [.grass, .sand, .dirt, .forest, .grass, .dirt, .grass, .grass, .grass, .forest, .grass, .grass, .forest, .grass, .grass, .grass, .forest, .grass, .forest, .grass, .forest, .sand, .grass, .grass, .grass, .forest, .water, .forest, .grass, .water, .grass, .grass, .dirt, .forest, .grass, .forest, .dirt, .grass, .grass, .grass, .grass, .dirt, .sand, .grass, .forest, .forest, .dirt, .grass, .grass, .gold, .grass, .grass, .water, .grass, .gold, .grass, .dirt, .grass, .grass, .grass]

/-- Row 17 of the terrain grid for seed 424242. -/
def gridRow424242y17 : List Tile := [.forest, .grass, .grass, .grass, .grass, .dirt, .dirt, .forest, .water, .forest, .forest, .grass, .gold, .grass, .grass, .grass, .grass, .grass, .grass, .forest, .dirt, .grass, .grass, .water, .grass, .grass, .grass, .sand, .grass, .forest, .dirt, .grass, .dirt, .grass, .gold, .forest, .dirt, .sand, .grass, .forest, .grass, .grass, .grass, .forest, .sand, .grass, .grass, .dirt, .forest, .gold, .grass, .grass, .forest, .forest, .grass, .water, .forest, .grass, .grass, .grass]

/-- Row 18 of the terrain grid for seed 424242. -/
def gridRow424242y18 : List Tile := [.grass, .grass, .grass, .grass, .dirt, .dirt, .grass, .forest, .forest, .grass, .grass, .dirt, .forest, .water, .dirt, .forest, .grass, .grass, .grass, .grass, .grass, .grass, .gold, .dirt, .grass, .grass, .dirt, .dirt, .dirt, .forest, .gold, .sand, .water, .water, .grass, .grass, .grass, .forest, .forest, .grass, .grass, .forest, .forest, .dirt, .dirt, .grass, .grass, .forest, .grass, .dirt, .grass, .grass, .dirt, .water, .grass, .dirt, .forest, .grass, .grass, .grass]

/-- Row 19 of the terrain grid for seed 424242. -/
def gridRow424242y19 : List Tile := [.grass, .grass, .sand, .water, .forest, .grass, .grass, .forest, .grass, .grass, .grass, .dirt, .water, .sand, .forest, .grass, .grass, .grass, .forest, .forest, .dirt, .grass, .sand, .water, .grass, .grass, .grass, .forest, .grass, .grass, .forest, .sand, .forest, .water, .grass, .dirt, .sand, .water, .dirt, .sand, .grass, .forest, .grass, .dirt, .sand, .forest, .forest, .grass, .grass, .dirt, .grass, .forest, .dirt, .grass, .grass, .grass, .forest, .grass, .grass, .grass]

/-- Row 20 of the terrain grid for seed 424242. -/
def gridRow424242y20 : List Tile := [.grass, .grass, .forest, .forest, .grass, .forest, .dirt, .forest, .grass, .grass, .forest, .sand, .grass, .grass, .grass, .grass, .grass, .forest, .grass, .dirt, .grass, .grass, .grass, .sand, .grass, .grass, .dirt, .dirt, .grass, .grass, .grass, .grass, .dirt, .forest, .grass, .gold, .dirt, .grass, .gold, .grass, .forest, .grass, .forest, .grass, .grass, .grass, .dirt, .forest, .grass, .grass, .grass, .forest, .grass, .grass, .grass, .grass, .grass, .water, .dirt, .forest]

/-- Row 21 of the terrain grid for seed 424242. -/
def gridRow424242y21 : List Tile := [.sand, .forest, .dirt, .forest, .grass, .dirt, .grass, .grass, .dirt, .forest, .dirt, .grass, .sand, .forest, .sand, .forest, .sand, .forest, .grass, .grass, .grass, .dirt, .forest, .gold, .grass, .water, .grass, .forest, .forest, .forest, .grass, .forest, .grass, .grass, .sand, .dirt, .grass, .grass, .forest, .gold, .gold, .water, .sand, .dirt, .forest, .grass, .grass, .forest, .dirt, .dirt, .grass, .forest, .dirt, .dirt, .grass, .dirt, .dirt, .grass, .grass, .gold]

/-- Row 22 of the terrain grid for seed 424242. -/
def gridRow424242y22 : List Tile := [.forest, .grass, .dirt, .grass, .forest, .grass, .grass, .forest, .forest, .gold, .forest, .forest, .grass, .grass, .gold, .grass, .grass, .dirt, .grass, .sand, .dirt, .dirt, .grass, .grass, .grass, .grass, .dirt, .grass, .grass, .forest, .water, .grass, .water, .water, .grass, .forest, .forest, .grass, .sand, .grass, .forest, .grass, .grass, .grass, .dirt, .grass, .grass, .grass, .dirt, .grass, .water, .dirt, .grass, .grass, .grass, .dirt, .sand, .dirt, .dirt, .dirt]

/-- Row 23 of the terrain grid for seed 424242. -/
def gridRow424242y23 : List Tile := [.grass, .gold, .dirt, .forest, .forest, .gold, .grass, .grass, .sand, .forest, .grass, .grass, .grass, .grass, .dirt, .grass, .water, .grass, .grass, .forest, .forest, .forest, .grass, .forest, .grass, .grass, .dirt, .grass, .grass, .forest, .forest, .grass, .forest, .grass, .grass, .water, .grass, .grass, .grass, .forest, .forest, .grass, .forest, .grass, .grass, .sand, .dirt, .grass, .dirt, .grass, .grass, .forest, .grass, .grass, .grass, .forest, .grass, .grass, .sand, .grass]

/-- Row 24 of the terrain grid for seed 424242. -/
def gridRow424242y24 : List Tile := [.grass, .dirt, .grass, .grass, .grass, .grass, .dirt, .grass, .sand, .dirt, .grass, .dirt, .dirt, .sand, .forest, .grass, .grass, .dirt, .grass, .grass, .forest, .dirt, .grass, .dirt, .dirt, .grass, .grass, .sand, .gold, .grass, .grass, .grass, .grass, .sand, .grass, .grass, .forest, .water, .grass, .grass, .grass, .water, .dirt, .grass, .sand, .sand, .dirt, .grass, .grass, .grass, .forest, .forest, .grass, .grass, .sand, .grass, .forest, .grass, .sand, .grass]

/-- Row 25 of the terrain grid for seed 424242. -/
def gridRow424242y25 : List Tile := [.forest, .grass, .grass, .dirt, .grass, .grass, .grass, .grass, .sand, .grass, .grass, .grass, .water, .sand, .sand, .forest, .grass, .grass, .grass, .dirt, .forest, .forest, .grass, .grass, .sand, .grass, .grass, .forest, .grass, .grass, .water, .grass, .grass, .forest, .grass, .grass, .water, .grass, .dirt, .grass, .forest, .grass, .grass, .grass, .grass, .sand, .grass, .grass, .gold, .grass, .grass, .forest, .forest, .grass, .forest, .gold, .sand, .water, .grass, .grass]

/-- Row 26 of the terrain grid for seed 424242. -/
def gridRow424242y26 : List Tile := [.grass, .grass, .grass, .grass, .gold, .grass, .dirt, .forest, .grass, .forest, .forest, .dirt, .grass, .grass, .sand, .forest, .grass, .water, .forest, .water, .grass, .grass, .forest, .dirt, .forest, .forest, .grass, .grass, .forest, .forest, .grass, .dirt, .sand, .grass, .forest, .forest, .forest, .forest, .grass, .forest, .grass, .grass, .grass, .forest, .grass, .grass, .grass, .grass, .dirt, .grass, .dirt, .grass, .sand, .grass, .forest, .grass, .grass, .forest, .dirt, .grass]

/-- Row 27 of the terrain grid for seed 424242. -/
def gridRow424242y27 : List Tile := [.sand, .forest, .grass, .sand, .grass, .dirt, .grass, .grass, .forest, .dirt, .water, .dirt, .grass, .dirt, .water, .forest, .grass, .forest, .grass, .grass, .dirt, .grass, .grass, .grass, .grass, .grass, .grass, .water, .grass, .grass, .grass, .grass, .forest, .grass, .grass, .gold, .dirt, .grass, .grass, .water, .forest, .forest, .grass, .grass, .sand, .grass, .water, .forest, .gold, .forest, .grass, .grass, .dirt, .grass, .grass, .dirt, .grass, .grass, .grass, .sand]

/-- Row 28 of the terrain grid for seed 424242. -/
def gridRow424242y28 : List Tile := [.grass, .grass, .grass, .grass, .dirt, .sand, .forest, .sand, .dirt, .sand, .sand, .forest, .grass, .grass, .grass, .dirt, .dirt, .grass, .grass, .grass, .sand, .grass, .forest, .grass, .grass, .grass, .grass, .grass, .water, .forest, .forest, .sand, .sand, .grass, .grass, .grass, .grass, .grass, .grass, .grass, .grass, .grass, .forest, .grass, .forest, .grass, .water, .dirt, .dirt, .grass, .grass, .grass, .grass, .grass, .dirt, .dirt, .forest, .sand, .gold, .grass]

/-- Row 29 of the terrain grid for seed 424242. -/
def gridRow424242y29 : List Tile := [.water, .grass, .dirt, .grass, .sand, .dirt, .dirt, .forest, .grass, .grass, .forest, .grass, .grass, .grass, .dirt, .forest, .grass, .grass, .grass, .grass, .grass, .sand, .dirt, .forest, .dirt, .dirt, .forest, .grass, .dirt, .grass, .grass, .grass, .sand, .grass, .gold, .grass, .forest, .gold, .grass, .grass, .forest, .forest, .forest, .water, .forest, .grass, .dirt, .grass, .forest, .grass, .sand, .dirt, .grass, .dirt, .forest, .dirt, .grass, .grass, .grass, .grass]

/-- Row 30 of the terrain grid for seed 424242. -/
def gridRow424242y30 : List Tile := [.grass, .grass, .forest, .grass, .dirt, .dirt, .sand, .sand, .sand, .grass, .forest, .forest, .forest, .grass, .grass, .grass, .dirt, .gold, .grass, .grass, .forest, .dirt, .dirt, .grass, .grass, .grass, .dirt, .dirt, .dirt, .grass, .forest, .grass, .sand, .forest, .grass, .forest, .forest, .water, .grass, .grass, .forest, .sand, .grass, .grass, .forest, .grass, .sand, .forest, .forest, .forest, .forest, .grass, .forest, .grass, .grass, .dirt, .grass, .grass, .grass, .grass]

/-- Row 31 of the terrain grid for seed 424242. -/
def gridRow424242y31 : List Tile := [.forest, .grass, .grass, .grass, .gold, .grass, .grass, .water, .grass, .grass, .grass, .grass, .forest, .forest, .dirt, .forest, .sand, .dirt, .dirt, .forest, .sand, .grass, .sand, .grass, .grass, .grass, .gold, .grass, .grass, .dirt, .gold, .grass, .grass, .grass, .grass, .grass, .dirt, .forest, .grass, .grass, .dirt, .dirt, .dirt, .forest, .grass, .dirt, .grass, .grass, .grass, .dirt, .dirt, .grass, .gold, .grass, .forest, .grass, .sand, .grass, .forest, .gold]

/-- Row 32 of the terrain grid for seed 424242. -/
def gridRow424242y32 : List Tile := [.grass, .dirt, .sand, .grass, .forest, .grass, .grass, .grass, .grass, .forest, .grass, .grass, .grass, .grass, .grass, .grass, .grass, .grass, .dirt, .sand, .grass, .water, .forest, .grass, .forest, .forest, .forest, .dirt, .forest, .forest, .grass, .sand, .forest, .grass, .dirt, .grass, .grass, .sand, .forest, .grass, .grass, .grass, .forest, .water, .dirt, .sand, .sand, .grass, .sand, .forest, .dirt, .sand, .grass, .grass, .grass, .dirt, .forest, .dirt, .grass, .grass]

/-- Row 33 of the terrain grid for seed 424242. -/
def gridRow424242y33 : List Tile := [.grass, .grass, .gold, .sand, .grass, .grass, .grass, .grass, .sand, .forest, .dirt, .sand, .forest, .forest, .dirt, .grass, .grass, .grass, .grass, .grass, .grass, .dirt, .grass, .grass, .gold, .forest, .sand, .grass, .grass, .forest, .dirt, .grass, .dirt, .grass, .dirt, .dirt, .grass, .grass, .grass, .forest, .grass, .sand, .grass, .sand, .sand, .forest, .grass, .grass, .dirt, .grass, .dirt, .grass, .grass, .grass, .dirt, .grass, .sand, .grass, .gold, .forest]

/-- Row 34 of the terrain grid for seed 424242. -/
def gridRow424242y34 : List Tile := [.forest, .grass, .dirt, .grass, .forest, .gold, .dirt, .dirt, .forest, .grass, .dirt, .grass, .grass, .grass, .dirt, .grass, .dirt, .grass, .gold, .grass, .forest, .grass, .dirt, .grass, .forest, .grass, .grass, .grass, .grass, .forest, .gold, .grass, .grass, .dirt, .grass, .forest, .grass, .forest, .grass, .forest, .dirt, .gold, .grass, .forest, .grass, .grass, .forest, .gold, .grass, .gold, .grass, .grass, .grass, .gold, .grass, .forest, .sand, .dirt, .dirt, .grass]

/-- Row 35 of the terrain grid for seed 424242. -/
def gridRow424242y35 : List Tile := [.grass, .grass, .forest, .grass, .dirt, .grass, .dirt, .forest, .forest, .forest, .forest, .grass, .grass, .forest, .grass, .dirt, .forest, .forest, .dirt, .grass, .grass, .dirt, .grass, .forest, .grass, .grass, .grass, .water, .grass, .grass, .grass, .grass, .sand, .dirt, .grass, .dirt, .grass, .forest, .forest, .grass, .grass, .forest, .grass, .forest, .forest, .grass, .forest, .forest, .sand, .grass, .grass, .forest, .grass, .sand, .dirt, .forest, .sand, .gold, .grass, .dirt]

/-- Row 36 of the terrain grid for seed 424242. -/
def gridRow424242y36 : List Tile := [.grass, .grass, .sand, .grass, .sand, .forest, .forest, .gold, .forest, .grass, .dirt, .sand, .grass, .forest, .grass, .grass, .grass, .dirt, .grass, .grass, .grass, .forest, .grass, .forest, .grass, .forest, .dirt, .grass, .grass, .dirt, .forest, .forest, .grass, .dirt, .sand, .forest, .grass, .forest, .grass, .forest, .grass, .forest, .sand, .grass, .sand, .dirt, .dirt, .dirt, .dirt, .grass, .grass, .grass, .forest, .forest, .grass, .dirt, .grass, .grass, .grass, .grass]

/-- Row 37 of the terrain grid for seed 424242. -/
def gridRow424242y37 : List Tile := [.grass, .forest, .sand, .grass, .grass, .grass, .sand, .grass, .grass, .grass, .grass, .grass, .sand, .sand, .grass, .grass, .grass, .grass, .dirt, .water, .sand, .sand, .grass, .grass, .gold, .sand, .grass, .grass, .sand, .gold, .forest, .sand, .grass, .grass, .grass, .dirt, .grass, .grass, .dirt, .grass, .forest, .dirt, .sand, .grass, .grass, .grass, .grass, .forest, .grass, .dirt, .grass, .dirt, .water, .grass, .grass, .grass, .forest, .forest, .forest, .grass]

/-- Row 38 of the terrain grid for seed 424242. -/
def gridRow424242y38 : List Tile := [.dirt, .water, .grass, .grass, .dirt, .grass, .dirt, .forest, .dirt, .grass, .dirt, .dirt, .forest, .forest, .grass, .dirt, .dirt, .dirt, .forest, .grass, .forest, .grass, .grass, .grass, .grass, .grass, .grass, .dirt, .grass, .grass, .forest, .forest, .sand, .water, .forest, .grass, .grass, .dirt, .grass, .grass, .grass, .dirt, .forest, .water, .grass, .grass, .gold, .grass, .forest, .forest, .grass, .grass, .forest, .grass, .gold, .grass, .dirt, .dirt, .forest, .grass]

/-- Row 39 of the terrain grid for seed 424242. -/
def gridRow424242y39 : List Tile := [.dirt, .forest, .forest, .forest, .grass, .forest, .forest, .forest, .sand, .grass, .grass, .forest, .grass, .grass, .grass, .grass, .forest, .grass, .water, .grass, .sand, .sand, .dirt, .dirt, .grass, .grass, .grass, .gold, .grass, .dirt, .water, .grass, .forest, .sand, .forest, .grass, .grass, .grass, .grass, .grass, .grass, .sand, .grass, .grass, .forest, .dirt, .forest, .dirt, .grass, .grass, .dirt, .grass, .forest, .grass, .grass, .dirt, .grass, .grass, .grass, .dirt]

/-- Row 40 of the terrain grid for seed 424242. -/
def gridRow424242y40 : List Tile := [.dirt, .forest, .dirt, .grass, .grass, .forest, .forest, .grass, .grass, .dirt, .grass, .grass, .grass, .grass, .forest, .grass, .grass, .dirt, .grass, .grass, .sand, .grass, .forest, .forest, .sand, .grass, .grass, .water, .grass, .grass, .gold, .grass, .forest, .grass, .forest, .forest, .sand, .forest, .gold, .forest, .water, .grass, .grass, .sand, .grass, .grass, .sand, .dirt, .forest, .grass, .forest, .sand, .forest, .grass, .grass, .grass, .sand, .grass, .grass, .grass]

/-- Row 41 of the terrain grid for seed 424242. -/
def gridRow424242y41 : List Tile := [.grass, .forest, .grass, .grass, .grass, .grass, .grass, .grass, .forest, .forest, .grass, .sand, .forest, .grass, .dirt, .forest, .grass, .forest, .grass, .grass, .gold, .grass, .gold, .grass, .water, .grass, .grass, .grass, .grass, .grass, .dirt, .forest, .forest, .sand, .forest, .grass, .sand, .dirt, .forest, .grass, .grass, .forest, .forest, .water, .grass, .gold, .gold, .sand, .grass, .forest, .grass, .grass, .forest, .forest, .dirt, .grass, .grass, .grass, .dirt, .gold]

/-- Row 42 of the terrain grid for seed 424242. -/
def gridRow424242y42 : List Tile := [.gold, .dirt, .dirt, .grass, .forest, .grass, .grass, .dirt, .sand, .grass, .forest, .water, .grass, .forest, .water, .water, .water, .grass, .grass, .grass, .grass, .sand, .grass, .forest, .grass, .forest, .grass, .grass, .grass, .grass, .grass, .dirt, .grass, .forest, .grass, .forest, .forest, .gold, .sand, .grass, .forest, .dirt, .water, .forest, .sand, .grass, .grass, .grass, .forest, .gold, .sand, .grass, .grass, .dirt, .dirt, .grass, .grass, .grass, .grass, .water]

/-- Row 43 of the terrain grid for seed 424242. -/
def gridRow424242y43 : List Tile := [.dirt, .grass, .grass, .grass, .sand, .forest, .grass, .grass, .grass, .dirt, .grass, .dirt, .sand, .sand, .forest, .forest, .grass, .grass, .forest, .grass, .forest, .grass, .forest, .forest, .grass, .grass, .forest, .grass, .grass, .dirt, .sand, .grass, .dirt, .dirt, .forest, .water, .grass, .dirt, .dirt, .dirt, .grass, .forest, .dirt, .grass, .dirt, .forest, .water, .dirt, .dirt, .grass, .water, .dirt, .dirt, .sand, .dirt, .grass, .sand, .grass, .forest, .grass]

/-- Row 44 of the terrain grid for seed 424242. -/
def gridRow424242y44 : List Tile := [.water, .sand, .dirt, .gold, .dirt, .forest, .dirt, .forest, .grass, .forest, .dirt, .forest, .grass, .dirt, .gold, .water, .sand, .grass, .grass, .forest, .dirt, .grass, .grass, .grass, .grass, .forest, .grass, .forest, .dirt, .grass, .dirt, .grass, .sand, .grass, .grass, .sand, .grass, .grass, .dirt, .grass, .grass, .water, .grass, .forest, .gold, .grass, .forest, .grass, .grass, .grass, .dirt, .sand, .grass, .grass, .grass, .gold, .forest, .grass, .forest, .forest]

/-- Row 45 of the terrain grid for seed 424242. -/
def gridRow424242y45 : List Tile := [.dirt, .forest, .dirt, .water, .grass, .forest, .grass, .forest, .forest, .grass, .grass, .grass, .grass, .grass, .grass, .grass, .gold, .grass, .grass, .grass, .grass, .forest, .grass, .grass, .grass, .dirt, .grass, .grass, .forest, .grass, .dirt, .sand, .grass, .grass, .grass, .grass, .dirt, .grass, .grass, .grass, .dirt, .grass, .forest, .dirt, .sand, .forest, .grass, .dirt, .forest, .grass, .forest, .sand, .forest, .dirt, .grass, .dirt, .dirt, .grass, .grass, .dirt]

/-- Row 46 of the terrain grid for seed 424242. -/
def gridRow424242y46 : List Tile := [.forest, .dirt, .grass, .forest, .grass, .grass, .grass, .forest, .grass, .forest, .dirt, .grass, .grass, .grass, .grass, .dirt, .sand, .grass, .grass, .forest, .sand, .forest, .grass, .grass, .dirt, .forest, .forest, .grass, .dirt, .grass, .forest, .dirt, .forest, .grass, .grass, .grass, .grass, .grass, .grass, .grass, .dirt, .grass, .grass, .dirt, .gold, .dirt, .dirt, .grass, .forest, .grass, .sand, .grass, .forest, .grass, .grass, .grass, .forest, .grass, .grass, .grass]

/-- Row 47 of the terrain grid for seed 424242. -/
def gridRow424242y47 : List Tile := [.forest, .dirt, .grass, .grass, .dirt, .grass, .forest, .forest, .grass, .grass, .dirt, .grass, .forest, .dirt, .dirt, .grass, .gold, .grass, .sand, .dirt, .grass, .forest, .forest, .grass, .forest, .dirt, .grass, .grass, .gold, .grass, .grass, .grass, .sand, .forest, .grass, .grass, .grass, .forest, .grass, .sand, .grass, .grass, .grass, .water, .grass, .grass, .water, .sand, .dirt, .dirt, .gold, .grass, .dirt, .grass, .grass, .grass, .grass, .grass, .water, .dirt]

/-- Row 48 of the terrain grid for seed 424242. -/
def gridRow424242y48 : List Tile := [.grass, .grass, .grass, .grass, .water, .forest, .grass, .grass, .sand, .dirt, .grass, .dirt, .grass, .grass, .grass, .grass, .forest, .grass, .gold, .grass, .grass, .sand, .sand, .grass, .grass, .grass, .dirt, .grass, .grass, .grass, .grass, .forest, .grass, .grass, .grass, .grass, .forest, .gold, .grass, .forest, .forest, .dirt, .dirt, .forest, .forest, .grass, .grass, .dirt, .grass, .grass, .grass, .grass, .forest, .forest, .grass, .dirt, .dirt, .grass, .grass, .grass]

/-- Row 49 of the terrain grid for seed 424242. -/
def gridRow424242y49 : List Tile := [.sand, .dirt, .grass, .forest, .grass, .grass, .gold, .forest, .dirt, .grass, .dirt, .water, .forest, .forest, .grass, .forest, .grass, .forest, .water, .sand, .sand, .dirt, .grass, .forest, .forest, .water, .grass, .sand, .grass, .grass, .sand, .grass, .grass, .grass, .forest, .gold, .water, .dirt, .grass, .sand, .grass, .gold, .grass, .grass, .dirt, .forest, .grass, .forest, .grass, .dirt, .forest, .grass, .grass, .grass, .sand, .forest, .sand, .sand, .grass, .grass]

/-- Row 50 of the terrain grid for seed 424242. -/
def gridRow424242y50 : List Tile := [.dirt, .grass, .grass, .grass, .grass, .dirt, .grass, .grass, .gold, .dirt, .grass, .grass, .dirt, .grass, .grass, .dirt, .dirt, .grass, .grass, .forest, .forest, .dirt, .grass, .dirt, .grass, .forest, .grass, .sand, .dirt, .grass, .grass, .grass, .forest, .forest, .grass, .grass, .forest, .forest, .sand, .grass, .grass, .dirt, .grass, .water, .grass, .water, .grass, .grass, .grass, .dirt, .dirt, .grass, .sand, .grass, .grass, .grass, .grass, .forest, .grass, .dirt]

/-- Row 51 of the terrain grid for seed 424242. -/
def gridRow424242y51 : List Tile := [.grass, .grass, .forest, .water, .grass, .grass, .dirt, .grass, .sand, .water, .grass, .grass, .grass, .grass, .grass, .dirt, .sand, .forest, .grass, .grass, .dirt, .gold, .grass, .grass, .grass, .dirt, .gold, .forest, .forest, .dirt, .grass, .grass, .grass, .grass, .forest, .grass, .grass, .grass, .dirt, .dirt, .grass, .dirt, .forest, .grass, .sand, .grass, .gold, .forest, .grass, .dirt, .grass, .grass, .grass, .water, .dirt, .grass, .forest, .forest, .grass, .grass]

/-- Row 52 of the terrain grid for seed 424242. -/
def gridRow424242y52 : List Tile := [.gold, .forest, .dirt, .grass, .grass, .grass, .grass, .grass, .gold, .grass, .forest, .forest, .grass, .grass, .grass, .grass, .sand, .gold, .grass, .dirt, .forest, .dirt, .grass, .forest, .grass, .sand, .dirt, .grass, .grass, .grass, .sand, .grass, .grass, .dirt, .forest, .grass, .grass, .sand, .grass, .water, .grass, .grass, .grass, .grass, .grass, .grass, .grass, .grass, .grass, .sand, .dirt, .grass, .grass, .dirt, .grass, .sand, .sand, .grass, .grass, .grass]

/-- Row 53 of the terrain grid for seed 424242. -/
def gridRow424242y53 : List Tile := [.dirt, .forest, .water, .dirt, .forest, .dirt, .forest, .forest, .grass, .dirt, .dirt, .grass, .grass, .sand, .grass, .grass, .grass, .dirt, .grass, .water, .grass, .forest, .dirt, .grass, .gold, .grass, .sand, .grass, .grass, .grass, .grass, .dirt, .sand, .grass, .sand, .water, .water, .grass, .gold, .grass, .sand, .grass, .grass, .forest, .grass, .grass, .dirt, .grass, .grass, .forest, .grass, .grass, .forest, .grass, .grass, .grass, .grass, .forest, .gold, .grass]

/-- Row 54 of the terrain grid for seed 424242. -/
def gridRow424242y54 : List Tile := [.grass, .grass, .forest, .forest, .grass, .forest, .sand, .grass, .forest, .sand, .grass, .grass, .dirt, .grass, .forest, .grass, .dirt, .grass, .grass, .grass, .dirt, .forest, .grass, .forest, .forest, .sand, .dirt, .forest, .dirt, .grass, .grass, .grass, .dirt, .forest, .forest, .grass, .grass, .forest, .water, .forest, .grass, .grass, .grass, .grass, .sand, .grass, .grass, .sand, .grass, .grass, .dirt, .dirt, .grass, .grass, .grass, .dirt, .grass, .forest, .grass, .grass]

/-- Row 55 of the terrain grid for seed 424242. -/
def gridRow424242y55 : List Tile := [.forest, .sand, .gold, .dirt, .forest, .forest, .grass, .dirt, .dirt, .water, .grass, .dirt, .dirt, .dirt, .grass, .grass, .grass, .gold, .grass, .grass, .sand, .grass, .dirt, .grass, .forest, .forest, .dirt, .grass, .forest, .grass, .forest, .dirt, .gold, .grass, .grass, .forest, .grass, .forest, .dirt, .dirt, .grass, .water, .grass, .grass, .forest, .grass, .grass, .grass, .grass, .dirt, .dirt, .dirt, .grass, .grass, .forest, .grass, .grass, .grass, .grass, .grass]

/-- Row 56 of the terrain grid for seed 424242. -/
def gridRow424242y56 : List Tile := [.dirt, .forest, .grass, .grass, .forest, .grass, .forest, .grass, .grass, .forest, .forest, .forest, .forest, .forest, .grass, .sand, .forest, .dirt, .gold, .grass, .grass, .grass, .water, .grass, .grass, .grass, .water, .water, .water, .grass, .grass, .grass, .gold, .forest, .water, .sand, .water, .sand, .grass, .grass, .grass, .sand, .grass, .forest, .dirt, .grass, .grass, .grass, .water, .dirt, .grass, .grass, .grass, .sand, .gold, .grass, .grass, .grass, .grass, .grass]

/-- Row 57 of the terrain grid for seed 424242. -/
def gridRow424242y57 : List Tile := [.grass, .grass, .grass, .forest, .forest, .forest, .grass, .grass, .grass, .forest, .dirt, .forest, .grass, .forest, .forest, .forest, .dirt, .dirt, .sand, .grass, .dirt, .dirt, .grass, .sand, .forest, .grass, .grass, .dirt, .sand, .grass, .forest, .gold, .gold, .forest, .forest, .forest, .grass, .grass, .grass, .sand, .forest, .water, .gold, .forest, .grass, .dirt, .grass, .grass, .gold, .grass, .grass, .dirt, .grass, .grass, .forest, .grass, .grass, .grass, .grass, .grass]

/-- Row 58 of the terrain grid for seed 424242. -/
def gridRow424242y58 : List Tile := [.grass, .grass, .gold, .gold, .water, .grass, .grass, .grass, .dirt, .grass, .dirt, .grass, .grass, .grass, .forest, .grass, .water, .dirt, .sand, .forest, .sand, .grass, .gold, .grass, .grass, .grass, .dirt, .water, .grass, .grass, .grass, .forest, .forest, .forest, .forest, .sand, .forest, .grass, .dirt, .grass, .dirt, .grass, .dirt, .grass, .forest, .dirt, .grass, .grass, .grass, .forest, .grass, .grass, .water, .gold, .grass, .grass, .grass, .grass, .grass, .grass]

/-- Row 59 of the terrain grid for seed 424242. -/
def gridRow424242y59 : List Tile := [.grass, .forest, .forest, .forest, .forest, .gold, .forest, .grass, .forest, .grass, .grass, .water, .forest, .grass, .forest, .grass, .sand, .forest, .dirt, .grass, .forest, .grass, .grass, .grass, .grass, .water, .grass, .grass, .grass, .dirt, .forest, .dirt, .sand, .forest, .dirt, .water, .gold, .dirt, .forest, .dirt, .grass, .grass, .dirt, .forest, .sand, .grass, .grass, .grass, .grass, .grass, .grass, .sand, .forest, .grass, .grass, .grass, .grass, .grass, .grass, .grass]

/-- The tile grid the terrain loop of `generateMap` produces for seed 424242, before the resource loops overwrite cells. -/
def grid424242 : List (List Tile) := [gridRow424242y0, gridRow424242y1, gridRow424242y2, gridRow424242y3, gridRow424242y4, gridRow424242y5, gridRow424242y6, gridRow424242y7, gridRow424242y8, gridRow424242y9, gridRow424242y10, gridRow424242y11, gridRow424242y12, gridRow424242y13, gridRow424242y14, gridRow424242y15, gridRow424242y16, gridRow424242y17, gridRow424242y18, gridRow424242y19, gridRow424242y20, gridRow424242y21, gridRow424242y22, gridRow424242y23, gridRow424242y24, gridRow424242y25, gridRow424242y26, gridRow424242y27, gridRow424242y28, gridRow424242y29, gridRow424242y30, gridRow424242y31, gridRow424242y32, gridRow424242y33, gridRow424242y34, gridRow424242y35, gridRow424242y36, gridRow424242y37, gridRow424242y38, gridRow424242y39, gridRow424242y40, gridRow424242y41, gridRow424242y42, gridRow424242y43, gridRow424242y44, gridRow424242y45, gridRow424242y46, gridRow424242y47, gridRow424242y48, gridRow424242y49, gridRow424242y50, gridRow424242y51, gridRow424242y52, gridRow424242y53, gridRow424242y54, gridRow424242y55, gridRow424242y56, gridRow424242y57, gridRow424242y58, gridRow424242y59]

/-- The resource list of `generateMap` for seed 424242 with the global id counter starting at 0. -/
def res424242 : List Res := [
  ⟨0, .gold, 900, 180, 1594, 3000⟩,
  ⟨1, .gold, 1060, 2220, 2764, 3000⟩,
  ⟨2, .gold, 1820, 660, 2990, 3000⟩,
  ⟨3, .gold, 740, 1300, 1635, 3000⟩,
  ⟨4, .gold, 1900, 740, 2693, 3000⟩,
  ⟨5, .gold, 1180, 1300, 2598, 3000⟩,
  ⟨6, .gold, 460, 820, 1560, 3000⟩,
  ⟨7, .gold, 1100, 1780, 2859, 3000⟩,
  ⟨8, .wood, 1020, 1980, 1098, 1500⟩,
  ⟨9, .wood, 1300, 780, 1339, 1500⟩,
  ⟨10, .wood, 1620, 620, 1418, 1500⟩,
  ⟨11, .wood, 2140, 1740, 1282, 1500⟩,
  ⟨12, .wood, 1420, 700, 832, 1500⟩,
  ⟨13, .wood, 180, 620, 1288, 1500⟩,
  ⟨14, .wood, 1020, 2220, 1197, 1500⟩,
  ⟨15, .wood, 460, 1940, 853, 1500⟩,
  ⟨16, .wood, 1780, 1580, 1293, 1500⟩,
  ⟨17, .wood, 1900, 1940, 993, 1500⟩,
  ⟨18, .wood, 980, 1380, 1116, 1500⟩,
  ⟨19, .wood, 100, 1820, 836, 1500⟩,
  ⟨20, .wood, 1700, 2060, 826, 1500⟩,
  ⟨21, .wood, 1940, 420, 1159, 1500⟩,
  ⟨22, .wood, 2020, 1180, 817, 1500⟩,
  ⟨23, .wood, 1820, 980, 1266, 1500⟩,
  ⟨24, .wood, 1980, 1980, 1327, 1500⟩,
  ⟨25, .wood, 2140, 1940, 1491, 1500⟩,
  ⟨26, .wood, 1220, 460, 1287, 1500⟩]

/-- The resource list of a second sequentially constructed engine for seed 424242: identical except ids continue from the advanced global counter. -/
def res424242b : List Res := [
  ⟨27, .gold, 900, 180, 1594, 3000⟩,
  ⟨28, .gold, 1060, 2220, 2764, 3000⟩,
  ⟨29, .gold, 1820, 660, 2990, 3000⟩,
  ⟨30, .gold, 740, 1300, 1635, 3000⟩,
  ⟨31, .gold, 1900, 740, 2693, 3000⟩,
  ⟨32, .gold, 1180, 1300, 2598, 3000⟩,
  ⟨33, .gold, 460, 820, 1560, 3000⟩,
  ⟨34, .gold, 1100, 1780, 2859, 3000⟩,
  ⟨35, .wood, 1020, 1980, 1098, 1500⟩,
  ⟨36, .wood, 1300, 780, 1339, 1500⟩,
  ⟨37, .wood, 1620, 620, 1418, 1500⟩,
  ⟨38, .wood, 2140, 1740, 1282, 1500⟩,
  ⟨39, .wood, 1420, 700, 832, 1500⟩,
  ⟨40, .wood, 180, 620, 1288, 1500⟩,
  ⟨41, .wood, 1020, 2220, 1197, 1500⟩,
  ⟨42, .wood, 460, 1940, 853, 1500⟩,
  ⟨43, .wood, 1780, 1580, 1293, 1500⟩,
  ⟨44, .wood, 1900, 1940, 993, 1500⟩,
  ⟨45, .wood, 980, 1380, 1116, 1500⟩,
  ⟨46, .wood, 100, 1820, 836, 1500⟩,
  ⟨47, .wood, 1700, 2060, 826, 1500⟩,
  ⟨48, .wood, 1940, 420, 1159, 1500⟩,
  ⟨49, .wood, 2020, 1180, 817, 1500⟩,
  ⟨50, .wood, 1820, 980, 1266, 1500⟩,
  ⟨51, .wood, 1980, 1980, 1327, 1500⟩,
  ⟨52, .wood, 2140, 1940, 1491, 1500⟩,
  ⟨53, .wood, 1220, 460, 1287, 1500⟩]

/-- A grid row for seed 424242 after a resource-placement write. -/
def gridRow424242g0r4 : List Tile := [.grass, .grass, .grass, .grass, .grass, .grass, .grass, .grass, .grass, .grass, .dirt, .grass, .grass, .grass, .grass, .water, .grass, .water, .dirt, .forest, .dirt, .grass, .gold, .grass, .forest, .sand, .grass, .grass, .forest, .water, .grass, .grass, .grass, .sand, .grass, .dirt, .grass, .grass, .sand, .dirt, .grass, .gold, .dirt, .forest, .grass, .forest, .grass, .dirt, .sand, .grass, .grass, .dirt, .grass, .forest, .dirt, .grass, .dirt, .grass, .grass, .forest]

/-- A grid row for seed 424242 after a resource-placement write. -/
def gridRow424242g2r55 : List Tile := [.forest, .sand, .gold, .dirt, .forest, .forest, .grass, .dirt, .dirt, .water, .grass, .dirt, .dirt, .dirt, .grass, .grass, .grass, .gold, .grass, .grass, .sand, .grass, .dirt, .grass, .forest, .forest, .gold, .grass, .forest, .grass, .forest, .dirt, .gold, .grass, .grass, .forest, .grass, .forest, .dirt, .dirt, .grass, .water, .grass, .grass, .forest, .grass, .grass, .grass, .grass, .dirt, .dirt, .dirt, .grass, .grass, .forest, .grass, .grass, .grass, .grass, .grass]

/-- A grid row for seed 424242 after a resource-placement write. -/
def gridRow424242g4r16 : List Tile := [.grass, .sand, .dirt, .forest, .grass, .dirt, .grass, .grass, .grass, .forest, .grass, .grass, .forest, .grass, .grass, .grass, .forest, .grass, .forest, .grass, .forest, .sand, .grass, .grass, .grass, .forest, .water, .forest, .grass, .water, .grass, .grass, .dirt, .forest, .grass, .forest, .dirt, .grass, .grass, .grass, .grass, .dirt, .sand, .grass, .forest, .gold, .dirt, .grass, .grass, .gold, .grass, .grass, .water, .grass, .gold, .grass, .dirt, .grass, .grass, .grass]

/-- A grid row for seed 424242 after a resource-placement write. -/
def gridRow424242g5r32 : List Tile := [.grass, .dirt, .sand, .grass, .forest, .grass, .grass, .grass, .grass, .forest, .grass, .grass, .grass, .grass, .grass, .grass, .grass, .grass, .gold, .sand, .grass, .water, .forest, .grass, .forest, .forest, .forest, .dirt, .forest, .forest, .grass, .sand, .forest, .grass, .dirt, .grass, .grass, .sand, .forest, .grass, .grass, .grass, .forest, .water, .dirt, .sand, .sand, .grass, .sand, .forest, .dirt, .sand, .grass, .grass, .grass, .dirt, .forest, .dirt, .grass, .grass]

/-- A grid row for seed 424242 after a resource-placement write. -/
def gridRow424242g6r18 : List Tile := [.grass, .grass, .grass, .grass, .dirt, .dirt, .grass, .forest, .forest, .grass, .grass, .dirt, .forest, .water, .dirt, .forest, .grass, .grass, .grass, .grass, .grass, .grass, .gold, .dirt, .grass, .grass, .dirt, .dirt, .dirt, .forest, .gold, .sand, .water, .water, .grass, .grass, .grass, .forest, .forest, .grass, .grass, .forest, .forest, .dirt, .dirt, .grass, .grass, .gold, .grass, .dirt, .grass, .grass, .dirt, .water, .grass, .dirt, .forest, .grass, .grass, .grass]

/-- A grid row for seed 424242 after a resource-placement write. -/
def gridRow424242g10r32 : List Tile := [.grass, .dirt, .sand, .grass, .forest, .grass, .grass, .grass, .grass, .forest, .grass, .grass, .grass, .grass, .grass, .grass, .grass, .grass, .gold, .sand, .grass, .water, .forest, .grass, .forest, .forest, .forest, .dirt, .forest, .gold, .grass, .sand, .forest, .grass, .dirt, .grass, .grass, .sand, .forest, .grass, .grass, .grass, .forest, .water, .dirt, .sand, .sand, .grass, .sand, .forest, .dirt, .sand, .grass, .grass, .grass, .dirt, .forest, .dirt, .grass, .grass]

/-- A grid row for seed 424242 after a resource-placement write. -/
def gridRow424242g11r20 : List Tile := [.grass, .grass, .forest, .forest, .grass, .forest, .dirt, .forest, .grass, .grass, .forest, .gold, .grass, .grass, .grass, .grass, .grass, .forest, .grass, .dirt, .grass, .grass, .grass, .sand, .grass, .grass, .dirt, .dirt, .grass, .grass, .grass, .grass, .dirt, .forest, .grass, .gold, .dirt, .grass, .gold, .grass, .forest, .grass, .forest, .grass, .grass, .grass, .dirt, .forest, .grass, .grass, .grass, .forest, .grass, .grass, .grass, .grass, .grass, .water, .dirt, .forest]

/-- A grid row for seed 424242 after a resource-placement write. -/
def gridRow424242g21r44 : List Tile := [.water, .sand, .dirt, .gold, .dirt, .forest, .dirt, .forest, .grass, .forest, .dirt, .forest, .grass, .dirt, .gold, .water, .sand, .grass, .grass, .forest, .dirt, .grass, .grass, .grass, .grass, .forest, .grass, .gold, .dirt, .grass, .dirt, .grass, .sand, .grass, .grass, .sand, .grass, .grass, .dirt, .grass, .grass, .water, .grass, .forest, .gold, .grass, .forest, .grass, .grass, .grass, .dirt, .sand, .grass, .grass, .grass, .gold, .forest, .grass, .forest, .forest]

/-- A grid row for seed 424242 after a resource-placement write. -/
def gridRow424242f0r49 : List Tile := [.sand, .dirt, .grass, .forest, .grass, .grass, .gold, .forest, .dirt, .grass, .dirt, .water, .forest, .forest, .grass, .forest, .grass, .forest, .water, .sand, .sand, .dirt, .grass, .forest, .forest, .forest, .grass, .sand, .grass, .grass, .sand, .grass, .grass, .grass, .forest, .gold, .water, .dirt, .grass, .sand, .grass, .gold, .grass, .grass, .dirt, .forest, .grass, .forest, .grass, .dirt, .forest, .grass, .grass, .grass, .sand, .forest, .sand, .sand, .grass, .grass]

/-- A grid row for seed 424242 after a resource-placement write. -/
def gridRow424242f4r15 : List Tile := [.forest, .grass, .grass, .dirt, .sand, .forest, .grass, .dirt, .dirt, .grass, .grass, .forest, .grass, .grass, .grass, .grass, .grass, .grass, .grass, .grass, .grass, .dirt, .gold, .grass, .forest, .grass, .sand, .dirt, .dirt, .grass, .grass, .dirt, .grass, .forest, .gold, .grass, .grass, .grass, .grass, .forest, .forest, .grass, .grass, .forest, .dirt, .grass, .water, .grass, .grass, .grass, .grass, .forest, .forest, .sand, .sand, .grass, .grass, .grass, .dirt, .forest]

/-- A grid row for seed 424242 after a resource-placement write. -/
def gridRow424242f5r43 : List Tile := [.dirt, .grass, .grass, .grass, .sand, .forest, .grass, .grass, .grass, .dirt, .grass, .dirt, .sand, .sand, .forest, .forest, .grass, .grass, .forest, .grass, .forest, .grass, .forest, .forest, .grass, .grass, .forest, .grass, .grass, .dirt, .sand, .grass, .dirt, .dirt, .forest, .water, .grass, .dirt, .dirt, .dirt, .grass, .forest, .dirt, .grass, .dirt, .forest, .water, .dirt, .dirt, .grass, .water, .dirt, .dirt, .forest, .dirt, .grass, .sand, .grass, .forest, .grass]

/-- A grid row for seed 424242 after a resource-placement write. -/
def gridRow424242f8r15 : List Tile := [.forest, .grass, .grass, .dirt, .forest, .forest, .grass, .dirt, .dirt, .grass, .grass, .forest, .grass, .grass, .grass, .grass, .grass, .grass, .grass, .grass, .grass, .dirt, .gold, .grass, .forest, .grass, .sand, .dirt, .dirt, .grass, .grass, .dirt, .grass, .forest, .gold, .grass, .grass, .grass, .grass, .forest, .forest, .grass, .grass, .forest, .dirt, .grass, .water, .grass, .grass, .grass, .grass, .forest, .forest, .sand, .sand, .grass, .grass, .grass, .dirt, .forest]

/-- A grid row for seed 424242 after a resource-placement write. -/
def gridRow424242f10r48 : List Tile := [.grass, .grass, .grass, .grass, .water, .forest, .grass, .grass, .sand, .dirt, .grass, .forest, .grass, .grass, .grass, .grass, .forest, .grass, .gold, .grass, .grass, .sand, .sand, .grass, .grass, .grass, .dirt, .grass, .grass, .grass, .grass, .forest, .grass, .grass, .grass, .grass, .forest, .gold, .grass, .forest, .forest, .dirt, .dirt, .forest, .forest, .grass, .grass, .dirt, .grass, .grass, .grass, .grass, .forest, .forest, .grass, .dirt, .dirt, .grass, .grass, .grass]

/-- A grid row for seed 424242 after a resource-placement write. -/
def gridRow424242f16r48 : List Tile := [.grass, .grass, .grass, .grass, .water, .forest, .grass, .grass, .sand, .dirt, .grass, .forest, .grass, .grass, .grass, .grass, .forest, .grass, .gold, .grass, .grass, .sand, .sand, .grass, .grass, .grass, .dirt, .grass, .grass, .grass, .grass, .forest, .grass, .grass, .grass, .grass, .forest, .gold, .grass, .forest, .forest, .dirt, .dirt, .forest, .forest, .grass, .grass, .forest, .grass, .grass, .grass, .grass, .forest, .forest, .grass, .dirt, .dirt, .grass, .grass, .grass]

/-- A grid row for seed 424242 after a resource-placement write. -/
def gridRow424242f20r45 : List Tile := [.dirt, .forest, .forest, .water, .grass, .forest, .grass, .forest, .forest, .grass, .grass, .grass, .grass, .grass, .grass, .grass, .gold, .grass, .grass, .grass, .grass, .forest, .grass, .grass, .grass, .dirt, .grass, .grass, .forest, .grass, .dirt, .sand, .grass, .grass, .grass, .grass, .dirt, .grass, .grass, .grass, .dirt, .grass, .forest, .dirt, .sand, .forest, .grass, .dirt, .forest, .grass, .forest, .sand, .forest, .dirt, .grass, .dirt, .dirt, .grass, .grass, .dirt]

/-- A grid row for seed 424242 after a resource-placement write. -/
def gridRow424242f23r10 : List Tile := [.grass, .grass, .grass, .dirt, .grass, .forest, .grass, .grass, .grass, .grass, .grass, .water, .forest, .grass, .dirt, .forest, .forest, .grass, .gold, .grass, .dirt, .dirt, .grass, .sand, .forest, .grass, .sand, .dirt, .grass, .grass, .dirt, .sand, .grass, .gold, .water, .grass, .dirt, .dirt, .grass, .forest, .sand, .water, .grass, .forest, .grass, .grass, .grass, .grass, .forest, .grass, .forest, .grass, .grass, .grass, .forest, .forest, .grass, .grass, .grass, .grass]

/-- A grid row for seed 424242 after a resource-placement write. -/
def gridRow424242f25r29 : List Tile := [.water, .grass, .dirt, .grass, .sand, .dirt, .dirt, .forest, .grass, .grass, .forest, .grass, .grass, .grass, .dirt, .forest, .grass, .grass, .grass, .grass, .grass, .sand, .dirt, .forest, .dirt, .dirt, .forest, .grass, .dirt, .grass, .grass, .grass, .sand, .grass, .gold, .grass, .forest, .gold, .grass, .grass, .forest, .forest, .forest, .water, .forest, .grass, .dirt, .grass, .forest, .grass, .forest, .dirt, .grass, .dirt, .forest, .dirt, .grass, .grass, .grass, .grass]

/-- A grid row for seed 424242 after a resource-placement write. -/
def gridRow424242f31r24 : List Tile := [.grass, .dirt, .grass, .grass, .grass, .grass, .dirt, .grass, .sand, .dirt, .grass, .dirt, .dirt, .sand, .forest, .grass, .grass, .dirt, .grass, .grass, .forest, .dirt, .grass, .dirt, .dirt, .grass, .grass, .sand, .gold, .grass, .grass, .grass, .grass, .sand, .grass, .grass, .forest, .water, .grass, .grass, .grass, .water, .dirt, .grass, .sand, .forest, .dirt, .grass, .grass, .grass, .forest, .forest, .grass, .grass, .sand, .grass, .forest, .grass, .sand, .grass]

/-- A grid row for seed 424242 after a resource-placement write. -/
def gridRow424242f32r49 : List Tile := [.sand, .dirt, .grass, .forest, .grass, .grass, .gold, .forest, .dirt, .grass, .dirt, .water, .forest, .forest, .grass, .forest, .grass, .forest, .water, .sand, .sand, .dirt, .grass, .forest, .forest, .forest, .grass, .sand, .grass, .grass, .sand, .grass, .grass, .grass, .forest, .gold, .water, .dirt, .grass, .sand, .grass, .gold, .grass, .grass, .dirt, .forest, .grass, .forest, .grass, .forest, .forest, .grass, .grass, .grass, .sand, .forest, .sand, .sand, .grass, .grass]

/-- A grid row for seed 424242 after a resource-placement write. -/
def gridRow424242f36r11 : List Tile := [.grass, .forest, .grass, .dirt, .grass, .grass, .dirt, .forest, .dirt, .grass, .forest, .grass, .grass, .grass, .dirt, .grass, .grass, .water, .dirt, .grass, .forest, .grass, .gold, .grass, .dirt, .sand, .sand, .grass, .forest, .grass, .forest, .dirt, .dirt, .sand, .grass, .dirt, .gold, .grass, .dirt, .grass, .forest, .water, .forest, .grass, .water, .grass, .dirt, .grass, .grass, .grass, .sand, .grass, .dirt, .forest, .grass, .grass, .dirt, .forest, .grass, .dirt]

/-- An intermediate grid during resource placement for seed 424242. -/
def grid424242g0out : List (List Tile) := [gridRow424242y0, gridRow424242y1, gridRow424242y2, gridRow424242y3, gridRow424242g0r4, gridRow424242y5, gridRow424242y6, gridRow424242y7, gridRow424242y8, gridRow424242y9, gridRow424242y10, gridRow424242y11, gridRow424242y12, gridRow424242y13, gridRow424242y14, gridRow424242y15, gridRow424242y16, gridRow424242y17, gridRow424242y18, gridRow424242y19, gridRow424242y20, gridRow424242y21, gridRow424242y22, gridRow424242y23, gridRow424242y24, gridRow424242y25, gridRow424242y26, gridRow424242y27, gridRow424242y28, gridRow424242y29, gridRow424242y30, gridRow424242y31, gridRow424242y32, gridRow424242y33, gridRow424242y34, gridRow424242y35, gridRow424242y36, gridRow424242y37, gridRow424242y38, gridRow424242y39, gridRow424242y40, gridRow424242y41, gridRow424242y42, gridRow424242y43, gridRow424242y44, gridRow424242y45, gridRow424242y46, gridRow424242y47, gridRow424242y48, gridRow424242y49, gridRow424242y50, gridRow424242y51, gridRow424242y52, gridRow424242y53, gridRow424242y54, gridRow424242y55, gridRow424242y56, gridRow424242y57, gridRow424242y58, gridRow424242y59]

/-- An intermediate grid during resource placement for seed 424242. -/
def grid424242g2out : List (List Tile) := [gridRow424242y0, gridRow424242y1, gridRow424242y2, gridRow424242y3, gridRow424242g0r4, gridRow424242y5, gridRow424242y6, gridRow424242y7, gridRow424242y8, gridRow424242y9, gridRow424242y10, gridRow424242y11, gridRow424242y12, gridRow424242y13, gridRow424242y14, gridRow424242y15, gridRow424242y16, gridRow424242y17, gridRow424242y18, gridRow424242y19, gridRow424242y20, gridRow424242y21, gridRow424242y22, gridRow424242y23, gridRow424242y24, gridRow424242y25, gridRow424242y26, gridRow424242y27, gridRow424242y28, gridRow424242y29, gridRow424242y30, gridRow424242y31, gridRow424242y32, gridRow424242y33, gridRow424242y34, gridRow424242y35, gridRow424242y36, gridRow424242y37, gridRow424242y38, gridRow424242y39, gridRow424242y40, gridRow424242y41, gridRow424242y42, gridRow424242y43, gridRow424242y44, gridRow424242y45, gridRow424242y46, gridRow424242y47, gridRow424242y48, gridRow424242y49, gridRow424242y50, gridRow424242y51, gridRow424242y52, gridRow424242y53, gridRow424242y54, gridRow424242g2r55, gridRow424242y56, gridRow424242y57, gridRow424242y58, gridRow424242y59]

/-- An intermediate grid during resource placement for seed 424242. -/
def grid424242g4out : List (List Tile) := [gridRow424242y0, gridRow424242y1, gridRow424242y2, gridRow424242y3, gridRow424242g0r4, gridRow424242y5, gridRow424242y6, gridRow424242y7, gridRow424242y8, gridRow424242y9, gridRow424242y10, gridRow424242y11, gridRow424242y12, gridRow424242y13, gridRow424242y14, gridRow424242y15, gridRow424242g4r16, gridRow424242y17, gridRow424242y18, gridRow424242y19, gridRow424242y20, gridRow424242y21, gridRow424242y22, gridRow424242y23, gridRow424242y24, gridRow424242y25, gridRow424242y26, gridRow424242y27, gridRow424242y28, gridRow424242y29, gridRow424242y30, gridRow424242y31, gridRow424242y32, gridRow424242y33, gridRow424242y34, gridRow424242y35, gridRow424242y36, gridRow424242y37, gridRow424242y38, gridRow424242y39, gridRow424242y40, gridRow424242y41, gridRow424242y42, gridRow424242y43, gridRow424242y44, gridRow424242y45, gridRow424242y46, gridRow424242y47, gridRow424242y48, gridRow424242y49, gridRow424242y50, gridRow424242y51, gridRow424242y52, gridRow424242y53, gridRow424242y54, gridRow424242g2r55, gridRow424242y56, gridRow424242y57, gridRow424242y58, gridRow424242y59]

/-- An intermediate grid during resource placement for seed 424242. -/
def grid424242g5out : List (List Tile) := [gridRow424242y0, gridRow424242y1, gridRow424242y2, gridRow424242y3, gridRow424242g0r4, gridRow424242y5, gridRow424242y6, gridRow424242y7, gridRow424242y8, gridRow424242y9, gridRow424242y10, gridRow424242y11, gridRow424242y12, gridRow424242y13, gridRow424242y14, gridRow424242y15, gridRow424242g4r16, gridRow424242y17, gridRow424242y18, gridRow424242y19, gridRow424242y20, gridRow424242y21, gridRow424242y22, gridRow424242y23, gridRow424242y24, gridRow424242y25, gridRow424242y26, gridRow424242y27, gridRow424242y28, gridRow424242y29, gridRow424242y30, gridRow424242y31, gridRow424242g5r32, gridRow424242y33, gridRow424242y34, gridRow424242y35, gridRow424242y36, gridRow424242y37, gridRow424242y38, gridRow424242y39, gridRow424242y40, gridRow424242y41, gridRow424242y42, gridRow424242y43, gridRow424242y44, gridRow424242y45, gridRow424242y46, gridRow424242y47, gridRow424242y48, gridRow424242y49, gridRow424242y50, gridRow424242y51, gridRow424242y52, gridRow424242y53, gridRow424242y54, gridRow424242g2r55, gridRow424242y56, gridRow424242y57, gridRow424242y58, gridRow424242y59]

/-- An intermediate grid during resource placement for seed 424242. -/
def grid424242g6out : List (List Tile) := [gridRow424242y0, gridRow424242y1, gridRow424242y2, gridRow424242y3, gridRow424242g0r4, gridRow424242y5, gridRow424242y6, gridRow424242y7, gridRow424242y8, gridRow424242y9, gridRow424242y10, gridRow424242y11, gridRow424242y12, gridRow424242y13, gridRow424242y14, gridRow424242y15, gridRow424242g4r16, gridRow424242y17, gridRow424242g6r18, gridRow424242y19, gridRow424242y20, gridRow424242y21, gridRow424242y22, gridRow424242y23, gridRow424242y24, gridRow424242y25, gridRow424242y26, gridRow424242y27, gridRow424242y28, gridRow424242y29, gridRow424242y30, gridRow424242y31, gridRow424242g5r32, gridRow424242y33, gridRow424242y34, gridRow424242y35, gridRow424242y36, gridRow424242y37, gridRow424242y38, gridRow424242y39, gridRow424242y40, gridRow424242y41, gridRow424242y42, gridRow424242y43, gridRow424242y44, gridRow424242y45, gridRow424242y46, gridRow424242y47, gridRow424242y48, gridRow424242y49, gridRow424242y50, gridRow424242y51, gridRow424242y52, gridRow424242y53, gridRow424242y54, gridRow424242g2r55, gridRow424242y56, gridRow424242y57, gridRow424242y58, gridRow424242y59]

/-- An intermediate grid during resource placement for seed 424242. -/
def grid424242g10out : List (List Tile) := [gridRow424242y0, gridRow424242y1, gridRow424242y2, gridRow424242y3, gridRow424242g0r4, gridRow424242y5, gridRow424242y6, gridRow424242y7, gridRow424242y8, gridRow424242y9, gridRow424242y10, gridRow424242y11, gridRow424242y12, gridRow424242y13, gridRow424242y14, gridRow424242y15, gridRow424242g4r16, gridRow424242y17, gridRow424242g6r18, gridRow424242y19, gridRow424242y20, gridRow424242y21, gridRow424242y22, gridRow424242y23, gridRow424242y24, gridRow424242y25, gridRow424242y26, gridRow424242y27, gridRow424242y28, gridRow424242y29, gridRow424242y30, gridRow424242y31, gridRow424242g10r32, gridRow424242y33, gridRow424242y34, gridRow424242y35, gridRow424242y36, gridRow424242y37, gridRow424242y38, gridRow424242y39, gridRow424242y40, gridRow424242y41, gridRow424242y42, gridRow424242y43, gridRow424242y44, gridRow424242y45, gridRow424242y46, gridRow424242y47, gridRow424242y48, gridRow424242y49, gridRow424242y50, gridRow424242y51, gridRow424242y52, gridRow424242y53, gridRow424242y54, gridRow424242g2r55, gridRow424242y56, gridRow424242y57, gridRow424242y58, gridRow424242y59]

/-- An intermediate grid during resource placement for seed 424242. -/
def grid424242g11out : List (List Tile) := [gridRow424242y0, gridRow424242y1, gridRow424242y2, gridRow424242y3, gridRow424242g0r4, gridRow424242y5, gridRow424242y6, gridRow424242y7, gridRow424242y8, gridRow424242y9, gridRow424242y10, gridRow424242y11, gridRow424242y12, gridRow424242y13, gridRow424242y14, gridRow424242y15, gridRow424242g4r16, gridRow424242y17, gridRow424242g6r18, gridRow424242y19, gridRow424242g11r20, gridRow424242y21, gridRow424242y22, gridRow424242y23, gridRow424242y24, gridRow424242y25, gridRow424242y26, gridRow424242y27, gridRow424242y28, gridRow424242y29, gridRow424242y30, gridRow424242y31, gridRow424242g10r32, gridRow424242y33, gridRow424242y34, gridRow424242y35, gridRow424242y36, gridRow424242y37, gridRow424242y38, gridRow424242y39, gridRow424242y40, gridRow424242y41, gridRow424242y42, gridRow424242y43, gridRow424242y44, gridRow424242y45, gridRow424242y46, gridRow424242y47, gridRow424242y48, gridRow424242y49, gridRow424242y50, gridRow424242y51, gridRow424242y52, gridRow424242y53, gridRow424242y54, gridRow424242g2r55, gridRow424242y56, gridRow424242y57, gridRow424242y58, gridRow424242y59]

/-- An intermediate grid during resource placement for seed 424242. -/
def grid424242g21out : List (List Tile) := [gridRow424242y0, gridRow424242y1, gridRow424242y2, gridRow424242y3, gridRow424242g0r4, gridRow424242y5, gridRow424242y6, gridRow424242y7, gridRow424242y8, gridRow424242y9, gridRow424242y10, gridRow424242y11, gridRow424242y12, gridRow424242y13, gridRow424242y14, gridRow424242y15, gridRow424242g4r16, gridRow424242y17, gridRow424242g6r18, gridRow424242y19, gridRow424242g11r20, gridRow424242y21, gridRow424242y22, gridRow424242y23, gridRow424242y24, gridRow424242y25, gridRow424242y26, gridRow424242y27, gridRow424242y28, gridRow424242y29, gridRow424242y30, gridRow424242y31, gridRow424242g10r32, gridRow424242y33, gridRow424242y34, gridRow424242y35, gridRow424242y36, gridRow424242y37, gridRow424242y38, gridRow424242y39, gridRow424242y40, gridRow424242y41, gridRow424242y42, gridRow424242y43, gridRow424242g21r44, gridRow424242y45, gridRow424242y46, gridRow424242y47, gridRow424242y48, gridRow424242y49, gridRow424242y50, gridRow424242y51, gridRow424242y52, gridRow424242y53, gridRow424242y54, gridRow424242g2r55, gridRow424242y56, gridRow424242y57, gridRow424242y58, gridRow424242y59]

/-- An intermediate grid during resource placement for seed 424242. -/
def grid424242f0out : List (List Tile) := [gridRow424242y0, gridRow424242y1, gridRow424242y2, gridRow424242y3, gridRow424242g0r4, gridRow424242y5, gridRow424242y6, gridRow424242y7, gridRow424242y8, gridRow424242y9, gridRow424242y10, gridRow424242y11, gridRow424242y12, gridRow424242y13, gridRow424242y14, gridRow424242y15, gridRow424242g4r16, gridRow424242y17, gridRow424242g6r18, gridRow424242y19, gridRow424242g11r20, gridRow424242y21, gridRow424242y22, gridRow424242y23, gridRow424242y24, gridRow424242y25, gridRow424242y26, gridRow424242y27, gridRow424242y28, gridRow424242y29, gridRow424242y30, gridRow424242y31, gridRow424242g10r32, gridRow424242y33, gridRow424242y34, gridRow424242y35, gridRow424242y36, gridRow424242y37, gridRow424242y38, gridRow424242y39, gridRow424242y40, gridRow424242y41, gridRow424242y42, gridRow424242y43, gridRow424242g21r44, gridRow424242y45, gridRow424242y46, gridRow424242y47, gridRow424242y48, gridRow424242f0r49, gridRow424242y50, gridRow424242y51, gridRow424242y52, gridRow424242y53, gridRow424242y54, gridRow424242g2r55, gridRow424242y56, gridRow424242y57, gridRow424242y58, gridRow424242y59]

/-- An intermediate grid during resource placement for seed 424242. -/
def grid424242f4out : List (List Tile) := [gridRow424242y0, gridRow424242y1, gridRow424242y2, gridRow424242y3, gridRow424242g0r4, gridRow424242y5, gridRow424242y6, gridRow424242y7, gridRow424242y8, gridRow424242y9, gridRow424242y10, gridRow424242y11, gridRow424242y12, gridRow424242y13, gridRow424242y14, gridRow424242f4r15, gridRow424242g4r16, gridRow424242y17, gridRow424242g6r18, gridRow424242y19, gridRow424242g11r20, gridRow424242y21, gridRow424242y22, gridRow424242y23, gridRow424242y24, gridRow424242y25, gridRow424242y26, gridRow424242y27, gridRow424242y28, gridRow424242y29, gridRow424242y30, gridRow424242y31, gridRow424242g10r32, gridRow424242y33, gridRow424242y34, gridRow424242y35, gridRow424242y36, gridRow424242y37, gridRow424242y38, gridRow424242y39, gridRow424242y40, gridRow424242y41, gridRow424242y42, gridRow424242y43, gridRow424242g21r44, gridRow424242y45, gridRow424242y46, gridRow424242y47, gridRow424242y48, gridRow424242f0r49, gridRow424242y50, gridRow424242y51, gridRow424242y52, gridRow424242y53, gridRow424242y54, gridRow424242g2r55, gridRow424242y56, gridRow424242y57, gridRow424242y58, gridRow424242y59]

/-- An intermediate grid during resource placement for seed 424242. -/
def grid424242f5out : List (List Tile) := [gridRow424242y0, gridRow424242y1, gridRow424242y2, gridRow424242y3, gridRow424242g0r4, gridRow424242y5, gridRow424242y6, gridRow424242y7, gridRow424242y8, gridRow424242y9, gridRow424242y10, gridRow424242y11, gridRow424242y12, gridRow424242y13, gridRow424242y14, gridRow424242f4r15, gridRow424242g4r16, gridRow424242y17, gridRow424242g6r18, gridRow424242y19, gridRow424242g11r20, gridRow424242y21, gridRow424242y22, gridRow424242y23, gridRow424242y24, gridRow424242y25, gridRow424242y26, gridRow424242y27, gridRow424242y28, gridRow424242y29, gridRow424242y30, gridRow424242y31, gridRow424242g10r32, gridRow424242y33, gridRow424242y34, gridRow424242y35, gridRow424242y36, gridRow424242y37, gridRow424242y38, gridRow424242y39, gridRow424242y40, gridRow424242y41, gridRow424242y42, gridRow424242f5r43, gridRow424242g21r44, gridRow424242y45, gridRow424242y46, gridRow424242y47, gridRow424242y48, gridRow424242f0r49, gridRow424242y50, gridRow424242y51, gridRow424242y52, gridRow424242y53, gridRow424242y54, gridRow424242g2r55, gridRow424242y56, gridRow424242y57, gridRow424242y58, gridRow424242y59]

/-- An intermediate grid during resource placement for seed 424242. -/
def grid424242f8out : List (List Tile) := [gridRow424242y0, gridRow424242y1, gridRow424242y2, gridRow424242y3, gridRow424242g0r4, gridRow424242y5, gridRow424242y6, gridRow424242y7, gridRow424242y8, gridRow424242y9, gridRow424242y10, gridRow424242y11, gridRow424242y12, gridRow424242y13, gridRow424242y14, gridRow424242f8r15, gridRow424242g4r16, gridRow424242y17, gridRow424242g6r18, gridRow424242y19, gridRow424242g11r20, gridRow424242y21, gridRow424242y22, gridRow424242y23, gridRow424242y24, gridRow424242y25, gridRow424242y26, gridRow424242y27, gridRow424242y28, gridRow424242y29, gridRow424242y30, gridRow424242y31, gridRow424242g10r32, gridRow424242y33, gridRow424242y34, gridRow424242y35, gridRow424242y36, gridRow424242y37, gridRow424242y38, gridRow424242y39, gridRow424242y40, gridRow424242y41, gridRow424242y42, gridRow424242f5r43, gridRow424242g21r44, gridRow424242y45, gridRow424242y46, gridRow424242y47, gridRow424242y48, gridRow424242f0r49, gridRow424242y50, gridRow424242y51, gridRow424242y52, gridRow424242y53, gridRow424242y54, gridRow424242g2r55, gridRow424242y56, gridRow424242y57, gridRow424242y58, gridRow424242y59]

/-- An intermediate grid during resource placement for seed 424242. -/
def grid424242f10out : List (List Tile) := [gridRow424242y0, gridRow424242y1, gridRow424242y2, gridRow424242y3, gridRow424242g0r4, gridRow424242y5, gridRow424242y6, gridRow424242y7, gridRow424242y8, gridRow424242y9, gridRow424242y10, gridRow424242y11, gridRow424242y12, gridRow424242y13, gridRow424242y14, gridRow424242f8r15, gridRow424242g4r16, gridRow424242y17, gridRow424242g6r18, gridRow424242y19, gridRow424242g11r20, gridRow424242y21, gridRow424242y22, gridRow424242y23, gridRow424242y24, gridRow424242y25, gridRow424242y26, gridRow424242y27, gridRow424242y28, gridRow424242y29, gridRow424242y30, gridRow424242y31, gridRow424242g10r32, gridRow424242y33, gridRow424242y34, gridRow424242y35, gridRow424242y36, gridRow424242y37, gridRow424242y38, gridRow424242y39, gridRow424242y40, gridRow424242y41, gridRow424242y42, gridRow424242f5r43, gridRow424242g21r44, gridRow424242y45, gridRow424242y46, gridRow424242y47, gridRow424242f10r48, gridRow424242f0r49, gridRow424242y50, gridRow424242y51, gridRow424242y52, gridRow424242y53, gridRow424242y54, gridRow424242g2r55, gridRow424242y56, gridRow424242y57, gridRow424242y58, gridRow424242y59]

/-- An intermediate grid during resource placement for seed 424242. -/
def grid424242f16out : List (List Tile) := [gridRow424242y0, gridRow424242y1, gridRow424242y2, gridRow424242y3, gridRow424242g0r4, gridRow424242y5, gridRow424242y6, gridRow424242y7, gridRow424242y8, gridRow424242y9, gridRow424242y10, gridRow424242y11, gridRow424242y12, gridRow424242y13, gridRow424242y14, gridRow424242f8r15, gridRow424242g4r16, gridRow424242y17, gridRow424242g6r18, gridRow424242y19, gridRow424242g11r20, gridRow424242y21, gridRow424242y22, gridRow424242y23, gridRow424242y24, gridRow424242y25, gridRow424242y26, gridRow424242y27, gridRow424242y28, gridRow424242y29, gridRow424242y30, gridRow424242y31, gridRow424242g10r32, gridRow424242y33, gridRow424242y34, gridRow424242y35, gridRow424242y36, gridRow424242y37, gridRow424242y38, gridRow424242y39, gridRow424242y40, gridRow424242y41, gridRow424242y42, gridRow424242f5r43, gridRow424242g21r44, gridRow424242y45, gridRow424242y46, gridRow424242y47, gridRow424242f16r48, gridRow424242f0r49, gridRow424242y50, gridRow424242y51, gridRow424242y52, gridRow424242y53, gridRow424242y54, gridRow424242g2r55, gridRow424242y56, gridRow424242y57, gridRow424242y58, gridRow424242y59]

/-- An intermediate grid during resource placement for seed 424242. -/
def grid424242f20out : List (List Tile) := [gridRow424242y0, gridRow424242y1, gridRow424242y2, gridRow424242y3, gridRow424242g0r4, gridRow424242y5, gridRow424242y6, gridRow424242y7, gridRow424242y8, gridRow424242y9, gridRow424242y10, gridRow424242y11, gridRow424242y12, gridRow424242y13, gridRow424242y14, gridRow424242f8r15, gridRow424242g4r16, gridRow424242y17, gridRow424242g6r18, gridRow424242y19, gridRow424242g11r20, gridRow424242y21, gridRow424242y22, gridRow424242y23, gridRow424242y24, gridRow424242y25, gridRow424242y26, gridRow424242y27, gridRow424242y28, gridRow424242y29, gridRow424242y30, gridRow424242y31, gridRow424242g10r32, gridRow424242y33, gridRow424242y34, gridRow424242y35, gridRow424242y36, gridRow424242y37, gridRow424242y38, gridRow424242y39, gridRow424242y40, gridRow424242y41, gridRow424242y42, gridRow424242f5r43, gridRow424242g21r44, gridRow424242f20r45, gridRow424242y46, gridRow424242y47, gridRow424242f16r48, gridRow424242f0r49, gridRow424242y50, gridRow424242y51, gridRow424242y52, gridRow424242y53, gridRow424242y54, gridRow424242g2r55, gridRow424242y56, gridRow424242y57, gridRow424242y58, gridRow424242y59]

/-- An intermediate grid during resource placement for seed 424242. -/
def grid424242f23out : List (List Tile) := [gridRow424242y0, gridRow424242y1, gridRow424242y2, gridRow424242y3, gridRow424242g0r4, gridRow424242y5, gridRow424242y6, gridRow424242y7, gridRow424242y8, gridRow424242y9, gridRow424242f23r10, gridRow424242y11, gridRow424242y12, gridRow424242y13, gridRow424242y14, gridRow424242f8r15, gridRow424242g4r16, gridRow424242y17, gridRow424242g6r18, gridRow424242y19, gridRow424242g11r20, gridRow424242y21, gridRow424242y22, gridRow424242y23, gridRow424242y24, gridRow424242y25, gridRow424242y26, gridRow424242y27, gridRow424242y28, gridRow424242y29, gridRow424242y30, gridRow424242y31, gridRow424242g10r32, gridRow424242y33, gridRow424242y34, gridRow424242y35, gridRow424242y36, gridRow424242y37, gridRow424242y38, gridRow424242y39, gridRow424242y40, gridRow424242y41, gridRow424242y42, gridRow424242f5r43, gridRow424242g21r44, gridRow424242f20r45, gridRow424242y46, gridRow424242y47, gridRow424242f16r48, gridRow424242f0r49, gridRow424242y50, gridRow424242y51, gridRow424242y52, gridRow424242y53, gridRow424242y54, gridRow424242g2r55, gridRow424242y56, gridRow424242y57, gridRow424242y58, gridRow424242y59]

/-- An intermediate grid during resource placement for seed 424242. -/
def grid424242f25out : List (List Tile) := [gridRow424242y0, gridRow424242y1, gridRow424242y2, gridRow424242y3, gridRow424242g0r4, gridRow424242y5, gridRow424242y6, gridRow424242y7, gridRow424242y8, gridRow424242y9, gridRow424242f23r10, gridRow424242y11, gridRow424242y12, gridRow424242y13, gridRow424242y14, gridRow424242f8r15, gridRow424242g4r16, gridRow424242y17, gridRow424242g6r18, gridRow424242y19, gridRow424242g11r20, gridRow424242y21, gridRow424242y22, gridRow424242y23, gridRow424242y24, gridRow424242y25, gridRow424242y26, gridRow424242y27, gridRow424242y28, gridRow424242f25r29, gridRow424242y30, gridRow424242y31, gridRow424242g10r32, gridRow424242y33, gridRow424242y34, gridRow424242y35, gridRow424242y36, gridRow424242y37, gridRow424242y38, gridRow424242y39, gridRow424242y40, gridRow424242y41, gridRow424242y42, gridRow424242f5r43, gridRow424242g21r44, gridRow424242f20r45, gridRow424242y46, gridRow424242y47, gridRow424242f16r48, gridRow424242f0r49, gridRow424242y50, gridRow424242y51, gridRow424242y52, gridRow424242y53, gridRow424242y54, gridRow424242g2r55, gridRow424242y56, gridRow424242y57, gridRow424242y58, gridRow424242y59]

/-- An intermediate grid during resource placement for seed 424242. -/
def grid424242f31out : List (List Tile) := [gridRow424242y0, gridRow424242y1, gridRow424242y2, gridRow424242y3, gridRow424242g0r4, gridRow424242y5, gridRow424242y6, gridRow424242y7, gridRow424242y8, gridRow424242y9, gridRow424242f23r10, gridRow424242y11, gridRow424242y12, gridRow424242y13, gridRow424242y14, gridRow424242f8r15, gridRow424242g4r16, gridRow424242y17, gridRow424242g6r18, gridRow424242y19, gridRow424242g11r20, gridRow424242y21, gridRow424242y22, gridRow424242y23, gridRow424242f31r24, gridRow424242y25, gridRow424242y26, gridRow424242y27, gridRow424242y28, gridRow424242f25r29, gridRow424242y30, gridRow424242y31, gridRow424242g10r32, gridRow424242y33, gridRow424242y34, gridRow424242y35, gridRow424242y36, gridRow424242y37, gridRow424242y38, gridRow424242y39, gridRow424242y40, gridRow424242y41, gridRow424242y42, gridRow424242f5r43, gridRow424242g21r44, gridRow424242f20r45, gridRow424242y46, gridRow424242y47, gridRow424242f16r48, gridRow424242f0r49, gridRow424242y50, gridRow424242y51, gridRow424242y52, gridRow424242y53, gridRow424242y54, gridRow424242g2r55, gridRow424242y56, gridRow424242y57, gridRow424242y58, gridRow424242y59]

/-- An intermediate grid during resource placement for seed 424242. -/
def grid424242f32out : List (List Tile) := [gridRow424242y0, gridRow424242y1, gridRow424242y2, gridRow424242y3, gridRow424242g0r4, gridRow424242y5, gridRow424242y6, gridRow424242y7, gridRow424242y8, gridRow424242y9, gridRow424242f23r10, gridRow424242y11, gridRow424242y12, gridRow424242y13, gridRow424242y14, gridRow424242f8r15, gridRow424242g4r16, gridRow424242y17, gridRow424242g6r18, gridRow424242y19, gridRow424242g11r20, gridRow424242y21, gridRow424242y22, gridRow424242y23, gridRow424242f31r24, gridRow424242y25, gridRow424242y26, gridRow424242y27, gridRow424242y28, gridRow424242f25r29, gridRow424242y30, gridRow424242y31, gridRow424242g10r32, gridRow424242y33, gridRow424242y34, gridRow424242y35, gridRow424242y36, gridRow424242y37, gridRow424242y38, gridRow424242y39, gridRow424242y40, gridRow424242y41, gridRow424242y42, gridRow424242f5r43, gridRow424242g21r44, gridRow424242f20r45, gridRow424242y46, gridRow424242y47, gridRow424242f16r48, gridRow424242f32r49, gridRow424242y50, gridRow424242y51, gridRow424242y52, gridRow424242y53, gridRow424242y54, gridRow424242g2r55, gridRow424242y56, gridRow424242y57, gridRow424242y58, gridRow424242y59]

/-- An intermediate grid during resource placement for seed 424242. -/
def grid424242f36out : List (List Tile) := [gridRow424242y0, gridRow424242y1, gridRow424242y2, gridRow424242y3, gridRow424242g0r4, gridRow424242y5, gridRow424242y6, gridRow424242y7, gridRow424242y8, gridRow424242y9, gridRow424242f23r10, gridRow424242f36r11, gridRow424242y12, gridRow424242y13, gridRow424242y14, gridRow424242f8r15, gridRow424242g4r16, gridRow424242y17, gridRow424242g6r18, gridRow424242y19, gridRow424242g11r20, gridRow424242y21, gridRow424242y22, gridRow424242y23, gridRow424242f31r24, gridRow424242y25, gridRow424242y26, gridRow424242y27, gridRow424242y28, gridRow424242f25r29, gridRow424242y30, gridRow424242y31, gridRow424242g10r32, gridRow424242y33, gridRow424242y34, gridRow424242y35, gridRow424242y36, gridRow424242y37, gridRow424242y38, gridRow424242y39, gridRow424242y40, gridRow424242y41, gridRow424242y42, gridRow424242f5r43, gridRow424242g21r44, gridRow424242f20r45, gridRow424242y46, gridRow424242y47, gridRow424242f16r48, gridRow424242f32r49, gridRow424242y50, gridRow424242y51, gridRow424242y52, gridRow424242y53, gridRow424242y54, gridRow424242g2r55, gridRow424242y56, gridRow424242y57, gridRow424242y58, gridRow424242y59]

/-! ## The live engine (`room-manager.ts`, `validator.ts`, `anticheat.ts`)

The rational-arithmetic primitives are restored to their default
reducibility so that the kernel can evaluate the engine on the concrete
scenarios below. -/
attribute [local semireducible] Rat.mul Rat.add Rat.sub Rat.inv

/-! ## Integer square root

`Math.sqrt` is modelled by an exact integer square root on numerator and
denominator (the mirror of `Rat.sqrt`), written as a fuelled binary
search so that the kernel can evaluate it on concrete inputs.  All
square roots that the concrete scenarios take are of perfect squares,
where this model agrees with the source's floating-point `Math.sqrt`. -/
/-- Binary search for the integer square root: invariant
`lo * lo ≤ n < hi * hi`. -/
def isqrtGo (n : ℕ) : ℕ → ℕ → ℕ → ℕ
  | lo, _, 0 => lo
  | lo, hi, fuel + 1 =>
    if hi ≤ lo + 1 then lo
    else
      let mid := (lo + hi) / 2
      if mid * mid ≤ n then isqrtGo n mid hi fuel else isqrtGo n lo mid fuel

/-- Integer square root (rounds down). -/
def isqrt (n : ℕ) : ℕ := isqrtGo n 0 (n + 1) (n + 1)

/-- Square root on `ℤ` (negative inputs do not occur: every argument is
a sum of squares). -/
def intSqrt (z : ℤ) : ℤ := (isqrt z.toNat : ℤ)

/-- Square root on `ℚ`, exact on perfect squares (the mirror of
`Rat.sqrt`). -/
def ratSqrt (q : ℚ) : ℚ := mkRat (intSqrt q.num) (isqrt q.den)

/-! ## Engine data model (`types.ts`)

Entity ids are opaque strings produced by `generateId()`; freshly drawn
ids are modelled as `"id-" ++ toString idCounter` (injective in the
counter, which is what the source's id strings guarantee). -/
/-- Unit command states (`Unit.state` in `types.ts`). -/
inductive UnitState where
  | idle | moving | attacking | gathering | returning | building
  | healing | patrol | attackMove | holdPosition
  deriving DecidableEq, Repr

/-- Player team role. -/
inductive Team where
  | host | guest
  deriving DecidableEq, Repr

/-- Room difficulty. -/
inductive Difficulty where
  | easy | normal | hard
  deriving DecidableEq, Repr

/-- Projectile kinds. -/
inductive ProjKind where
  | arrow | heal | boulder
  deriving DecidableEq, Repr

/-- `Unit` of `types.ts` (named `GUnit`: `Unit` is taken in Lean).
The source field `type` is named `kind` here. -/
structure GUnit where
  id : String
  ownerId : String
  x : ℚ
  y : ℚ
  hp : ℚ
  maxHp : ℚ
  size : ℚ
  kind : UnitKind
  state : UnitState
  targetId : Option String
  targetPosition : Option Pos
  waypoints : List Pos
  attackRange : ℚ
  attackDamage : ℚ
  attackCooldown : ℕ
  attackCooldownRemaining : ℕ
  moveSpeed : ℚ
  armor : ℚ
  gatherAmount : ℚ
  gatherRate : ℚ
  isUnderAttack : Bool
  lastAttackTime : ℤ
  deriving DecidableEq, Repr

/-- `ProductionQueueItem` of `types.ts`. -/
structure ProdItem where
  id : String
  kind : UnitKind
  progress : ℕ
  queuedAt : ℕ
  deriving DecidableEq, Repr

/-- `Building` of `types.ts` (the source field `type` is named `kind`). -/
structure GBuilding where
  id : String
  ownerId : String
  x : ℚ
  y : ℚ
  hp : ℚ
  maxHp : ℚ
  size : ℚ
  kind : BuildingKind
  progress : ℕ
  productionQueue : List ProdItem
  rallyPoint : Option Pos
  isUnderAttack : Bool
  lastAttackTime : ℤ
  deriving DecidableEq, Repr

/-- `Projectile` of `types.ts`. -/
structure GProjectile where
  id : String
  kind : ProjKind
  x : ℚ
  y : ℚ
  targetId : String
  targetPosition : Pos
  speed : ℚ
  damage : ℚ
  ownerId : String
  splashRadius : ℚ
  createdAt : ℕ
  deriving DecidableEq, Repr

/-- A `Resource` object held in the engine's `resources` map (string
ids, unlike the map generator's records whose ids we model as counter
values). -/
structure ResE where
  id : String
  kind : ResKind
  x : ℚ
  y : ℚ
  amount : ℚ
  maxAmount : ℚ
  deriving DecidableEq, Repr

/-- `PlayerResources` of `types.ts`. -/
structure PlayerResources where
  gold : ℚ
  wood : ℚ
  supply : ℕ
  maxSupply : ℕ
  deriving DecidableEq, Repr

/-- `PlayerUpgrades` of `types.ts`. -/
structure PlayerUpgrades where
  attack : ℕ
  defense : ℕ
  range : ℕ
  deriving DecidableEq, Repr

/-- `Player` of `types.ts`. -/
structure GPlayer where
  id : String
  name : String
  team : Team
  color : String
  resources : PlayerResources
  upgrades : PlayerUpgrades
  ready : Bool
  deriving DecidableEq, Repr

/-- `DiscoveredTile` of `types.ts`. -/
structure DTile where
  x : ℤ
  y : ℤ
  discoveredAt : ℤ
  deriving DecidableEq, Repr

/-- The engine's canonical state (the private fields of `GameEngine`),
together with the ambient nondeterministic inputs threaded explicitly:
`envNow` (`Date.now()` during the current step), `envRand` (pending
`Math.random()` draws, consumed front-first), and `envIdCtr` (the
module-global `idCounter` of `generateId`). -/
structure GameState where
  tick : ℕ
  map : GameMap
  units : List (String × GUnit)
  buildings : List (String × GBuilding)
  resources : List (String × ResE)
  projectiles : List GProjectile
  players : List (String × GPlayer)
  discoveredTiles : List (String × List DTile)
  gameOver : Bool
  winner : Option String
  winnerReason : Option String
  difficulty : Difficulty
  aiEnabled : Bool
  aiPlayerId : Option String
  envNow : ℤ
  envRand : List ℚ
  envIdCtr : ℕ
  deriving DecidableEq, Repr

/-! ### Association-list operations mirroring JS `Map` semantics
(insertion order preserved; `set` of an existing key updates in place). -/
/-- `map.get(k)`. -/
def assocGet (l : List (String × α)) (k : String) : Option α :=
  (l.find? (fun p => p.1 == k)).map Prod.snd

/-- Replace the value at an existing key (used for in-place object
mutation of a map entry). -/
def assocUpdate (l : List (String × α)) (k : String) (f : α → α) :
    List (String × α) :=
  l.map (fun p => if p.1 == k then (p.1, f p.2) else p)

/-- `map.set(k, v)`: update in place if present, else append. -/
def assocSet (l : List (String × α)) (k : String) (v : α) : List (String × α) :=
  if (l.find? (fun p => p.1 == k)).isSome then assocUpdate l k (fun _ => v)
  else l ++ [(k, v)]

/-- `map.delete(k)`. -/
def assocDelete (l : List (String × α)) (k : String) : List (String × α) :=
  l.filter (fun p => ¬ p.1 == k)

/-- `Array.from(map.values())`. -/
def assocValues (l : List (String × α)) : List α := l.map Prod.snd

/-- `Array.from(map.keys())`. -/
def assocKeys (l : List (String × α)) : List String := l.map Prod.fst

/-- One `Math.random()` draw from the threaded list (concrete scenarios
always supply enough draws; an exhausted list yields `1/2`). -/
def takeRand (st : GameState) : ℚ × GameState :=
  (st.envRand.headD (1/2), { st with envRand := st.envRand.tail })

/-- One `generateId()` draw (see the header). -/
def genId (st : GameState) : String × GameState :=
  ("id-" ++ toString st.envIdCtr, { st with envIdCtr := st.envIdCtr + 1 })

/-- JS `a || b` for an optional numeric field: `undefined` and `0` fall
back to the default. -/
def jsOr (o : Option ℚ) (d : ℚ) : ℚ :=
  match o with
  | none => d
  | some v => if v == 0 then d else v

/-- Write a unit record back (in-place object mutation). -/
def setUnit (st : GameState) (id : String) (u : GUnit) : GameState :=
  { st with units := assocUpdate st.units id (fun _ => u) }

/-- Write a building record back. -/
def setBuilding (st : GameState) (id : String) (b : GBuilding) : GameState :=
  { st with buildings := assocUpdate st.buildings id (fun _ => b) }

/-- Update one player record. -/
def updatePlayer (st : GameState) (id : String) (f : GPlayer → GPlayer) : GameState :=
  { st with players := assocUpdate st.players id f }

/-! ## Stats tables (`UNIT_STATS`, `BUILDING_STATS` of `types.ts`) -/
/-- One entry of `UNIT_STATS`. -/
structure UnitStats where
  hp : ℚ
  damage : ℚ
  range : ℚ
  speed : ℚ
  armor : ℚ
  costGold : ℚ
  costWood : ℚ
  supply : ℕ
  buildTime : ℕ
  gatherAmount : Option ℚ
  gatherRate : Option ℚ
  splashRadius : Option ℚ
  deriving DecidableEq, Repr

/-- `UNIT_STATS` of `types.ts`. -/
def UNIT_STATS : UnitKind → UnitStats
  | .worker => ⟨50, 3, 5, 2, 0, 50, 0, 1, 480, some 8, some 60, none⟩
  | .soldier => ⟨80, 10, 10, 9/5, 1, 80, 20, 1, 720, none, none, none⟩
  | .archer => ⟨60, 8, 150, 9/5, 0, 60, 40, 1, 600, none, none, none⟩
  | .healer => ⟨60, -8, 100, 9/5, 0, 80, 30, 1, 660, none, none, none⟩
  | .catapult => ⟨120, 40, 200, 6/5, 0, 120, 80, 3, 900, none, none, some 50⟩

/-- One entry of `BUILDING_STATS`. -/
structure BuildingStats where
  hp : ℚ
  size : ℚ
  costGold : ℚ
  costWood : ℚ
  supply : Option ℕ
  buildTime : ℕ
  attackDamage : Option ℚ
  attackRange : Option ℚ
  deriving DecidableEq, Repr

/-- `BUILDING_STATS` of `types.ts`. -/
def BUILDING_STATS : BuildingKind → BuildingStats
  | .base => ⟨800, 96, 0, 0, some 10, 0, none, none⟩
  | .barracks => ⟨400, 80, 120, 60, none, 1800, none, none⟩
  | .farm => ⟨200, 80, 60, 80, some 8, 1200, none, none⟩
  | .tower => ⟨300, 48, 100, 50, none, 1500, some 20, some 150⟩
  | .blacksmith => ⟨350, 80, 150, 100, none, 2100, none, none⟩
  | .siegeWorkshop => ⟨450, 80, 180, 120, none, 2400, none, none⟩
  | .wall => ⟨500, 40, 20, 10, none, 600, none, none⟩

/-- `VISION_RANGE` of `types.ts`. -/
def VISION_RANGE : ℚ := 200

/-! ## Player management and entity creation (`GameEngine`) -/
/-- `GameEngine.addPlayer`. -/
def addPlayer (st : GameState) (id name : String) (team : Team) (color : String) :
    GameState :=
  { st with
    players := assocSet st.players id
      { id := id, name := name, team := team, color := color,
        resources :=
          { gold := if team = .host then 200 else 200,
            wood := if team = .host then 100 else 100,
            supply := 5, maxSupply := 10 },
        upgrades := { attack := 0, defense := 0, range := 0 },
        ready := false },
    discoveredTiles := assocSet st.discoveredTiles id [] }

/-- `GameEngine.createBuildingAtPosition`.  `tileX`/`tileY` are kept
rational because `initializeGame` passes the non-integral `12 * 0.6`. -/
def createBuildingAtPosition (st : GameState) (kind : BuildingKind)
    (ownerId : String) (tileX tileY : ℚ) : GameState :=
  let stats := BUILDING_STATS kind
  let x := tileX * st.map.tileSize + st.map.tileSize / 2
  let y := tileY * st.map.tileSize + st.map.tileSize / 2
  let p := genId st
  let b : GBuilding :=
    { id := p.1, ownerId := ownerId, x := x, y := y,
      hp := stats.hp, maxHp := stats.hp, size := stats.size, kind := kind,
      progress := if kind = .base then 100 else 10,
      productionQueue := [], rallyPoint := none,
      isUnderAttack := false, lastAttackTime := 0 }
  let st1 := { p.2 with buildings := assocSet p.2.buildings b.id b }
  match stats.supply with
  | some sup =>
    updatePlayer st1 ownerId (fun pl =>
      { pl with resources := { pl.resources with maxSupply := pl.resources.maxSupply + sup } })
  | none => st1

/-- `GameEngine.spawnUnit`.  The `Math.random()` offsets are drawn only
when a base exists (the source's ternary short-circuits); a missing
player makes the source throw — modelled as a no-op, never reached from
the engine's own call sites. -/
def spawnUnit (st : GameState) (kind : UnitKind) (ownerId : String) : GameState :=
  let stats := UNIT_STATS kind
  match assocGet st.players ownerId with
  | none => st
  | some player =>
    let base := (assocValues st.buildings).find?
      (fun b => b.ownerId == ownerId && b.kind == .base)
    let r1 := takeRand st
    let r2 := takeRand r1.2
    let st1 := match base with | some _ => r2.2 | none => st
    let x : ℚ := match base with
      | some b => b.x + (r1.1 - 1/2) * 60
      | none => 100
    let y : ℚ := match base with
      | some b => b.y + (r2.1 - 1/2) * 60
      | none => 100
    let p := genId st1
    let u0 : GUnit :=
      { id := p.1, ownerId := ownerId, x := x, y := y,
        hp := stats.hp, maxHp := stats.hp, size := 16, kind := kind,
        state := .idle, targetId := none, targetPosition := none, waypoints := [],
        attackRange := stats.range, attackDamage := stats.damage,
        attackCooldown := 60, attackCooldownRemaining := 0,
        moveSpeed := stats.speed, armor := stats.armor,
        gatherAmount := (stats.gatherAmount).getD 0,
        gatherRate := (stats.gatherRate).getD 0,
        isUnderAttack := false, lastAttackTime := 0 }
    let u1 := match base with
      | some _ =>
        let u' := { u0 with attackDamage := u0.attackDamage + (player.upgrades.attack : ℚ) * 2 }
        if u'.kind = .archer ∨ u'.kind = .worker then
          { u' with attackRange := u'.attackRange + (player.upgrades.range : ℚ) * 10 }
        else u'
      | none => u0
    { p.2 with units := assocSet p.2.units u1.id u1 }

/-- `GameEngine.queueUnitProduction`. -/
def queueUnitProduction (st : GameState) (buildingId : String) (kind : UnitKind) :
    Bool × GameState :=
  match assocGet st.buildings buildingId with
  | none => (false, st)
  | some b =>
    let p := genId st
    (true, setBuilding p.2 buildingId
      { b with productionQueue := b.productionQueue ++
          [{ id := p.1, kind := kind, progress := 0, queuedAt := st.tick }] })

/-- `GameEngine.initializeGame`. -/
def initializeGame (st : GameState) : GameState :=
  let st1 := match (assocValues st.players).find? (fun p => p.team == .host) with
    | some hostPlayer => createBuildingAtPosition st .base hostPlayer.id (12 * (6/10)) (12 * (6/10))
    | none => st
  let st2 := match st1.aiPlayerId with
    | some aiId => if st1.aiEnabled then
        createBuildingAtPosition st1 .base aiId (88 * (6/10)) (88 * (6/10)) else st1
    | none => st1
  let st3 := match (assocValues st2.players).find? (fun p => p.team == .host) with
    | some hostPlayer =>
      spawnUnit (spawnUnit (spawnUnit st2 .worker hostPlayer.id) .worker hostPlayer.id)
        .worker hostPlayer.id
    | none => st2
  match st3.aiPlayerId with
  | some aiId => if st3.aiEnabled then spawnUnit (spawnUnit st3 .worker aiId) .worker aiId else st3
  | none => st3

/-- `GameEngine` constructor: difficulty and the seeded map (the map
generator consumes ids from the global counter). -/
def newEngine (mapSeed : ℕ) (difficulty : Difficulty) (now : ℤ) (rand : List ℚ)
    (idCtr : ℕ) : GameState :=
  let m := generateMap mapSeed idCtr
  { tick := 0, map := m.1, units := [], buildings := [], resources := [],
    projectiles := [], players := [], discoveredTiles := [],
    gameOver := false, winner := none, winnerReason := none,
    difficulty := difficulty, aiEnabled := false, aiPlayerId := none,
    envNow := now, envRand := rand, envIdCtr := m.2 }

/-! ## Combat helpers -/
/-- `GameEngine.isTower` (`'type' in entity && entity.type === 'tower'`):
only a Building can have variant `tower`. -/
def isTower : GUnit ⊕ GBuilding → Bool
  | .inl _ => false
  | .inr b => b.kind == .tower

/-- Owner of an attack target. -/
def tgtOwner : GUnit ⊕ GBuilding → String
  | .inl u => u.ownerId
  | .inr b => b.ownerId

/-- Position of an attack target. -/
def tgtX : GUnit ⊕ GBuilding → ℚ
  | .inl u => u.x
  | .inr b => b.x

/-- Position of an attack target. -/
def tgtY : GUnit ⊕ GBuilding → ℚ
  | .inl u => u.y
  | .inr b => b.y

/-- Id of an attack target. -/
def tgtId : GUnit ⊕ GBuilding → String
  | .inl u => u.id
  | .inr b => b.id

/-- Hit points of an attack target. -/
def tgtHp : GUnit ⊕ GBuilding → ℚ
  | .inl u => u.hp
  | .inr b => b.hp

/-- Maximum hit points of an attack target. -/
def tgtMaxHp : GUnit ⊕ GBuilding → ℚ
  | .inl u => u.maxHp
  | .inr b => b.maxHp

/-- `GameEngine.calculateDamage` (melee damage). -/
def calculateDamage (st : GameState) (attacker : GUnit)
    (target : GUnit ⊕ GBuilding) : ℚ :=
  let stats := UNIT_STATS attacker.kind
  let attackerPlayer := assocGet st.players attacker.ownerId
  let targetPlayer := assocGet st.players (tgtOwner target)
  let damage := stats.damage
  let damage := match attackerPlayer with
    | some p => damage + (p.upgrades.attack : ℚ) * 2
    | none => damage
  let damage :=
    if attacker.kind = .worker ∧ isTower target then
      match attackerPlayer with
      | some p => damage + (p.upgrades.attack : ℚ) * 3
      | none => damage
    else damage
  let damage := match targetPlayer with
    | some p => damage - (p.upgrades.defense : ℚ) * 2
    | none => damage
  max 1 damage

/-- `GameEngine.calculateDamageFromProjectile`. -/
def calculateDamageFromProjectile (st : GameState) (proj : GProjectile)
    (target : GUnit ⊕ GBuilding) : ℚ :=
  let damage := proj.damage
  let damage := match assocGet st.players proj.ownerId with
    | some p => damage + (p.upgrades.attack : ℚ) * 2
    | none => damage
  let damage := match assocGet st.players (tgtOwner target) with
    | some p => damage - (p.upgrades.defense : ℚ) * 2
    | none => damage
  max 1 damage

/-- `GameEngine.createProjectile`, with the fields of the (possibly
partial) source unit passed explicitly. -/
def createProjectile (st : GameState) (srcKind : UnitKind) (srcX srcY srcDamage : ℚ)
    (srcOwner : String) (target : GUnit ⊕ GBuilding) : GameState :=
  let isSplash := srcKind == .catapult
  let p := genId st
  let proj : GProjectile :=
    { id := p.1,
      kind := if srcKind = .healer then .heal
              else if srcKind = .catapult then .boulder else .arrow,
      x := srcX, y := srcY,
      targetId := tgtId target,
      targetPosition := { x := tgtX target, y := tgtY target },
      speed := if srcKind = .catapult then 5 else if srcKind = .healer then 6 else 8,
      damage := if srcDamage == 0 then 10 else srcDamage,
      ownerId := srcOwner,
      splashRadius := if isSplash then 50 else 0,
      createdAt := st.tick }
  { p.2 with projectiles := p.2.projectiles ++ [proj] }

/-- `GameEngine.getUnitPosition`. -/
def getUnitPosition (st : GameState) (id : String) : Option Pos :=
  (assocGet st.units id).map (fun u => { x := u.x, y := u.y })

/-- `GameEngine.findNearestEnemy` (nearest hostile unit within 400 px;
square-root comparisons carried out on squares). -/
def findNearestEnemy (st : GameState) (u : GUnit) : Option GUnit :=
  (assocValues st.units).foldl
    (fun acc other =>
      if other.ownerId == u.ownerId then acc
      else
        let d2 := (other.x - u.x) * (other.x - u.x) + (other.y - u.y) * (other.y - u.y)
        if d2 < acc.1 then (d2, some other) else acc)
    ((400 : ℚ) * 400, none) |>.2

/-- `GameEngine.findNearestEnemyInRange` (first hostile unit within the
unit's stats range — the source returns out of the loop). -/
def findNearestEnemyInRange (st : GameState) (u : GUnit) : Option GUnit :=
  let range := (UNIT_STATS u.kind).range
  (assocValues st.units).find? (fun other =>
    ¬ other.ownerId == u.ownerId &&
      (other.x - u.x) * (other.x - u.x) + (other.y - u.y) * (other.y - u.y) ≤ range * range)

/-- `GameEngine.findNearestDepositPoint` (despite the name: the first
completed own base/farm in map order). -/
def findNearestDepositPoint (st : GameState) (u : GUnit) : Option Pos :=
  ((assocValues st.buildings).find? (fun b =>
      b.ownerId == u.ownerId && (b.kind == .base || b.kind == .farm) &&
        decide (100 ≤ b.progress))).map
    (fun b => { x := b.x, y := b.y })

/-- `GameEngine.findNearestResource` (nearest resource node within
1000 px, any owner). -/
def findNearestResource (st : GameState) (u : GUnit) : Option ResE :=
  (assocValues st.resources).foldl
    (fun acc r =>
      let d2 := (r.x - u.x) * (r.x - u.x) + (r.y - u.y) * (r.y - u.y)
      if d2 < acc.1 then (d2, some r) else acc)
    ((1000 : ℚ) * 1000, none) |>.2

/-! ## Per-tick unit updates (`GameEngine.updateUnits` and helpers)

Distance comparisons mirror the source's `Math.sqrt(d2) ⋈ c` as the
equivalent `d2 ⋈ c²`; movement steps use `ratSqrt d2` (exact whenever
`d2` is a perfect square, which holds in every concrete scenario below). -/
/-- `GameEngine.updateUnitMovement` (states `moving` and `attackMove`). -/
def updateUnitMovement (st : GameState) (u : GUnit) : GameState :=
  let target : Option Pos := match u.targetPosition with
    | some p => some p
    | none => match u.targetId with
      | some tid => getUnitPosition st tid
      | none => none
  match target with
  | none => setUnit st u.id { u with state := .idle }
  | some t =>
    let dx := t.x - u.x
    let dy := t.y - u.y
    let d2 := dx * dx + dy * dy
    if d2 < 5 * 5 then
      -- reached the target
      if u.state = .attackMove then
        match findNearestEnemy st u with
        | some enemy =>
          setUnit st u.id
            { u with state := .attacking, targetId := some enemy.id, targetPosition := none }
        | none => setUnit st u.id { u with state := .idle, targetPosition := none }
      else
        setUnit st u.id { u with state := .idle, targetPosition := none }
    else
      let dist := ratSqrt d2
      let speed := (UNIT_STATS u.kind).speed
      let u1 := { u with x := u.x + dx / dist * speed, y := u.y + dy / dist * speed }
      let st1 := setUnit st u.id u1
      if u1.state = .attackMove then
        match findNearestEnemyInRange st1 u1 with
        | some enemy =>
          setUnit st1 u1.id { u1 with state := .attacking, targetId := some enemy.id }
        | none => st1
      else st1

/-- Apply melee damage and the under-attack mark to an attack target. -/
def applyMeleeDamage (st : GameState) (damage : ℚ) : GUnit ⊕ GBuilding → GameState
  | .inl t => setUnit st t.id { t with hp := t.hp - damage, isUnderAttack := true }
  | .inr t => setBuilding st t.id { t with hp := t.hp - damage, isUnderAttack := true }

/-- `GameEngine.updateUnitAttack`. -/
def updateUnitAttack (st : GameState) (u : GUnit) : GameState :=
  match u.targetId with
  | none => setUnit st u.id { u with state := .idle }
  | some tid =>
    let target : Option (GUnit ⊕ GBuilding) := match assocGet st.units tid with
      | some t => some (.inl t)
      | none => (assocGet st.buildings tid).map .inr
    match target with
    | none => setUnit st u.id { u with state := .idle, targetId := none }
    | some t =>
      if tgtOwner t == u.ownerId then
        setUnit st u.id { u with state := .idle, targetId := none }
      else
        let dx := tgtX t - u.x
        let dy := tgtY t - u.y
        let d2 := dx * dx + dy * dy
        let stats := UNIT_STATS u.kind
        if d2 > stats.range * stats.range then
          -- move towards the target
          let dist := ratSqrt d2
          setUnit st u.id
            { u with x := u.x + dx / dist * stats.speed, y := u.y + dy / dist * stats.speed }
        else if u.attackCooldownRemaining = 0 then
          let st1 :=
            if u.kind = .archer ∨ u.kind = .catapult ∨ isTower t then
              createProjectile st u.kind u.x u.y u.attackDamage u.ownerId t
            else
              applyMeleeDamage st (calculateDamage st u t) t
          setUnit st1 u.id { u with attackCooldownRemaining := u.attackCooldown }
        else st

/-- `GameEngine.updateUnitGather`. -/
def updateUnitGather (st : GameState) (u : GUnit) : GameState :=
  match u.targetId with
  | none => setUnit st u.id { u with state := .idle }
  | some tid =>
    match assocGet st.resources tid with
    | none => setUnit st u.id { u with state := .idle, targetId := none }
    | some resource =>
      let dx := resource.x - u.x
      let dy := resource.y - u.y
      let d2 := dx * dx + dy * dy
      if d2 > 20 * 20 then
        let dist := ratSqrt d2
        let speed := (UNIT_STATS u.kind).speed
        setUnit st u.id { u with x := u.x + dx / dist * speed, y := u.y + dy / dist * speed }
      else
        let gatherAmount := jsOr (UNIT_STATS u.kind).gatherAmount 8
        if resource.amount > 0 then
          let gain := min gatherAmount resource.amount
          let st1 := updatePlayer st u.ownerId (fun pl =>
            { pl with resources :=
                if resource.kind = .gold then { pl.resources with gold := pl.resources.gold + gain }
                else { pl.resources with wood := pl.resources.wood + gain } })
          let newAmount := resource.amount - gain
          let newResources := assocUpdate st1.resources tid (fun r => { r with amount := newAmount })
          let st2 := { st1 with resources := newResources }
          if newAmount ≤ 0 then
            let st3 := { st2 with resources := assocDelete st2.resources resource.id }
            setUnit st3 u.id { u with state := .returning, targetId := none }
          else st2
        else st

/-- `GameEngine.updateUnitReturn`. -/
def updateUnitReturn (st : GameState) (u : GUnit) : GameState :=
  match findNearestDepositPoint st u with
  | none => setUnit st u.id { u with state := .idle }
  | some depositPoint =>
    let dx := depositPoint.x - u.x
    let dy := depositPoint.y - u.y
    let d2 := dx * dx + dy * dy
    if d2 > 30 * 30 then
      let dist := ratSqrt d2
      let speed := (UNIT_STATS u.kind).speed
      setUnit st u.id { u with x := u.x + dx / dist * speed, y := u.y + dy / dist * speed }
    else
      match findNearestResource st u with
      | some resource =>
        setUnit st u.id { u with state := .gathering, targetId := some resource.id }
      | none => setUnit st u.id { u with state := .idle }

/-- `GameEngine.updateUnitBuild`. -/
def updateUnitBuild (st : GameState) (u : GUnit) : GameState :=
  match u.targetId with
  | none => setUnit st u.id { u with state := .idle }
  | some tid =>
    match assocGet st.buildings tid with
    | none => setUnit st u.id { u with state := .idle, targetId := none }
    | some building =>
      if 100 ≤ building.progress then
        setUnit st u.id { u with state := .idle, targetId := none }
      else
        let dx := building.x - u.x
        let dy := building.y - u.y
        let d2 := dx * dx + dy * dy
        if d2 > 40 * 40 then
          let dist := ratSqrt d2
          let speed := (UNIT_STATS u.kind).speed
          setUnit st u.id { u with x := u.x + dx / dist * speed, y := u.y + dy / dist * speed }
        else
          let newProgress := min 100 (building.progress + 2)
          let st1 := setBuilding st tid { building with progress := newProgress }
          if 100 ≤ newProgress then
            setUnit st1 u.id { u with state := .idle, targetId := none }
          else st1

/-- `GameEngine.updateUnitHeal`. -/
def updateUnitHeal (st : GameState) (u : GUnit) : GameState :=
  match u.targetId with
  | none => setUnit st u.id { u with state := .idle }
  | some tid =>
    match assocGet st.units tid with
    | none => setUnit st u.id { u with state := .idle, targetId := none }
    | some target =>
      if ¬ target.ownerId == u.ownerId ∨ target.maxHp ≤ target.hp then
        setUnit st u.id { u with state := .idle, targetId := none }
      else
        let dx := target.x - u.x
        let dy := target.y - u.y
        let d2 := dx * dx + dy * dy
        let range := (UNIT_STATS u.kind).range
        if d2 > range * range then
          let dist := ratSqrt d2
          let speed := (UNIT_STATS u.kind).speed
          setUnit st u.id { u with x := u.x + dx / dist * speed, y := u.y + dy / dist * speed }
        else if u.attackCooldownRemaining = 0 then
          let st1 := setUnit st tid { target with hp := min target.maxHp (target.hp + 8) }
          match assocGet st1.units u.id with
          | some u2 => setUnit st1 u.id { u2 with attackCooldownRemaining := u.attackCooldown }
          | none => st1
        else st

/-- One iteration of the `updateUnits` loop: decrement the cooldown,
then dispatch on the command state. -/
def updateUnitStep (st : GameState) (uid : String) : GameState :=
  match assocGet st.units uid with
  | none => st
  | some u0 =>
    let u := if 0 < u0.attackCooldownRemaining then
        { u0 with attackCooldownRemaining := u0.attackCooldownRemaining - 1 }
      else u0
    let st1 := setUnit st uid u
    match u.state with
    | .moving => updateUnitMovement st1 u
    | .attackMove => updateUnitMovement st1 u
    | .attacking => updateUnitAttack st1 u
    | .gathering => updateUnitGather st1 u
    | .returning => updateUnitReturn st1 u
    | .building => updateUnitBuild st1 u
    | .healing => updateUnitHeal st1 u
    | _ => st1

/-- `GameEngine.updateUnits`. -/
def updateUnits (st : GameState) : GameState :=
  (assocKeys st.units).foldl updateUnitStep st

/-! ## Per-tick building updates (`GameEngine.updateBuildings`) -/
/-- `GameEngine.updateTowerAttack`: fire an arrow at the nearest hostile
unit within the tower's range.  The source builds a placeholder `worker`
unit literal (consuming one `generateId()`), then calls
`createProjectile` with it. -/
def updateTowerAttack (st : GameState) (b : GBuilding) : GameState :=
  let stats := BUILDING_STATS .tower
  match stats.attackDamage with
  | none => st
  | some attackDamage =>
    let start := jsOr stats.attackRange 150
    let nearest := (assocValues st.units).foldl
      (fun acc unit =>
        if unit.ownerId == b.ownerId then acc
        else
          let d2 := (unit.x - b.x) * (unit.x - b.x) + (unit.y - b.y) * (unit.y - b.y)
          if d2 < acc.1 then (d2, some unit) else acc)
      (start * start, none) |>.2
    match nearest with
    | some nearestEnemy =>
      let p := genId st
      createProjectile p.2 .worker b.x b.y attackDamage b.ownerId (.inl nearestEnemy)
    | none => st

/-- One iteration of the `updateBuildings` loop: advance the production
queue head (spawning on completion), run tower auto-fire, reset the
under-attack flag after 120 ms. -/
def updateBuildingStep (st : GameState) (bid : String) : GameState :=
  match assocGet st.buildings bid with
  | none => st
  | some b =>
    let st1 := match b.productionQueue with
      | [] => st
      | item :: rest =>
        let item1 := { item with progress := item.progress + 1 }
        let stats := UNIT_STATS item1.kind
        if stats.buildTime ≤ item1.progress then
          setBuilding (spawnUnit st item1.kind b.ownerId) bid
            { b with productionQueue := rest }
        else
          setBuilding st bid { b with productionQueue := item1 :: rest }
    let st2 := match assocGet st1.buildings bid with
      | some b1 => if b1.kind = .tower ∧ 0 < b1.hp then updateTowerAttack st1 b1 else st1
      | none => st1
    match assocGet st2.buildings bid with
    | some b2 =>
      if b2.isUnderAttack ∧ 120 < st2.envNow - b2.lastAttackTime then
        setBuilding st2 bid { b2 with isUnderAttack := false }
      else st2
    | none => st2

/-- `GameEngine.updateBuildings`. -/
def updateBuildings (st : GameState) : GameState :=
  (assocKeys st.buildings).foldl updateBuildingStep st

/-! ## Projectiles (`GameEngine.updateProjectiles`) -/
/-- `GameEngine.applySplashDamage`: area damage with radial falloff
`1 − dist/r/2` applied to every non-owner unit and building within the
splash radius. -/
def applySplashDamage (st : GameState) (proj : GProjectile) : GameState :=
  let targets : List (GUnit ⊕ GBuilding) :=
    (assocValues st.units).map .inl ++ (assocValues st.buildings).map .inr
  targets.foldl
    (fun st t =>
      if tgtOwner t == proj.ownerId then st
      else
        let dx := tgtX t - proj.x
        let dy := tgtY t - proj.y
        let d2 := dx * dx + dy * dy
        if d2 ≤ proj.splashRadius * proj.splashRadius then
          let falloff := 1 - ratSqrt d2 / proj.splashRadius / 2
          match t with
          | .inl u => setUnit st u.id
              { u with hp := u.hp - proj.damage * falloff, isUnderAttack := true,
                       lastAttackTime := st.envNow }
          | .inr b => setBuilding st b.id
              { b with hp := b.hp - proj.damage * falloff, isUnderAttack := true,
                       lastAttackTime := st.envNow }
        else st)
    st

/-- One iteration of the `updateProjectiles` loop: advance or impact one
projectile, accumulating the ids to remove. -/
def updateProjStep (acc : GameState × List String) (pid : String) :
    GameState × List String :=
  let st := acc.1
  match st.projectiles.find? (fun p => p.id == pid) with
  | none => acc
  | some proj =>
    let target : Option (GUnit ⊕ GBuilding) := match assocGet st.units proj.targetId with
      | some t => some (.inl t)
      | none => (assocGet st.buildings proj.targetId).map .inr
    match target with
    | none => (st, acc.2 ++ [proj.id])
    | some t =>
      let dx := tgtX t - proj.x
      let dy := tgtY t - proj.y
      let d2 := dx * dx + dy * dy
      if d2 < 10 * 10 then
        -- hit
        let st1 :=
          if 0 < proj.splashRadius then applySplashDamage st proj
          else if proj.kind = .heal then
            if tgtOwner t == proj.ownerId ∧ tgtHp t < tgtMaxHp t then
              match t with
              | .inl u => setUnit st u.id { u with hp := min u.maxHp (u.hp - proj.damage) }
              | .inr b => setBuilding st b.id { b with hp := min b.maxHp (b.hp - proj.damage) }
            else st
          else
            let damage := calculateDamageFromProjectile st proj t
            match t with
            | .inl u => setUnit st u.id
                { u with hp := u.hp - damage, isUnderAttack := true,
                         lastAttackTime := st.envNow }
            | .inr b => setBuilding st b.id
                { b with hp := b.hp - damage, isUnderAttack := true,
                         lastAttackTime := st.envNow }
        (st1, acc.2 ++ [proj.id])
      else
        let dist := ratSqrt d2
        let proj1 := { proj with x := proj.x + dx / dist * proj.speed,
                                 y := proj.y + dy / dist * proj.speed }
        let newProjectiles := st.projectiles.map (fun p => if p.id == pid then proj1 else p)
        ({ st with projectiles := newProjectiles }, acc.2)

/-- `GameEngine.updateProjectiles`. -/
def updateProjectiles (st : GameState) : GameState :=
  let acc := (st.projectiles.map GProjectile.id).foldl updateProjStep (st, [])
  { acc.1 with projectiles := acc.1.projectiles.filter (fun p => ¬ acc.2.contains p.id) }

/-! ## Economy, fog of war, win condition (`GameEngine`) -/
/-- `GameEngine.updateEconomy`: the AI income trickle. -/
def updateEconomy (st : GameState) : GameState :=
  if st.aiEnabled then
    match st.aiPlayerId with
    | some aiId =>
      let incomeMultiplier : ℚ :=
        if st.difficulty = .easy then 1/2 else if st.difficulty = .hard then 3/2 else 1
      updatePlayer st aiId (fun pl =>
        { pl with resources :=
            { pl.resources with gold := pl.resources.gold + 1/2 * incomeMultiplier } })
    | none => st
  else st

/-- `GameEngine.isTileVisible`: the tile's centre is within
`VISION_RANGE` of the observer (squared comparison). -/
def isTileVisible (m : GameMap) (observerX observerY : ℚ) (tileX tileY : ℤ) : Bool :=
  let cx := (tileX : ℚ) * m.tileSize + m.tileSize / 2
  let cy := (tileY : ℚ) * m.tileSize + m.tileSize / 2
  (cx - observerX) * (cx - observerX) + (cy - observerY) * (cy - observerY) ≤
    VISION_RANGE * VISION_RANGE

/-- The integers `lo, lo+1, …, hi` (the `for (let d = -r; d <= r; d++)`
loops of `updateFogOfWar`). -/
def intRange (lo hi : ℤ) : List ℤ :=
  (List.range (hi - lo + 1).toNat).map (fun i => lo + (i : ℤ))

/-- The discovered tiles one entity at `(ex, ey)` contributes in
`updateFogOfWar`: the `dy`/`dx` double loop with the rough radius check,
the bounds check, and `isTileVisible`. -/
def entityVisionTiles (m : GameMap) (now : ℤ) (ex ey : ℚ) : List DTile :=
  let tileRadius : ℤ := ⌈VISION_RANGE / m.tileSize⌉
  (intRange (-tileRadius) tileRadius).flatMap (fun dy =>
    (intRange (-tileRadius) tileRadius).filterMap (fun dx =>
      let tileX := ⌊ex / m.tileSize⌋ + dx
      let tileY := ⌊ey / m.tileSize⌋ + dy
      if VISION_RANGE * VISION_RANGE <
          ((dx * dx + dy * dy : ℤ) : ℚ) * (m.tileSize * m.tileSize) then none
      else if tileX < 0 ∨ (m.width : ℤ) ≤ tileX ∨ tileY < 0 ∨ (m.height : ℤ) ≤ tileY then none
      else if isTileVisible m ex ey tileX tileY then
        some { x := tileX, y := tileY, discoveredAt := now }
      else none))

/-- The full discovered-tiles list `updateFogOfWar` rebuilds for one
player: owned units first, then owned buildings. -/
def playerVisionTiles (st : GameState) (pid : String) : List DTile :=
  let entities : List (ℚ × ℚ) :=
    ((assocValues st.units).filter (fun u => u.ownerId == pid)).map (fun u => (u.x, u.y)) ++
    ((assocValues st.buildings).filter (fun b => b.ownerId == pid)).map (fun b => (b.x, b.y))
  entities.flatMap (fun e => entityVisionTiles st.map st.envNow e.1 e.2)

/-- `GameEngine.updateFogOfWar`: for every player, the discovered-tiles
entry is **replaced** by the freshly computed list. -/
def updateFogOfWar (st : GameState) : GameState :=
  let newDiscovered :=
    st.players.foldl (fun acc pp => assocSet acc pp.1 (playerVisionTiles st pp.1))
      st.discoveredTiles
  { st with discoveredTiles := newDiscovered }

/-- `GameEngine.checkWinCondition`: on the first player without a base,
end the game; the winner is the owner of the first remaining enemy base
(if any), and the reason names the eliminated player. -/
def checkWinCondition (st : GameState) : GameState :=
  if st.gameOver then st
  else
    let playerIds := assocKeys st.players
    match playerIds.find? (fun pid =>
        ((assocValues st.buildings).filter
          (fun b => b.kind == .base && b.ownerId == pid)).isEmpty) with
    | none => st
    | some pid =>
      let enemyIds := playerIds.filter (fun i => ¬ i == pid)
      let enemyBase := (enemyIds.filterMap (fun i =>
        (assocValues st.buildings).find? (fun b => b.kind == .base && b.ownerId == i))).head?
      let reason := (((assocGet st.players pid).map GPlayer.name).getD "Player") ++ " eliminated"
      { st with gameOver := true,
                winner := enemyBase.map GBuilding.ownerId,
                winnerReason := some reason }

/-! ## AI (`GameEngine.updateAI`) -/
/-- One iteration of the AI soldier-command loop. -/
def aiSoldierStep (hostId : String) (st : GameState) (sid : String) : GameState :=
  match assocGet st.units sid with
  | none => st
  | some soldier =>
    if soldier.state = .idle then
      match (assocValues st.buildings).find?
          (fun b => b.ownerId == hostId && b.kind == .base) with
      | some playerBase =>
        setUnit st sid { soldier with state := .attackMove, targetId := some playerBase.id }
      | none => st
    else st

/-- One iteration of the AI worker-gather loop. -/
def aiWorkerStep (st : GameState) (wid : String) : GameState :=
  match assocGet st.units wid with
  | none => st
  | some worker =>
    if worker.state = .idle then
      match findNearestResource st worker with
      | some resource =>
        setUnit st wid { worker with state := .gathering, targetId := some resource.id }
      | none => st
    else st

/-- `GameEngine.updateAI`. -/
def updateAI (st : GameState) : GameState :=
  if ¬ st.aiEnabled then st
  else match st.aiPlayerId with
  | none => st
  | some aiId =>
    match assocGet st.players aiId with
    | none => st
    | some aiPlayer =>
      let aiUnits := (assocValues st.units).filter (fun u => u.ownerId == aiId)
      let aiBuildings := (assocValues st.buildings).filter (fun b => b.ownerId == aiId)
      let workers := aiUnits.filter (fun u => u.kind == .worker)
      let soldiers := aiUnits.filter (fun u => u.kind == .soldier)
      let st1 :=
        if 50 ≤ aiPlayer.resources.gold ∧ aiPlayer.resources.supply < aiPlayer.resources.maxSupply then
          match aiBuildings.find? (fun b => b.kind == .base) with
          | some base =>
            if base.productionQueue.isEmpty then (queueUnitProduction st base.id .worker).2 else st
          | none => st
        else st
      let st2 :=
        if 60 ≤ aiPlayer.resources.gold then
          match aiBuildings.find? (fun b => b.kind == .barracks) with
          | some barracks =>
            if barracks.productionQueue.isEmpty then
              let r := takeRand st1
              let choice : UnitKind :=
                if r.1 < 2/5 then .soldier else if r.1 < 7/10 then .archer else .healer
              (queueUnitProduction r.2 barracks.id choice).2
            else st1
          | none => st1
        else st1
      let st3 := match (assocValues st2.players).find? (fun p => p.team == .host) with
        | some hostPlayer =>
          if 3 ≤ soldiers.length then
            (soldiers.map GUnit.id).foldl (aiSoldierStep hostPlayer.id) st2
          else st2
        | none => st2
      (workers.map GUnit.id).foldl aiWorkerStep st3

/-! ## The tick (`GameEngine.update`) -/
/-- The AI phase at the end of `GameEngine.update` (runs once a second). -/
def aiPhase (st : GameState) : GameState :=
  if st.aiEnabled ∧ st.tick % 60 = 0 then updateAI st else st

/-- `GameEngine.update`: one tick of the simulation.  No-op once the
game is over; otherwise increments the tick counter and runs the
subsystem updates in source order. -/
def update (st : GameState) : GameState :=
  if st.gameOver then st
  else
    aiPhase (checkWinCondition (updateFogOfWar (updateEconomy (updateProjectiles
      (updateBuildings (updateUnits { st with tick := st.tick + 1 }))))))

/-! ## Actions (`ActionType` of `types.ts`) and the engine handlers -/
/-- Upgrade kinds (`UpgradeType` of `types.ts`). -/
inductive UpgradeKind where
  | attack | defense | range
  deriving DecidableEq, Repr

/-- `ActionType` of `types.ts`. -/
inductive Action where
  | move (unitId : String) (target : Pos)
  | attack (unitId : String) (targetId : String)
  | stop (unitId : String)
  | holdPosition (unitId : String)
  | patrol (unitId : String) (target : Pos)
  | attackMove (unitId : String) (target : Pos)
  | attackGround (unitId : String) (target : Pos)
  | produce (buildingId : String) (unitType : UnitKind)
  | build (buildingType : BuildingKind) (position : Pos)
  | cancelProduction (buildingId : String) (queueItemId : String)
  | setRallyPoint (buildingId : String) (position : Pos)
  | upgrade (buildingId : String) (upgradeType : UpgradeKind)
  | gather (unitId : String) (resourceId : String)
  | returnResources (unitId : String)
  deriving DecidableEq, Repr

/-- `GameEngine.handleMove`. -/
def handleMove (st : GameState) (playerId unitId : String) (target : Pos) :
    Bool × GameState :=
  match assocGet st.units unitId with
  | none => (false, st)
  | some u =>
    if ¬ u.ownerId == playerId then (false, st)
    else
      (true, setUnit st unitId
        { u with state := .moving, targetPosition := some target, targetId := none })

/-- `GameEngine.handleAttack`. -/
def handleAttack (st : GameState) (playerId unitId targetId : String) :
    Bool × GameState :=
  match assocGet st.units unitId with
  | none => (false, st)
  | some u =>
    if ¬ u.ownerId == playerId then (false, st)
    else
      let targetExists := match assocGet st.units targetId with
        | some t => ¬ t.ownerId == playerId
        | none => match assocGet st.buildings targetId with
          | some b => ¬ b.ownerId == playerId
          | none => false
      if targetExists = false then (false, st)
      else
        (true, setUnit st unitId
          { u with state := .attacking, targetId := some targetId, targetPosition := none })

/-- `GameEngine.handleStop`. -/
def handleStop (st : GameState) (playerId unitId : String) : Bool × GameState :=
  match assocGet st.units unitId with
  | none => (false, st)
  | some u =>
    if ¬ u.ownerId == playerId then (false, st)
    else
      (true, setUnit st unitId
        { u with state := .idle, targetId := none, targetPosition := none, waypoints := [] })

/-- `GameEngine.handleHoldPosition` (delegates to `handleStop`). -/
def handleHoldPosition (st : GameState) (playerId unitId : String) : Bool × GameState :=
  handleStop st playerId unitId

/-- `GameEngine.handlePatrol`. -/
def handlePatrol (st : GameState) (playerId unitId : String) (target : Pos) :
    Bool × GameState :=
  match assocGet st.units unitId with
  | none => (false, st)
  | some u =>
    if ¬ u.ownerId == playerId then (false, st)
    else
      (true, setUnit st unitId
        { u with state := .patrol, waypoints := u.waypoints ++ [target] })

/-- `GameEngine.handleAttackMove`. -/
def handleAttackMove (st : GameState) (playerId unitId : String) (target : Pos) :
    Bool × GameState :=
  match assocGet st.units unitId with
  | none => (false, st)
  | some u =>
    if ¬ u.ownerId == playerId then (false, st)
    else
      (true, setUnit st unitId
        { u with state := .attackMove, targetPosition := some target, targetId := none })

/-- `GameEngine.handleProduce`: resource check, live-unit supply check,
then debit gold and wood and append to the production queue.  Note that
`player.resources.supply` is **not** touched. -/
def handleProduce (st : GameState) (playerId buildingId : String) (unitType : UnitKind) :
    Bool × GameState :=
  match assocGet st.buildings buildingId with
  | none => (false, st)
  | some b =>
    if ¬ b.ownerId == playerId then (false, st)
    else
      let stats := UNIT_STATS unitType
      match assocGet st.players playerId with
      | none => (false, st)
      | some player =>
        if player.resources.gold < stats.costGold ∨ player.resources.wood < stats.costWood then
          (false, st)
        else
          let currentSupply :=
            ((assocValues st.units).filter (fun u => u.ownerId == playerId)).length
          if player.resources.maxSupply < currentSupply + stats.supply then (false, st)
          else
            let st1 := updatePlayer st playerId (fun pl =>
              { pl with resources := { pl.resources with
                  gold := pl.resources.gold - stats.costGold,
                  wood := pl.resources.wood - stats.costWood } })
            let p := genId st1
            (true, setBuilding p.2 buildingId
              { b with productionQueue := b.productionQueue ++
                  [{ id := p.1, kind := unitType, progress := 0, queuedAt := st.tick }] })

/-- `GameEngine.canBuildAt`: map bounds for the footprint, and a
centre-distance check against every existing building (the square-root
comparison carried out on squares). -/
def canBuildAt (st : GameState) (buildingType : BuildingKind) (position : Pos) : Bool :=
  let stats := BUILDING_STATS buildingType
  let halfSize := stats.size / 2
  if position.x - halfSize < 0 ∨ (st.map.width : ℚ) * st.map.tileSize < position.x + halfSize then
    false
  else if position.y - halfSize < 0 ∨
      (st.map.height : ℚ) * st.map.tileSize < position.y + halfSize then
    false
  else
    ¬ (assocValues st.buildings).any (fun b =>
      let dx := b.x - position.x
      let dy := b.y - position.y
      let thr := (b.size + stats.size) / 2 + 10
      decide (dx * dx + dy * dy < thr * thr))

/-- `GameEngine.handleBuild`: resource check, placement check, then debit
and create the building at 10% hp and progress 10. -/
def handleBuild (st : GameState) (playerId : String) (buildingType : BuildingKind)
    (position : Pos) : Bool × GameState :=
  match assocGet st.players playerId with
  | none => (false, st)
  | some player =>
    let stats := BUILDING_STATS buildingType
    if player.resources.gold < stats.costGold ∨ player.resources.wood < stats.costWood then
      (false, st)
    else if ¬ canBuildAt st buildingType position then (false, st)
    else
      let st1 := updatePlayer st playerId (fun pl =>
        { pl with resources := { pl.resources with
            gold := pl.resources.gold - stats.costGold,
            wood := pl.resources.wood - stats.costWood } })
      let p := genId st1
      let b : GBuilding :=
        { id := p.1, ownerId := playerId, x := position.x, y := position.y,
          hp := stats.hp * (1/10), maxHp := stats.hp, size := stats.size,
          kind := buildingType, progress := 10, productionQueue := [],
          rallyPoint := none, isUnderAttack := false, lastAttackTime := 0 }
      (true, { p.2 with buildings := assocSet p.2.buildings b.id b })

/-- `GameEngine.handleUpgrade`: 100 gold per level; range caps at 2, the
others at 3. -/
def handleUpgrade (st : GameState) (playerId buildingId : String)
    (upgradeType : UpgradeKind) : Bool × GameState :=
  match assocGet st.buildings buildingId with
  | none => (false, st)
  | some b =>
    if ¬ b.ownerId == playerId then (false, st)
    else match assocGet st.players playerId with
    | none => (false, st)
    | some player =>
      let currentLevel := match upgradeType with
        | .attack => player.upgrades.attack
        | .defense => player.upgrades.defense
        | .range => player.upgrades.range
      let maxLevel := if upgradeType = .range then 2 else 3
      if maxLevel ≤ currentLevel then (false, st)
      else if player.resources.gold < 100 then (false, st)
      else
        (true, updatePlayer st playerId (fun pl =>
          { pl with
            resources := { pl.resources with gold := pl.resources.gold - 100 },
            upgrades := match upgradeType with
              | .attack => { pl.upgrades with attack := pl.upgrades.attack + 1 }
              | .defense => { pl.upgrades with defense := pl.upgrades.defense + 1 }
              | .range => { pl.upgrades with range := pl.upgrades.range + 1 } }))

/-- `GameEngine.handleGather`. -/
def handleGather (st : GameState) (playerId unitId resourceId : String) :
    Bool × GameState :=
  match assocGet st.units unitId with
  | none => (false, st)
  | some u =>
    if ¬ u.ownerId == playerId ∨ ¬ u.kind = .worker then (false, st)
    else match assocGet st.resources resourceId with
    | none => (false, st)
    | some _ =>
      (true, setUnit st unitId { u with state := .gathering, targetId := some resourceId })

/-- `GameEngine.processAction`: dispatch on the action type; the variants
absent from the source's `switch` fall through to `return false`. -/
def processAction (st : GameState) (playerId : String) (action : Action) :
    Bool × GameState :=
  match assocGet st.players playerId with
  | none => (false, st)
  | some _ =>
    match action with
    | .move unitId target => handleMove st playerId unitId target
    | .attack unitId targetId => handleAttack st playerId unitId targetId
    | .stop unitId => handleStop st playerId unitId
    | .holdPosition unitId => handleHoldPosition st playerId unitId
    | .patrol unitId target => handlePatrol st playerId unitId target
    | .attackMove unitId target => handleAttackMove st playerId unitId target
    | .produce buildingId unitType => handleProduce st playerId buildingId unitType
    | .build buildingType position => handleBuild st playerId buildingType position
    | .upgrade buildingId upgradeType => handleUpgrade st playerId buildingId upgradeType
    | .gather unitId resourceId => handleGather st playerId unitId resourceId
    | .attackGround _ _ => (false, st)
    | .cancelProduction _ _ => (false, st)
    | .setRallyPoint _ _ => (false, st)
    | .returnResources _ => (false, st)

/-! ## Action validator (`validator.ts`)

Shape checks that cannot fail in a typed embedding (missing fields,
unknown unit/building kinds) are noted where they occur; a missing
string id is the empty string.  The `details` payload of
`ValidationResult` is not modelled (no claim constrains it). -/
/-- `ValidationResult` of `validator.ts`. -/
structure ValidationResult where
  valid : Bool
  reason : Option String
  deriving DecidableEq, Repr

/-- The `gameState` argument threaded into `validateAction` by the room
manager (`mapWidth`/`mapHeight` are pixel sizes). -/
structure ValGameState where
  mapWidth : ℚ
  mapHeight : ℚ
  units : List (String × GUnit)
  buildings : List (String × GBuilding)
  deriving DecidableEq, Repr

/-- `validateProduceAction` of `validator.ts`. -/
def validateProduceAction (buildingId : String) (unitType : UnitKind)
    (ownedBuildingIds : List String) (playerResources : PlayerResources) :
    ValidationResult :=
  if buildingId == "" then { valid := false, reason := some "Missing building ID" }
  else if ¬ ownedBuildingIds.contains buildingId then
    { valid := false, reason := some "Building not owned by player" }
  else
    -- `!action.unitType || !UNIT_STATS[action.unitType]` cannot fail here
    let stats := UNIT_STATS unitType
    if playerResources.gold < stats.costGold ∨ playerResources.wood < stats.costWood then
      { valid := false, reason := some "Insufficient resources" }
    else if playerResources.maxSupply ≤ playerResources.supply then
      { valid := false, reason := some "Insufficient supply" }
    else { valid := true, reason := none }

/-- `validateBuildAction` of `validator.ts`. -/
def validateBuildAction (buildingType : BuildingKind) (position : Pos)
    (playerResources : PlayerResources) (gameState : Option ValGameState) :
    ValidationResult :=
  -- the type and position shape checks cannot fail in the typed embedding
  let stats := BUILDING_STATS buildingType
  if playerResources.gold < stats.costGold ∨ playerResources.wood < stats.costWood then
    { valid := false, reason := some "Insufficient resources" }
  else
    match gameState with
    | none => { valid := true, reason := none }
    | some g =>
      let halfSize := stats.size / 2
      if position.x - halfSize < 0 ∨ g.mapWidth < position.x + halfSize ∨
          position.y - halfSize < 0 ∨ g.mapHeight < position.y + halfSize then
        { valid := false, reason := some "Build position out of bounds" }
      else if (assocValues g.buildings).any (fun b =>
          let dx := b.x - position.x
          let dy := b.y - position.y
          let thr := (b.size + stats.size) / 2 + 10
          decide (dx * dx + dy * dy < thr * thr)) then
        { valid := false, reason := some "Cannot build here: too close to another building" }
      else { valid := true, reason := none }

/-! ## Anti-cheat monitor (`anticheat.ts`) -/
/-- Severity levels of `CheatDetectionResult`. -/
inductive CheatSeverity where
  | warning | suspicious | confirmed
  deriving DecidableEq, Repr

/-- `CheatDetectionResult` of `anticheat.ts` (the `reason` holds the
source's message without the interpolated numbers; `details` is not
modelled). -/
structure CheatResult where
  flagged : Bool
  reason : Option String
  severity : CheatSeverity
  deriving DecidableEq, Repr

/-- `validateResources` of `anticheat.ts` (the caller's default
`tolerance` is 5). -/
def anticheatValidateResources (clientResources serverResources : PlayerResources)
    (tolerance : ℚ) : CheatResult :=
  let goldDiff := |clientResources.gold - serverResources.gold|
  if tolerance * 10 < goldDiff then
    { flagged := true, reason := some "Significant gold discrepancy", severity := .confirmed }
  else if tolerance < goldDiff then
    { flagged := true, reason := some "Minor gold discrepancy", severity := .warning }
  else
    let woodDiff := |clientResources.wood - serverResources.wood|
    if tolerance * 10 < woodDiff then
      { flagged := true, reason := some "Significant wood discrepancy", severity := .confirmed }
    else if tolerance < woodDiff then
      { flagged := true, reason := some "Minor wood discrepancy", severity := .warning }
    else if clientResources.maxSupply < clientResources.supply then
      { flagged := true, reason := some "Invalid supply", severity := .confirmed }
    else { flagged := false, reason := none, severity := .warning }

/-! ## Room manager (`room-manager.ts`) -/
/-- Room lifecycle states. -/
inductive RoomStatus where
  | waiting | starting | playing | ended
  deriving DecidableEq, Repr

/-- `PlayerConnection` of `room-manager.ts`. -/
structure PlayerConnection where
  id : String
  name : String
  team : Team
  color : String
  ready : Bool
  lastPing : ℤ
  isConnected : Bool
  resources : PlayerResources
  ownedUnitIds : List String
  ownedBuildingIds : List String
  deriving DecidableEq, Repr

/-- `GameRoom` of `room-manager.ts` (the tick/snapshot interval handles
are scheduling artefacts and are not part of the modelled state). -/
structure GameRoom where
  id : String
  name : String
  mapSeed : ℕ
  difficulty : Difficulty
  maxPlayers : ℕ
  players : List (String × PlayerConnection)
  status : RoomStatus
  engine : Option GameState
  createdAt : ℤ
  startedAt : Option ℤ
  hostId : String
  deriving DecidableEq, Repr

/-- `startGame` of `room-manager.ts`: host-only, only from `waiting`,
and all players ready unless the room has at most one player.  On
success the engine is constructed (players added in insertion order,
then `initializeGame`), and the room becomes `playing`.  `none` models
the source's early `return null` paths, which leave the room untouched. -/
def startGame (room : GameRoom) (hostId : String) (now : ℤ) (rand : List ℚ)
    (idCtr : ℕ) : Option GameRoom :=
  if ¬ room.hostId == hostId then none
  else if ¬ room.status = .waiting then none
  else if ¬ room.players.all (fun p => p.2.ready) ∧ 1 < room.players.length then none
  else
    let e0 := newEngine room.mapSeed room.difficulty now rand idCtr
    let e1 := room.players.foldl
      (fun e pp => addPlayer e pp.1 pp.2.name pp.2.team pp.2.color) e0
    let e2 := initializeGame e1
    some { room with engine := some e2, status := .playing, startedAt := some now }

/-! ## Win-condition manager (`checkWinConditions`, the standalone
module outside `GameEngine`) -/
/-- `WinConditionResult`. -/
structure WinConditionResult where
  gameOver : Bool
  winner : Option String
  reason : Option String
  eliminatedPlayers : List String
  deriving DecidableEq, Repr

/-- `getPlayerName` of the win-condition manager. -/
def getPlayerName (p : GPlayer) : String :=
  if p.name == "" then "Player " ++ p.id.take 8 else p.name

/-- Does this player own a base in `buildings`? -/
def hasBase (buildings : List (String × GBuilding)) (pid : String) : Bool :=
  (assocValues buildings).any (fun b => b.kind == .base && b.ownerId == pid)

/-- `checkWinConditions` of the win-condition manager module. -/
def checkWinConditions (gameState : GameState) : WinConditionResult :=
  let players := assocValues gameState.players
  let eliminatedPlayers := (players.filter
    (fun p => ¬ hasBase gameState.buildings p.id)).map GPlayer.id
  let afterBaseChecks : Option WinConditionResult :=
    if 0 < eliminatedPlayers.length then
      let remainingPlayers := players.filter (fun p => ¬ eliminatedPlayers.contains p.id)
      match remainingPlayers with
      | [winner] =>
        some { gameOver := true, winner := some winner.id,
               reason := some (getPlayerName winner ++ " wins by elimination!"),
               eliminatedPlayers := eliminatedPlayers }
      | _ =>
        if players.length = 2 then
          let hostHasBase := match players.head? with
            | some p0 => hasBase gameState.buildings p0.id
            | none => false
          let guestHasBase := match players.get? 1 with
            | some p1 => hasBase gameState.buildings p1.id
            | none => false
          if hostHasBase = false ∧ guestHasBase = true then
            match players.get? 1, players.head? with
            | some p1, some p0 =>
              some { gameOver := true, winner := some p1.id,
                     reason := some (getPlayerName p1 ++ " wins! Enemy base destroyed!"),
                     eliminatedPlayers := [p0.id] }
            | _, _ => none
          else if guestHasBase = false ∧ hostHasBase = true then
            match players.head?, players.get? 1 with
            | some p0, some p1 =>
              some { gameOver := true, winner := some p0.id,
                     reason := some (getPlayerName p0 ++ " wins! Enemy base destroyed!"),
                     eliminatedPlayers := [p1.id] }
            | _, _ => none
          else none
        else none
    else none
  match afterBaseChecks with
  | some r => r
  | none =>
    if players.length = 2 then
      match players.head?, players.get? 1 with
      | some player1, some player2 =>
        let p1Units := (assocValues gameState.units).filter (fun u => u.ownerId == player1.id)
        let p1Buildings := (assocValues gameState.buildings).filter
          (fun b => b.ownerId == player1.id)
        let p2Units := (assocValues gameState.units).filter (fun u => u.ownerId == player2.id)
        let p2Buildings := (assocValues gameState.buildings).filter
          (fun b => b.ownerId == player2.id)
        if p1Units.length = 0 ∧ p1Buildings.length = 0 ∧
            (p1Buildings.filter (fun b => b.kind == .base)).length = 0 then
          { gameOver := true, winner := some player2.id,
            reason := some (getPlayerName player2 ++ " wins! Enemy army destroyed!"),
            eliminatedPlayers := [player1.id] }
        else if p2Units.length = 0 ∧ p2Buildings.length = 0 ∧
            (p2Buildings.filter (fun b => b.kind == .base)).length = 0 then
          { gameOver := true, winner := some player1.id,
            reason := some (getPlayerName player1 ++ " wins! Enemy army destroyed!"),
            eliminatedPlayers := [player2.id] }
        else
          { gameOver := false, winner := none, reason := none, eliminatedPlayers := [] }
      | _, _ =>
        { gameOver := false, winner := none, reason := none, eliminatedPlayers := [] }
    else
      { gameOver := false, winner := none, reason := none, eliminatedPlayers := [] }

/-! ## Id-shift invariance of map generation

`generateMap` depends on the global `idCounter` only through the ids it
stamps on resources: starting the counter at `c` shifts every id by `c`
and leaves the tiles, resource order, positions and amounts unchanged. -/
/-- Shift a resource id by `c`. -/
def shiftRes (c : ℕ) (r : Res) : Res := { r with id := r.id + c }

/-- Everything of a resource except its id. -/
def stripId (r : Res) : ResKind × ℚ × ℚ × ℚ × ℚ :=
  (r.kind, r.x, r.y, r.amount, r.maxAmount)

/-- Shift the id counter and all pushed ids of a placement state. -/
def shiftSt (c : ℕ) (st : MapGenSt) : MapGenSt :=
  { tiles := st.tiles, resources := st.resources.map (shiftRes c),
    s := st.s, idCtr := st.idCtr + c }

/-! ## Concrete fixtures used by the claim scenarios -/
/-- A sixty-by-sixty map with no tiles materialised (the subsystems the
scenarios exercise read only the dimensions). -/
def emptyMap : GameMap := ⟨60, 60, 40, [], []⟩

/-- A unit literal with the same derived fields `spawnUnit` fills in. -/
def mkUnit (id owner : String) (kind : UnitKind) (x y : ℚ) : GUnit :=
  { id := id, ownerId := owner, x := x, y := y,
    hp := (UNIT_STATS kind).hp, maxHp := (UNIT_STATS kind).hp, size := 16, kind := kind,
    state := .idle, targetId := none, targetPosition := none, waypoints := [],
    attackRange := (UNIT_STATS kind).range, attackDamage := (UNIT_STATS kind).damage,
    attackCooldown := 60, attackCooldownRemaining := 0,
    moveSpeed := (UNIT_STATS kind).speed, armor := (UNIT_STATS kind).armor,
    gatherAmount := ((UNIT_STATS kind).gatherAmount).getD 0,
    gatherRate := ((UNIT_STATS kind).gatherRate).getD 0,
    isUnderAttack := false, lastAttackTime := 0 }

/-- A building literal with the same derived fields
`createBuildingAtPosition` fills in, at an explicit construction
progress. -/
def mkBuilding (id owner : String) (kind : BuildingKind) (x y : ℚ) (progress : ℕ) :
    GBuilding :=
  { id := id, ownerId := owner, x := x, y := y,
    hp := (BUILDING_STATS kind).hp, maxHp := (BUILDING_STATS kind).hp,
    size := (BUILDING_STATS kind).size, kind := kind, progress := progress,
    productionQueue := [], rallyPoint := none, isUnderAttack := false, lastAttackTime := 0 }

/-- A player at the starting resources `addPlayer` hands out. -/
def mkPlayer (id name : String) (team : Team) : GPlayer :=
  { id := id, name := name, team := team, color := "red",
    resources := ⟨200, 100, 5, 10⟩, upgrades := ⟨0, 0, 0⟩, ready := false }

/-- An engine state with nothing in it, over `emptyMap`. -/
def st0 : GameState :=
  { tick := 0, map := emptyMap, units := [], buildings := [], resources := [],
    projectiles := [], players := [], discoveredTiles := [],
    gameOver := false, winner := none, winnerReason := none,
    difficulty := .normal, aiEnabled := false, aiPlayerId := none,
    envNow := 0, envRand := [], envIdCtr := 0 }

/-! ## C4: the damage formula -/
/-- Modelled from the spec: `dealt = max(1, baseDamage +
2·attackerAttackUpgrade − 2·targetDefenseUpgrade)`, where a tower as
the attacker gets `+3·attackUpgrade` instead of `+2`. -/
def specDamage (baseDamage : ℚ) (attackerIsTower : Bool) (atkUp defUp : ℕ) : ℚ :=
  max 1 (baseDamage + (if attackerIsTower then 3 else 2) * (atkUp : ℚ) - 2 * (defUp : ℚ))

/-- The two-player fixture for the damage scenarios: `"A"` has attack
upgrade 1, `"B"` has no upgrades. -/
def stC4 : GameState :=
  { st0 with players :=
      [("A", { mkPlayer "A" "Alice" .host with upgrades := ⟨1, 0, 0⟩ }),
       ("B", mkPlayer "B" "Bob" .guest)] }

/-! ## C8: starting a game -/
/-- The (unready) host connection of the one-player room. -/
def connH : PlayerConnection :=
  { id := "h", name := "Host", team := .host, color := "red",
    ready := false, lastPing := 0, isConnected := true,
    resources := ⟨200, 100, 5, 10⟩, ownedUnitIds := [], ownedBuildingIds := [] }

/-- The one-player, not-ready room. -/
def roomC8 : GameRoom :=
  { id := "r", name := "room", mapSeed := 424242, difficulty := .normal,
    maxPlayers := 2, players := [("h", connH)],
    status := .waiting, engine := none, createdAt := 0, startedAt := none,
    hostId := "h" }

/-! ## C6: the win check -/
/-- Two players, both without a base. -/
def stC6a : GameState :=
  { st0 with players := [("p1", mkPlayer "p1" "Alice" .host),
                         ("p2", mkPlayer "p2" "Bob" .guest)] }

/-- Two players, only `"p1"` owning a base. -/
def stC6b : GameState :=
  { stC6a with buildings := [("base1", mkBuilding "base1" "p1" .base 100 100 100)] }

/-- The player with 50 gold and a finished base. -/
def stC3 : GameState :=
  { st0 with
    players := [("A", { mkPlayer "A" "Alice" .host with resources := ⟨50, 0, 5, 10⟩ })],
    buildings := [("b1", mkBuilding "b1" "A" .base 308 308 100)] }

/-- The in-progress barracks with a nearly finished worker in queue. -/
def b1C5 : GBuilding :=
  { mkBuilding "b1" "A" .barracks 100 100 10 with productionQueue := [⟨"q1", .worker, 479, 0⟩] }

/-- The state for the C5 scenario: an unfinished barracks about to
finish a worker, and an unfinished tower with an enemy soldier in
range. -/
def stC5 : GameState :=
  { st0 with
    players := [("A", mkPlayer "A" "Alice" .host), ("B", mkPlayer "B" "Bob" .guest)],
    buildings := [("b1", b1C5), ("t1", mkBuilding "t1" "A" .tower 500 500 10)],
    units := [("e1", mkUnit "e1" "B" .soldier 600 500)] }

/-- A one-building fixture for the C5 witness: a barracks at progress 10
with a fresh worker order. -/
def qC5 : ProdItem := ⟨"q1", .worker, 0, 0⟩

/-- The barracks carrying `qC5`. -/
def b1C5w : GBuilding :=
  { mkBuilding "b1" "A" .barracks 100 100 10 with productionQueue := [qC5] }

/-- The witness state around `b1C5w`. -/
def stC5w : GameState := { st0 with buildings := [("b1", b1C5w)] }

/-- The eastbound worker of the C2 scenario. -/
def workerC2 : GUnit :=
  { mkUnit "w" "A" .worker 1778 300 with
      state := .moving, targetPosition := some ⟨2178, 300⟩ }

/-- One player, their base, and the eastbound worker. -/
def stC2 : GameState :=
  { st0 with units := [("w", workerC2)],
             buildings := [("b", mkBuilding "b" "A" .base 308 308 100)],
             players := [("A", mkPlayer "A" "Alice" .host)],
             discoveredTiles := [("A", [])] }

/-! ## C7: build placement ignores terrain -/
/-- Modelled from the spec: the terrain half of the build-placement
rule — the new building's footprint (the square of side `size` centred
on the requested position) must not straddle impassable terrain, where
`water` and `mountain` are the impassable tile kinds.  The footprint is
read as the set of tiles it overlaps. -/
def specFootprintPassable (m : GameMap) (buildingType : BuildingKind)
    (position : Pos) : Bool :=
  let half := (BUILDING_STATS buildingType).size / 2
  let loX : ℤ := ⌊(position.x - half) / m.tileSize⌋
  let hiX : ℤ := ⌈(position.x + half) / m.tileSize⌉ - 1
  let loY : ℤ := ⌊(position.y - half) / m.tileSize⌋
  let hiY : ℤ := ⌈(position.y + half) / m.tileSize⌉ - 1
  (intRange loY hiY).all (fun ty =>
    (intRange loX hiX).all (fun tx =>
      let t := getTile m.tiles tx.toNat ty.toNat
      !(t == .water || t == .mountain)))

/-! ## C7 (continued): the concrete water-tile scenario -/
/-- The seed-424242 map as a value (its grid has water at tile (5,0)). -/
def mapC7 : GameMap := ⟨60, 60, 40, grid424242f36out, res424242⟩

/-- An engine state over the seed-424242 map with no buildings. -/
def stC7 : GameState := { st0 with map := mapC7 }

/-! ## Theorems -/

theorem terrainFor_randQ (v : ℕ) : terrainFor (randQ v) = terrainForN v := by
  have h1 : (randQ v < 1/2) ↔ v < 116640 := by
    rw [randQ, div_lt_div_iff₀ (by norm_num) (by norm_num)]
    norm_cast
    omega
  have h2 : (randQ v < 7/10) ↔ v < 163296 := by
    rw [randQ, div_lt_div_iff₀ (by norm_num) (by norm_num)]
    norm_cast
    omega
  have h3 : (randQ v < 85/100) ↔ v < 198288 := by
    rw [randQ, div_lt_div_iff₀ (by norm_num) (by norm_num)]
    norm_cast
    omega
  have h4 : (randQ v < 92/100) ↔ v < 214618 := by
    rw [randQ, div_lt_div_iff₀ (by norm_num) (by norm_num)]
    norm_cast
    omega
  have h5 : (randQ v < 96/100) ↔ v < 223949 := by
    rw [randQ, div_lt_div_iff₀ (by norm_num) (by norm_num)]
    norm_cast
    omega
  simp only [terrainFor, terrainForN, h1, h2, h3, h4, h5]

theorem tileAt_eq_tileAtN (x y s : ℕ) : tileAt x y s = tileAtN x y s := by
  simp only [tileAt, tileAtN, terrainFor_randQ]

theorem mapState_congr {f g : α → σ → β × σ} (h : ∀ a s, f a s = g a s) :
    ∀ (l : List α) (s : σ), mapState f l s = mapState g l s := by
  intro l
  induction l with
  | nil => intro s; rfl
  | cons a l ih => intro s; simp only [mapState, h a s, ih]

theorem genTerrain_eq (s : ℕ) :
    genTerrain s =
      mapState (fun y s => mapState (fun x s => tileAtN x y s) (List.range 60) s)
        (List.range 60) s := by
  exact mapState_congr (fun y s => mapState_congr (fun x s => tileAt_eq_tileAtN x y s) _ s) _ s

theorem randQ_mul_floor (v m : ℕ) :
    ⌊randQ v * ((m : ℕ) : ℚ)⌋ = ((m * v / 233280 : ℕ) : ℤ) := by
  have h : randQ v * ((m : ℕ) : ℚ) = ((m * v : ℕ) : ℚ) / ((233280 : ℕ) : ℚ) := by
    rw [randQ]
    push_cast
    ring
  rw [h, Rat.floor_natCast_div_natCast]
  exact (Int.ofNat_div _ _).symm

theorem randQ_mul_floor_toNat (v m : ℕ) :
    (⌊randQ v * ((m : ℕ) : ℚ)⌋).toNat = m * v / 233280 := by
  rw [randQ_mul_floor]
  exact Int.toNat_natCast _

theorem goldMineStep_eq (st : MapGenSt) : goldMineStep st = goldMineStepN st := by
  have h56 : ((60 : ℚ) - 4) = ((56 : ℕ) : ℚ) := by norm_num
  have hx : ∀ w : ℕ, (⌊randQ w * ((60 : ℚ) - 4)⌋).toNat + 2 = 56 * w / 233280 + 2 := by
    intro w
    rw [h56, randQ_mul_floor_toNat]
  have hamt : ∀ w : ℕ, (1500 : ℚ) + ((⌊randQ w * 1500⌋ : ℤ) : ℚ) =
      ((1500 + 1500 * w / 233280 : ℕ) : ℚ) := by
    intro w
    have : ((1500 : ℕ) : ℚ) = (1500 : ℚ) := by norm_num
    rw [← this, randQ_mul_floor]
    norm_cast
  have hcoord : ∀ w : ℕ, ((w : ℕ) : ℚ) * 40 + 40 / 2 = ((40 * w + 20 : ℕ) : ℚ) := by
    intro w
    push_cast
    ring
  simp only [goldMineStep, goldMineStepN, hx, hamt, hcoord]

theorem forestStep_eq (st : MapGenSt) : forestStep st = forestStepN st := by
  have h56 : ((60 : ℚ) - 4) = ((56 : ℕ) : ℚ) := by norm_num
  have hx : ∀ w : ℕ, (⌊randQ w * ((60 : ℚ) - 4)⌋).toNat + 2 = 56 * w / 233280 + 2 := by
    intro w
    rw [h56, randQ_mul_floor_toNat]
  have hamt : ∀ w : ℕ, (800 : ℚ) + ((⌊randQ w * 700⌋ : ℤ) : ℚ) =
      ((800 + 700 * w / 233280 : ℕ) : ℚ) := by
    intro w
    have : ((700 : ℕ) : ℚ) = (700 : ℚ) := by norm_num
    rw [← this, randQ_mul_floor]
    norm_cast
  have hcoord : ∀ w : ℕ, ((w : ℕ) : ℚ) * 40 + 40 / 2 = ((40 * w + 20 : ℕ) : ℚ) := by
    intro w
    push_cast
    ring
  simp only [forestStep, forestStepN, hx, hamt, hcoord]

theorem iterSteps_congr {f g : MapGenSt → MapGenSt} (h : ∀ st, f st = g st) :
    ∀ (n : ℕ) (st : MapGenSt), iterSteps f n st = iterSteps g n st := by
  intro n
  induction n with
  | zero => intro st; rfl
  | succ n ih => intro st; simp only [iterSteps, h st, ih]

theorem generateMap_eq_generateMapN (seed idCtr : ℕ) :
    generateMap seed idCtr = generateMapN seed idCtr := by
  have h10 : ∀ w : ℕ, (⌊randQ w * (10 : ℚ)⌋).toNat = 10 * w / 233280 := by
    intro w
    have : ((10 : ℕ) : ℚ) = (10 : ℚ) := by norm_num
    rw [← this, randQ_mul_floor_toNat]
  have h15 : ∀ w : ℕ, (⌊randQ w * (15 : ℚ)⌋).toNat = 15 * w / 233280 := by
    intro w
    have : ((15 : ℕ) : ℚ) = (15 : ℚ) := by norm_num
    rw [← this, randQ_mul_floor_toNat]
  simp only [generateMap, generateMapN, mapGenFinishN, mapGenPack, genTerrain_eq, h10, h15,
    iterSteps_congr goldMineStep_eq, iterSteps_congr forestStep_eq]

/-- Decomposition of `mapState` over an explicit head element, used to
chain per-row evaluations of the terrain loop. -/
theorem mapState_cons {f : α → σ → β × σ} {a : α} {l : List α} {s : σ}
    {b : β} {s' : σ} {bs : List β} {s'' : σ}
    (h1 : f a s = (b, s')) (h2 : mapState f l s' = (bs, s'')) :
    mapState f (a :: l) s = (b :: bs, s'') := by
  simp only [mapState, h1, h2]

set_option maxRecDepth 40000 in
set_option maxHeartbeats 1000000 in
theorem mapRow424242y0 : mapState (fun x s => tileAtN x 0 s) (List.range 60) 424242 = (gridRow424242y0, 84037) := by decide

set_option maxRecDepth 40000 in
set_option maxHeartbeats 1000000 in
theorem mapRow424242y1 : mapState (fun x s => tileAtN x 1 s) (List.range 60) 84037 = (gridRow424242y1, 44012) := by decide

set_option maxRecDepth 40000 in
set_option maxHeartbeats 1000000 in
theorem mapRow424242y2 : mapState (fun x s => tileAtN x 2 s) (List.range 60) 44012 = (gridRow424242y2, 44247) := by decide

set_option maxRecDepth 40000 in
set_option maxHeartbeats 1000000 in
theorem mapRow424242y3 : mapState (fun x s => tileAtN x 3 s) (List.range 60) 44247 = (gridRow424242y3, 49462) := by decide

set_option maxRecDepth 40000 in
set_option maxHeartbeats 1000000 in
theorem mapRow424242y4 : mapState (fun x s => tileAtN x 4 s) (List.range 60) 49462 = (gridRow424242y4, 145337) := by decide

set_option maxRecDepth 40000 in
set_option maxHeartbeats 1000000 in
theorem mapRow424242y5 : mapState (fun x s => tileAtN x 5 s) (List.range 60) 145337 = (gridRow424242y5, 208397) := by decide

set_option maxRecDepth 40000 in
set_option maxHeartbeats 1000000 in
theorem mapRow424242y6 : mapState (fun x s => tileAtN x 6 s) (List.range 60) 208397 = (gridRow424242y6, 55457) := by decide

set_option maxRecDepth 40000 in
set_option maxHeartbeats 1000000 in
theorem mapRow424242y7 : mapState (fun x s => tileAtN x 7 s) (List.range 60) 55457 = (gridRow424242y7, 230837) := by decide

set_option maxRecDepth 40000 in
set_option maxHeartbeats 1000000 in
theorem mapRow424242y8 : mapState (fun x s => tileAtN x 8 s) (List.range 60) 230837 = (gridRow424242y8, 112457) := by decide

set_option maxRecDepth 40000 in
set_option maxHeartbeats 1000000 in
theorem mapRow424242y9 : mapState (fun x s => tileAtN x 9 s) (List.range 60) 112457 = (gridRow424242y9, 11357) := by decide

set_option maxRecDepth 40000 in
set_option maxHeartbeats 1000000 in
theorem mapRow424242y10 : mapState (fun x s => tileAtN x 10 s) (List.range 60) 11357 = (gridRow424242y10, 5297) := by decide

set_option maxRecDepth 40000 in
set_option maxHeartbeats 1000000 in
theorem mapRow424242y11 : mapState (fun x s => tileAtN x 11 s) (List.range 60) 5297 = (gridRow424242y11, 172037) := by decide

set_option maxRecDepth 40000 in
set_option maxHeartbeats 1000000 in
theorem mapRow424242y12 : mapState (fun x s => tileAtN x 12 s) (List.range 60) 172037 = (gridRow424242y12, 122777) := by decide

set_option maxRecDepth 40000 in
set_option maxHeartbeats 1000000 in
theorem mapRow424242y13 : mapState (fun x s => tileAtN x 13 s) (List.range 60) 122777 = (gridRow424242y13, 168557) := by decide

set_option maxRecDepth 40000 in
set_option maxHeartbeats 1000000 in
theorem mapRow424242y14 : mapState (fun x s => tileAtN x 14 s) (List.range 60) 168557 = (gridRow424242y14, 153857) := by decide

set_option maxRecDepth 40000 in
set_option maxHeartbeats 1000000 in
theorem mapRow424242y15 : mapState (fun x s => tileAtN x 15 s) (List.range 60) 153857 = (gridRow424242y15, 156437) := by decide

set_option maxRecDepth 40000 in
set_option maxHeartbeats 1000000 in
theorem mapRow424242y16 : mapState (fun x s => tileAtN x 16 s) (List.range 60) 156437 = (gridRow424242y16, 20777) := by decide

set_option maxRecDepth 40000 in
set_option maxHeartbeats 1000000 in
theorem mapRow424242y17 : mapState (fun x s => tileAtN x 17 s) (List.range 60) 20777 = (gridRow424242y17, 57917) := by decide

set_option maxRecDepth 40000 in
set_option maxHeartbeats 1000000 in
theorem mapRow424242y18 : mapState (fun x s => tileAtN x 18 s) (List.range 60) 57917 = (gridRow424242y18, 112337) := by decide

set_option maxRecDepth 40000 in
set_option maxHeartbeats 1000000 in
theorem mapRow424242y19 : mapState (fun x s => tileAtN x 19 s) (List.range 60) 112337 = (gridRow424242y19, 28517) := by decide

set_option maxRecDepth 40000 in
set_option maxHeartbeats 1000000 in
theorem mapRow424242y20 : mapState (fun x s => tileAtN x 20 s) (List.range 60) 28517 = (gridRow424242y20, 117497) := by decide

set_option maxRecDepth 40000 in
set_option maxHeartbeats 1000000 in
theorem mapRow424242y21 : mapState (fun x s => tileAtN x 21 s) (List.range 60) 117497 = (gridRow424242y21, 223757) := by decide

set_option maxRecDepth 40000 in
set_option maxHeartbeats 1000000 in
theorem mapRow424242y22 : mapState (fun x s => tileAtN x 22 s) (List.range 60) 223757 = (gridRow424242y22, 191777) := by decide

set_option maxRecDepth 40000 in
set_option maxHeartbeats 1000000 in
theorem mapRow424242y23 : mapState (fun x s => tileAtN x 23 s) (List.range 60) 191777 = (gridRow424242y23, 99317) := by decide

set_option maxRecDepth 40000 in
set_option maxHeartbeats 1000000 in
theorem mapRow424242y24 : mapState (fun x s => tileAtN x 24 s) (List.range 60) 99317 = (gridRow424242y24, 24137) := by decide

set_option maxRecDepth 40000 in
set_option maxHeartbeats 1000000 in
theorem mapRow424242y25 : mapState (fun x s => tileAtN x 25 s) (List.range 60) 24137 = (gridRow424242y25, 43997) := by decide

set_option maxRecDepth 40000 in
set_option maxHeartbeats 1000000 in
theorem mapRow424242y26 : mapState (fun x s => tileAtN x 26 s) (List.range 60) 43997 = (gridRow424242y26, 3377) := by decide

set_option maxRecDepth 40000 in
set_option maxHeartbeats 1000000 in
theorem mapRow424242y27 : mapState (fun x s => tileAtN x 27 s) (List.range 60) 3377 = (gridRow424242y27, 213317) := by decide

set_option maxRecDepth 40000 in
set_option maxHeartbeats 1000000 in
theorem mapRow424242y28 : mapState (fun x s => tileAtN x 28 s) (List.range 60) 213317 = (gridRow424242y28, 51737) := by decide

set_option maxRecDepth 40000 in
set_option maxHeartbeats 1000000 in
theorem mapRow424242y29 : mapState (fun x s => tileAtN x 29 s) (List.range 60) 51737 = (gridRow424242y29, 62957) := by decide

set_option maxRecDepth 40000 in
set_option maxHeartbeats 1000000 in
theorem mapRow424242y30 : mapState (fun x s => tileAtN x 30 s) (List.range 60) 62957 = (gridRow424242y30, 91457) := by decide

set_option maxRecDepth 40000 in
set_option maxHeartbeats 1000000 in
theorem mapRow424242y31 : mapState (fun x s => tileAtN x 31 s) (List.range 60) 91457 = (gridRow424242y31, 214997) := by decide

set_option maxRecDepth 40000 in
set_option maxHeartbeats 1000000 in
theorem mapRow424242y32 : mapState (fun x s => tileAtN x 32 s) (List.range 60) 214997 = (gridRow424242y32, 44777) := by decide

set_option maxRecDepth 40000 in
set_option maxHeartbeats 1000000 in
theorem mapRow424242y33 : mapState (fun x s => tileAtN x 33 s) (List.range 60) 44777 = (gridRow424242y33, 125117) := by decide

set_option maxRecDepth 40000 in
set_option maxHeartbeats 1000000 in
theorem mapRow424242y34 : mapState (fun x s => tileAtN x 34 s) (List.range 60) 125117 = (gridRow424242y34, 67217) := by decide

set_option maxRecDepth 40000 in
set_option maxHeartbeats 1000000 in
theorem mapRow424242y35 : mapState (fun x s => tileAtN x 35 s) (List.range 60) 67217 = (gridRow424242y35, 182117) := by decide

set_option maxRecDepth 40000 in
set_option maxHeartbeats 1000000 in
theorem mapRow424242y36 : mapState (fun x s => tileAtN x 36 s) (List.range 60) 182117 = (gridRow424242y36, 81017) := by decide

set_option maxRecDepth 40000 in
set_option maxHeartbeats 1000000 in
theorem mapRow424242y37 : mapState (fun x s => tileAtN x 37 s) (List.range 60) 81017 = (gridRow424242y37, 74957) := by decide

set_option maxRecDepth 40000 in
set_option maxHeartbeats 1000000 in
theorem mapRow424242y38 : mapState (fun x s => tileAtN x 38 s) (List.range 60) 74957 = (gridRow424242y38, 8417) := by decide

set_option maxRecDepth 40000 in
set_option maxHeartbeats 1000000 in
theorem mapRow424242y39 : mapState (fun x s => tileAtN x 39 s) (List.range 60) 8417 = (gridRow424242y39, 192437) := by decide

set_option maxRecDepth 40000 in
set_option maxHeartbeats 1000000 in
theorem mapRow424242y40 : mapState (fun x s => tileAtN x 40 s) (List.range 60) 192437 = (gridRow424242y40, 4937) := by decide

set_option maxRecDepth 40000 in
set_option maxHeartbeats 1000000 in
theorem mapRow424242y41 : mapState (fun x s => tileAtN x 41 s) (List.range 60) 4937 = (gridRow424242y41, 223517) := by decide

set_option maxRecDepth 40000 in
set_option maxHeartbeats 1000000 in
theorem mapRow424242y42 : mapState (fun x s => tileAtN x 42 s) (List.range 60) 223517 = (gridRow424242y42, 226097) := by decide

set_option maxRecDepth 40000 in
set_option maxHeartbeats 1000000 in
theorem mapRow424242y43 : mapState (fun x s => tileAtN x 43 s) (List.range 60) 226097 = (gridRow424242y43, 90437) := by decide

set_option maxRecDepth 40000 in
set_option maxHeartbeats 1000000 in
theorem mapRow424242y44 : mapState (fun x s => tileAtN x 44 s) (List.range 60) 90437 = (gridRow424242y44, 127577) := by decide

set_option maxRecDepth 40000 in
set_option maxHeartbeats 1000000 in
theorem mapRow424242y45 : mapState (fun x s => tileAtN x 45 s) (List.range 60) 127577 = (gridRow424242y45, 181997) := by decide

set_option maxRecDepth 40000 in
set_option maxHeartbeats 1000000 in
theorem mapRow424242y46 : mapState (fun x s => tileAtN x 46 s) (List.range 60) 181997 = (gridRow424242y46, 98177) := by decide

set_option maxRecDepth 40000 in
set_option maxHeartbeats 1000000 in
theorem mapRow424242y47 : mapState (fun x s => tileAtN x 47 s) (List.range 60) 98177 = (gridRow424242y47, 187157) := by decide

set_option maxRecDepth 40000 in
set_option maxHeartbeats 1000000 in
theorem mapRow424242y48 : mapState (fun x s => tileAtN x 48 s) (List.range 60) 187157 = (gridRow424242y48, 60137) := by decide

set_option maxRecDepth 40000 in
set_option maxHeartbeats 1000000 in
theorem mapRow424242y49 : mapState (fun x s => tileAtN x 49 s) (List.range 60) 60137 = (gridRow424242y49, 28157) := by decide

set_option maxRecDepth 40000 in
set_option maxHeartbeats 1000000 in
theorem mapRow424242y50 : mapState (fun x s => tileAtN x 50 s) (List.range 60) 28157 = (gridRow424242y50, 168977) := by decide

set_option maxRecDepth 40000 in
set_option maxHeartbeats 1000000 in
theorem mapRow424242y51 : mapState (fun x s => tileAtN x 51 s) (List.range 60) 168977 = (gridRow424242y51, 93797) := by decide

set_option maxRecDepth 40000 in
set_option maxHeartbeats 1000000 in
theorem mapRow424242y52 : mapState (fun x s => tileAtN x 52 s) (List.range 60) 93797 = (gridRow424242y52, 113657) := by decide

set_option maxRecDepth 40000 in
set_option maxHeartbeats 1000000 in
theorem mapRow424242y53 : mapState (fun x s => tileAtN x 53 s) (List.range 60) 113657 = (gridRow424242y53, 73037) := by decide

set_option maxRecDepth 40000 in
set_option maxHeartbeats 1000000 in
theorem mapRow424242y54 : mapState (fun x s => tileAtN x 54 s) (List.range 60) 73037 = (gridRow424242y54, 49697) := by decide

set_option maxRecDepth 40000 in
set_option maxHeartbeats 1000000 in
theorem mapRow424242y55 : mapState (fun x s => tileAtN x 55 s) (List.range 60) 49697 = (gridRow424242y55, 150552) := by decide

set_option maxRecDepth 40000 in
set_option maxHeartbeats 1000000 in
theorem mapRow424242y56 : mapState (fun x s => tileAtN x 56 s) (List.range 60) 150552 = (gridRow424242y56, 219667) := by decide

set_option maxRecDepth 40000 in
set_option maxHeartbeats 1000000 in
theorem mapRow424242y57 : mapState (fun x s => tileAtN x 57 s) (List.range 60) 219667 = (gridRow424242y57, 135362) := by decide

set_option maxRecDepth 40000 in
set_option maxHeartbeats 1000000 in
theorem mapRow424242y58 : mapState (fun x s => tileAtN x 58 s) (List.range 60) 135362 = (gridRow424242y58, 26517) := by decide

set_option maxRecDepth 40000 in
set_option maxHeartbeats 1000000 in
theorem mapRow424242y59 : mapState (fun x s => tileAtN x 59 s) (List.range 60) 26517 = (gridRow424242y59, 13372) := by decide

set_option maxRecDepth 40000 in
set_option maxHeartbeats 2000000 in
theorem terrainN424242 : mapState (fun y s => mapState (fun x s => tileAtN x y s) (List.range 60) s) (List.range 60) 424242 = (grid424242, 13372) := by
  have hr : (List.range 60 : List ℕ) = [0, 1, 2, 3, 4, 5, 6, 7, 8, 9, 10, 11, 12, 13, 14, 15, 16, 17, 18, 19, 20, 21, 22, 23, 24, 25, 26, 27, 28, 29, 30, 31, 32, 33, 34, 35, 36, 37, 38, 39, 40, 41, 42, 43, 44, 45, 46, 47, 48, 49, 50, 51, 52, 53, 54, 55, 56, 57, 58, 59] := by decide
  rw [hr]
  exact (mapState_cons mapRow424242y0 (mapState_cons mapRow424242y1 (mapState_cons mapRow424242y2 (mapState_cons mapRow424242y3 (mapState_cons mapRow424242y4 (mapState_cons mapRow424242y5 (mapState_cons mapRow424242y6 (mapState_cons mapRow424242y7 (mapState_cons mapRow424242y8 (mapState_cons mapRow424242y9 (mapState_cons mapRow424242y10 (mapState_cons mapRow424242y11 (mapState_cons mapRow424242y12 (mapState_cons mapRow424242y13 (mapState_cons mapRow424242y14 (mapState_cons mapRow424242y15 (mapState_cons mapRow424242y16 (mapState_cons mapRow424242y17 (mapState_cons mapRow424242y18 (mapState_cons mapRow424242y19 (mapState_cons mapRow424242y20 (mapState_cons mapRow424242y21 (mapState_cons mapRow424242y22 (mapState_cons mapRow424242y23 (mapState_cons mapRow424242y24 (mapState_cons mapRow424242y25 (mapState_cons mapRow424242y26 (mapState_cons mapRow424242y27 (mapState_cons mapRow424242y28 (mapState_cons mapRow424242y29 (mapState_cons mapRow424242y30 (mapState_cons mapRow424242y31 (mapState_cons mapRow424242y32 (mapState_cons mapRow424242y33 (mapState_cons mapRow424242y34 (mapState_cons mapRow424242y35 (mapState_cons mapRow424242y36 (mapState_cons mapRow424242y37 (mapState_cons mapRow424242y38 (mapState_cons mapRow424242y39 (mapState_cons mapRow424242y40 (mapState_cons mapRow424242y41 (mapState_cons mapRow424242y42 (mapState_cons mapRow424242y43 (mapState_cons mapRow424242y44 (mapState_cons mapRow424242y45 (mapState_cons mapRow424242y46 (mapState_cons mapRow424242y47 (mapState_cons mapRow424242y48 (mapState_cons mapRow424242y49 (mapState_cons mapRow424242y50 (mapState_cons mapRow424242y51 (mapState_cons mapRow424242y52 (mapState_cons mapRow424242y53 (mapState_cons mapRow424242y54 (mapState_cons mapRow424242y55 (mapState_cons mapRow424242y56 (mapState_cons mapRow424242y57 (mapState_cons mapRow424242y58 (mapState_cons mapRow424242y59 rfl))))))))))))))))))))))))))))))))))))))))))))))))))))))))))))

/-- Single-step decomposition of `iterSteps`, used to chain concrete evaluations. -/
theorem iterSteps_step (f : MapGenSt → MapGenSt) {n : ℕ} {st st' : MapGenSt} (h : f st = st') : iterSteps f (n + 1) st = iterSteps f n st' := by
  rw [iterSteps, h]

set_option maxRecDepth 40000 in
theorem mapStep424242g0 : goldMineStepN ⟨grid424242, res424242.take 0, 115026, 0⟩ = ⟨grid424242g0out, res424242.take 1, 14697, 1⟩ := by
  decide

set_option maxRecDepth 40000 in
theorem mapStep424242g1 : goldMineStepN ⟨grid424242g0out, res424242.take 1, 14697, 1⟩ = ⟨grid424242g0out, res424242.take 1, 17111, 1⟩ := by
  decide

set_option maxRecDepth 40000 in
theorem mapStep424242g2 : goldMineStepN ⟨grid424242g0out, res424242.take 1, 17111, 1⟩ = ⟨grid424242g2out, res424242.take 2, 196682, 2⟩ := by
  decide

set_option maxRecDepth 40000 in
theorem mapStep424242g3 : goldMineStepN ⟨grid424242g2out, res424242.take 2, 196682, 2⟩ = ⟨grid424242g2out, res424242.take 2, 20656, 2⟩ := by
  decide

set_option maxRecDepth 40000 in
theorem mapStep424242g4 : goldMineStepN ⟨grid424242g2out, res424242.take 2, 20656, 2⟩ = ⟨grid424242g4out, res424242.take 3, 231727, 3⟩ := by
  decide

set_option maxRecDepth 40000 in
theorem mapStep424242g5 : goldMineStepN ⟨grid424242g4out, res424242.take 3, 231727, 3⟩ = ⟨grid424242g5out, res424242.take 4, 21058, 4⟩ := by
  decide

set_option maxRecDepth 40000 in
theorem mapStep424242g6 : goldMineStepN ⟨grid424242g5out, res424242.take 4, 21058, 4⟩ = ⟨grid424242g6out, res424242.take 5, 185689, 5⟩ := by
  decide

set_option maxRecDepth 40000 in
theorem mapStep424242g7 : goldMineStepN ⟨grid424242g6out, res424242.take 5, 185689, 5⟩ = ⟨grid424242g6out, res424242.take 5, 217863, 5⟩ := by
  decide

set_option maxRecDepth 40000 in
theorem mapStep424242g8 : goldMineStepN ⟨grid424242g6out, res424242.take 5, 217863, 5⟩ = ⟨grid424242g6out, res424242.take 5, 114437, 5⟩ := by
  decide

set_option maxRecDepth 40000 in
theorem mapStep424242g9 : goldMineStepN ⟨grid424242g6out, res424242.take 5, 114437, 5⟩ = ⟨grid424242g6out, res424242.take 5, 163411, 5⟩ := by
  decide

set_option maxRecDepth 40000 in
theorem mapStep424242g10 : goldMineStepN ⟨grid424242g6out, res424242.take 5, 163411, 5⟩ = ⟨grid424242g10out, res424242.take 6, 170902, 6⟩ := by
  decide

set_option maxRecDepth 40000 in
theorem mapStep424242g11 : goldMineStepN ⟨grid424242g10out, res424242.take 6, 170902, 6⟩ = ⟨grid424242g11out, res424242.take 7, 9373, 7⟩ := by
  decide

set_option maxRecDepth 40000 in
theorem mapStep424242g12 : goldMineStepN ⟨grid424242g11out, res424242.take 7, 9373, 7⟩ = ⟨grid424242g11out, res424242.take 7, 161067, 7⟩ := by
  decide

set_option maxRecDepth 40000 in
theorem mapStep424242g13 : goldMineStepN ⟨grid424242g11out, res424242.take 7, 161067, 7⟩ = ⟨grid424242g11out, res424242.take 7, 38921, 7⟩ := by
  decide

set_option maxRecDepth 40000 in
theorem mapStep424242g14 : goldMineStepN ⟨grid424242g11out, res424242.take 7, 38921, 7⟩ = ⟨grid424242g11out, res424242.take 7, 34615, 7⟩ := by
  decide

set_option maxRecDepth 40000 in
theorem mapStep424242g15 : goldMineStepN ⟨grid424242g11out, res424242.take 7, 34615, 7⟩ = ⟨grid424242g11out, res424242.take 7, 168309, 7⟩ := by
  decide

set_option maxRecDepth 40000 in
theorem mapStep424242g16 : goldMineStepN ⟨grid424242g11out, res424242.take 7, 168309, 7⟩ = ⟨grid424242g11out, res424242.take 7, 192323, 7⟩ := by
  decide

set_option maxRecDepth 40000 in
theorem mapStep424242g17 : goldMineStepN ⟨grid424242g11out, res424242.take 7, 192323, 7⟩ = ⟨grid424242g11out, res424242.take 7, 83617, 7⟩ := by
  decide

set_option maxRecDepth 40000 in
theorem mapStep424242g18 : goldMineStepN ⟨grid424242g11out, res424242.take 7, 83617, 7⟩ = ⟨grid424242g11out, res424242.take 7, 225231, 7⟩ := by
  decide

set_option maxRecDepth 40000 in
theorem mapStep424242g19 : goldMineStepN ⟨grid424242g11out, res424242.take 7, 225231, 7⟩ = ⟨grid424242g11out, res424242.take 7, 110285, 7⟩ := by
  decide

set_option maxRecDepth 40000 in
theorem mapStep424242g20 : goldMineStepN ⟨grid424242g11out, res424242.take 7, 110285, 7⟩ = ⟨grid424242g11out, res424242.take 7, 859, 7⟩ := by
  decide

set_option maxRecDepth 40000 in
theorem mapStep424242g21 : goldMineStepN ⟨grid424242g11out, res424242.take 7, 859, 7⟩ = ⟨grid424242g21out, res424242.take 8, 211390, 8⟩ := by
  decide

set_option maxRecDepth 40000 in
theorem mapStep424242g22 : goldMineStepN ⟨grid424242g21out, res424242.take 8, 211390, 8⟩ = ⟨grid424242g21out, res424242.take 8, 151044, 8⟩ := by
  decide

set_option maxRecDepth 40000 in
theorem mapStep424242f0 : forestStepN ⟨grid424242g21out, res424242.take 8, 151044, 8⟩ = ⟨grid424242f0out, res424242.take 9, 99315, 9⟩ := by
  decide

set_option maxRecDepth 40000 in
theorem mapStep424242f1 : forestStepN ⟨grid424242f0out, res424242.take 9, 99315, 9⟩ = ⟨grid424242f0out, res424242.take 9, 17489, 9⟩ := by
  decide

set_option maxRecDepth 40000 in
theorem mapStep424242f2 : forestStepN ⟨grid424242f0out, res424242.take 9, 17489, 9⟩ = ⟨grid424242f0out, res424242.take 9, 217663, 9⟩ := by
  decide

set_option maxRecDepth 40000 in
theorem mapStep424242f3 : forestStepN ⟨grid424242f0out, res424242.take 9, 217663, 9⟩ = ⟨grid424242f0out, res424242.take 10, 179794, 10⟩ := by
  decide

set_option maxRecDepth 40000 in
theorem mapStep424242f4 : forestStepN ⟨grid424242f0out, res424242.take 10, 179794, 10⟩ = ⟨grid424242f4out, res424242.take 11, 206185, 11⟩ := by
  decide

set_option maxRecDepth 40000 in
theorem mapStep424242f5 : forestStepN ⟨grid424242f4out, res424242.take 11, 206185, 11⟩ = ⟨grid424242f5out, res424242.take 12, 160756, 12⟩ := by
  decide

set_option maxRecDepth 40000 in
theorem mapStep424242f6 : forestStepN ⟨grid424242f5out, res424242.take 12, 160756, 12⟩ = ⟨grid424242f5out, res424242.take 12, 46410, 12⟩ := by
  decide

set_option maxRecDepth 40000 in
theorem mapStep424242f7 : forestStepN ⟨grid424242f5out, res424242.take 12, 46410, 12⟩ = ⟨grid424242f5out, res424242.take 13, 10881, 13⟩ := by
  decide

set_option maxRecDepth 40000 in
theorem mapStep424242f8 : forestStepN ⟨grid424242f5out, res424242.take 13, 10881, 13⟩ = ⟨grid424242f8out, res424242.take 14, 162732, 14⟩ := by
  decide

set_option maxRecDepth 40000 in
theorem mapStep424242f9 : forestStepN ⟨grid424242f8out, res424242.take 14, 162732, 14⟩ = ⟨grid424242f8out, res424242.take 15, 132603, 15⟩ := by
  decide

set_option maxRecDepth 40000 in
theorem mapStep424242f10 : forestStepN ⟨grid424242f8out, res424242.take 15, 132603, 15⟩ = ⟨grid424242f10out, res424242.take 16, 17694, 16⟩ := by
  decide

set_option maxRecDepth 40000 in
theorem mapStep424242f11 : forestStepN ⟨grid424242f10out, res424242.take 16, 17694, 16⟩ = ⟨grid424242f10out, res424242.take 16, 68708, 16⟩ := by
  decide

set_option maxRecDepth 40000 in
theorem mapStep424242f12 : forestStepN ⟨grid424242f10out, res424242.take 16, 68708, 16⟩ = ⟨grid424242f10out, res424242.take 16, 90682, 16⟩ := by
  decide

set_option maxRecDepth 40000 in
theorem mapStep424242f13 : forestStepN ⟨grid424242f10out, res424242.take 16, 90682, 16⟩ = ⟨grid424242f10out, res424242.take 17, 164593, 17⟩ := by
  decide

set_option maxRecDepth 40000 in
theorem mapStep424242f14 : forestStepN ⟨grid424242f10out, res424242.take 17, 164593, 17⟩ = ⟨grid424242f10out, res424242.take 17, 136287, 17⟩ := by
  decide

set_option maxRecDepth 40000 in
theorem mapStep424242f15 : forestStepN ⟨grid424242f10out, res424242.take 17, 136287, 17⟩ = ⟨grid424242f10out, res424242.take 17, 76061, 17⟩ := by
  decide

set_option maxRecDepth 40000 in
theorem mapStep424242f16 : forestStepN ⟨grid424242f10out, res424242.take 17, 76061, 17⟩ = ⟨grid424242f16out, res424242.take 18, 64472, 18⟩ := by
  decide

set_option maxRecDepth 40000 in
theorem mapStep424242f17 : forestStepN ⟨grid424242f16out, res424242.take 18, 64472, 18⟩ = ⟨grid424242f16out, res424242.take 18, 110926, 18⟩ := by
  decide

set_option maxRecDepth 40000 in
theorem mapStep424242f18 : forestStepN ⟨grid424242f16out, res424242.take 18, 110926, 18⟩ = ⟨grid424242f16out, res424242.take 18, 191700, 18⟩ := by
  decide

set_option maxRecDepth 40000 in
theorem mapStep424242f19 : forestStepN ⟨grid424242f16out, res424242.take 18, 191700, 18⟩ = ⟨grid424242f16out, res424242.take 19, 105411, 19⟩ := by
  decide

set_option maxRecDepth 40000 in
theorem mapStep424242f20 : forestStepN ⟨grid424242f16out, res424242.take 19, 105411, 19⟩ = ⟨grid424242f20out, res424242.take 20, 12102, 20⟩ := by
  decide

set_option maxRecDepth 40000 in
theorem mapStep424242f21 : forestStepN ⟨grid424242f20out, res424242.take 20, 12102, 20⟩ = ⟨grid424242f20out, res424242.take 21, 8973, 21⟩ := by
  decide

set_option maxRecDepth 40000 in
theorem mapStep424242f22 : forestStepN ⟨grid424242f20out, res424242.take 21, 8973, 21⟩ = ⟨grid424242f20out, res424242.take 21, 76187, 21⟩ := by
  decide

set_option maxRecDepth 40000 in
theorem mapStep424242f23 : forestStepN ⟨grid424242f20out, res424242.take 21, 76187, 21⟩ = ⟨grid424242f23out, res424242.take 22, 119678, 22⟩ := by
  decide

set_option maxRecDepth 40000 in
theorem mapStep424242f24 : forestStepN ⟨grid424242f23out, res424242.take 22, 119678, 22⟩ = ⟨grid424242f23out, res424242.take 22, 163972, 22⟩ := by
  decide

set_option maxRecDepth 40000 in
theorem mapStep424242f25 : forestStepN ⟨grid424242f23out, res424242.take 22, 163972, 22⟩ = ⟨grid424242f25out, res424242.take 23, 5683, 23⟩ := by
  decide

set_option maxRecDepth 40000 in
theorem mapStep424242f26 : forestStepN ⟨grid424242f25out, res424242.take 23, 5683, 23⟩ = ⟨grid424242f25out, res424242.take 23, 42897, 23⟩ := by
  decide

set_option maxRecDepth 40000 in
theorem mapStep424242f27 : forestStepN ⟨grid424242f25out, res424242.take 23, 42897, 23⟩ = ⟨grid424242f25out, res424242.take 23, 169151, 23⟩ := by
  decide

set_option maxRecDepth 40000 in
theorem mapStep424242f28 : forestStepN ⟨grid424242f25out, res424242.take 23, 169151, 23⟩ = ⟨grid424242f25out, res424242.take 23, 154045, 23⟩ := by
  decide

set_option maxRecDepth 40000 in
theorem mapStep424242f29 : forestStepN ⟨grid424242f25out, res424242.take 23, 154045, 23⟩ = ⟨grid424242f25out, res424242.take 23, 95499, 23⟩ := by
  decide

set_option maxRecDepth 40000 in
theorem mapStep424242f30 : forestStepN ⟨grid424242f25out, res424242.take 23, 95499, 23⟩ = ⟨grid424242f25out, res424242.take 23, 56873, 23⟩ := by
  decide

set_option maxRecDepth 40000 in
theorem mapStep424242f31 : forestStepN ⟨grid424242f25out, res424242.take 23, 56873, 23⟩ = ⟨grid424242f31out, res424242.take 24, 155444, 24⟩ := by
  decide

set_option maxRecDepth 40000 in
theorem mapStep424242f32 : forestStepN ⟨grid424242f31out, res424242.take 24, 155444, 24⟩ = ⟨grid424242f32out, res424242.take 25, 175715, 25⟩ := by
  decide

set_option maxRecDepth 40000 in
theorem mapStep424242f33 : forestStepN ⟨grid424242f32out, res424242.take 25, 175715, 25⟩ = ⟨grid424242f32out, res424242.take 25, 133249, 25⟩ := by
  decide

set_option maxRecDepth 40000 in
theorem mapStep424242f34 : forestStepN ⟨grid424242f32out, res424242.take 25, 133249, 25⟩ = ⟨grid424242f32out, res424242.take 26, 230380, 26⟩ := by
  decide

set_option maxRecDepth 40000 in
theorem mapStep424242f35 : forestStepN ⟨grid424242f32out, res424242.take 26, 230380, 26⟩ = ⟨grid424242f32out, res424242.take 26, 133314, 26⟩ := by
  decide

set_option maxRecDepth 40000 in
theorem mapStep424242f36 : forestStepN ⟨grid424242f32out, res424242.take 26, 133314, 26⟩ = ⟨grid424242f36out, res424242.take 27, 162585, 27⟩ := by
  decide

set_option maxRecDepth 40000 in
theorem goldLoop424242 : iterSteps goldMineStepN 23 ⟨grid424242, res424242.take 0, 115026, 0⟩ = ⟨grid424242g21out, res424242.take 8, 151044, 8⟩ := by
  exact ((iterSteps_step _ mapStep424242g0).trans ((iterSteps_step _ mapStep424242g1).trans ((iterSteps_step _ mapStep424242g2).trans ((iterSteps_step _ mapStep424242g3).trans ((iterSteps_step _ mapStep424242g4).trans ((iterSteps_step _ mapStep424242g5).trans ((iterSteps_step _ mapStep424242g6).trans ((iterSteps_step _ mapStep424242g7).trans ((iterSteps_step _ mapStep424242g8).trans ((iterSteps_step _ mapStep424242g9).trans ((iterSteps_step _ mapStep424242g10).trans ((iterSteps_step _ mapStep424242g11).trans ((iterSteps_step _ mapStep424242g12).trans ((iterSteps_step _ mapStep424242g13).trans ((iterSteps_step _ mapStep424242g14).trans ((iterSteps_step _ mapStep424242g15).trans ((iterSteps_step _ mapStep424242g16).trans ((iterSteps_step _ mapStep424242g17).trans ((iterSteps_step _ mapStep424242g18).trans ((iterSteps_step _ mapStep424242g19).trans ((iterSteps_step _ mapStep424242g20).trans ((iterSteps_step _ mapStep424242g21).trans ((iterSteps_step _ mapStep424242g22).trans rfl)))))))))))))))))))))))

set_option maxRecDepth 40000 in
theorem forestLoop424242 : iterSteps forestStepN 37 ⟨grid424242g21out, res424242.take 8, 151044, 8⟩ = ⟨grid424242f36out, res424242.take 27, 162585, 27⟩ := by
  exact ((iterSteps_step _ mapStep424242f0).trans ((iterSteps_step _ mapStep424242f1).trans ((iterSteps_step _ mapStep424242f2).trans ((iterSteps_step _ mapStep424242f3).trans ((iterSteps_step _ mapStep424242f4).trans ((iterSteps_step _ mapStep424242f5).trans ((iterSteps_step _ mapStep424242f6).trans ((iterSteps_step _ mapStep424242f7).trans ((iterSteps_step _ mapStep424242f8).trans ((iterSteps_step _ mapStep424242f9).trans ((iterSteps_step _ mapStep424242f10).trans ((iterSteps_step _ mapStep424242f11).trans ((iterSteps_step _ mapStep424242f12).trans ((iterSteps_step _ mapStep424242f13).trans ((iterSteps_step _ mapStep424242f14).trans ((iterSteps_step _ mapStep424242f15).trans ((iterSteps_step _ mapStep424242f16).trans ((iterSteps_step _ mapStep424242f17).trans ((iterSteps_step _ mapStep424242f18).trans ((iterSteps_step _ mapStep424242f19).trans ((iterSteps_step _ mapStep424242f20).trans ((iterSteps_step _ mapStep424242f21).trans ((iterSteps_step _ mapStep424242f22).trans ((iterSteps_step _ mapStep424242f23).trans ((iterSteps_step _ mapStep424242f24).trans ((iterSteps_step _ mapStep424242f25).trans ((iterSteps_step _ mapStep424242f26).trans ((iterSteps_step _ mapStep424242f27).trans ((iterSteps_step _ mapStep424242f28).trans ((iterSteps_step _ mapStep424242f29).trans ((iterSteps_step _ mapStep424242f30).trans ((iterSteps_step _ mapStep424242f31).trans ((iterSteps_step _ mapStep424242f32).trans ((iterSteps_step _ mapStep424242f33).trans ((iterSteps_step _ mapStep424242f34).trans ((iterSteps_step _ mapStep424242f35).trans ((iterSteps_step _ mapStep424242f36).trans rfl)))))))))))))))))))))))))))))))))))))

set_option maxRecDepth 40000 in
theorem generateMapN424242 : generateMapN 424242 0 = (⟨60, 60, 40, grid424242f36out, res424242⟩, 27) := by
  unfold generateMapN
  rw [terrainN424242]
  simp only [mapGenFinishN]
  have h1 : lcgNext (13372 : ℕ) = 84029 := by decide
  have h2 : lcgNext (84029 : ℕ) = 115026 := by decide
  rw [h1, h2]
  have h3 : (20 + 10 * 84029 / 233280 : ℕ) = 23 := by decide
  have h4 : (30 + 15 * 115026 / 233280 : ℕ) = 37 := by decide
  have h5 : (res424242.take 0 : List Res) = [] := by rfl
  rw [h3, h4, ← h5, goldLoop424242, forestLoop424242]
  have h6 : (res424242.take 27 : List Res) = res424242 := by decide
  rw [h6]
  rfl

theorem generateMap424242 : generateMap 424242 0 = (⟨60, 60, 40, grid424242f36out, res424242⟩, 27) := by
  rw [generateMap_eq_generateMapN, generateMapN424242]

theorem goldMineStepN_shift (c : ℕ) (st : MapGenSt) :
    goldMineStepN (shiftSt c st) = shiftSt c (goldMineStepN st) := by
  simp only [goldMineStepN, shiftSt]
  split
  · simp only [MapGenSt.mk.injEq, List.map_append, List.map_cons, List.map_nil, shiftRes]
    exact ⟨trivial, trivial, trivial, by omega⟩
  · rfl

theorem forestStepN_shift (c : ℕ) (st : MapGenSt) :
    forestStepN (shiftSt c st) = shiftSt c (forestStepN st) := by
  simp only [forestStepN, shiftSt]
  split
  · simp only [MapGenSt.mk.injEq, List.map_append, List.map_cons, List.map_nil, shiftRes]
    exact ⟨trivial, trivial, trivial, by omega⟩
  · rfl

theorem iterSteps_shift {f : MapGenSt → MapGenSt}
    (hf : ∀ c st, f (shiftSt c st) = shiftSt c (f st)) (c : ℕ) :
    ∀ (n : ℕ) (st : MapGenSt),
      iterSteps f n (shiftSt c st) = shiftSt c (iterSteps f n st) := by
  intro n
  induction n with
  | zero => intro st; rfl
  | succ n ih => intro st; simp only [iterSteps, hf c st, ih]

theorem mapGenFinishN_shift (t : List (List Tile) × ℕ) (c : ℕ) :
    mapGenFinishN t c =
      (fun p => ({ p.1 with resources := p.1.resources.map (shiftRes c) }, p.2 + c))
        (mapGenFinishN t 0) := by
  simp only [mapGenFinishN]
  have h0 : ∀ (s : ℕ),
      ({ tiles := t.1, resources := [], s := s, idCtr := c } : MapGenSt) =
        shiftSt c { tiles := t.1, resources := [], s := s, idCtr := 0 } := by
    intro s
    simp [shiftSt]
  rw [h0, iterSteps_shift goldMineStepN_shift, iterSteps_shift forestStepN_shift]
  exact hpack c _
where
  hpack (c : ℕ) (x : MapGenSt) : mapGenPack (shiftSt c x) =
      (fun p => ({ p.1 with resources := p.1.resources.map (shiftRes c) }, p.2 + c))
        (mapGenPack x) := rfl

theorem generateMapN_shift (seed c : ℕ) :
    generateMapN seed c =
      (fun p => ({ p.1 with resources := p.1.resources.map (shiftRes c) }, p.2 + c))
        (generateMapN seed 0) := by
  simp only [generateMapN]
  exact mapGenFinishN_shift _ c

theorem generateMap_shift (seed c : ℕ) :
    generateMap seed c =
      (fun p => ({ p.1 with resources := p.1.resources.map (shiftRes c) }, p.2 + c))
        (generateMap seed 0) := by
  rw [generateMap_eq_generateMapN, generateMap_eq_generateMapN, generateMapN_shift]

/-! ## Association-list lemmas shared by the claims -/
theorem assocGet_update_self (l : List (String × α)) (k : String) (f : α → α) :
    assocGet (assocUpdate l k f) k = (assocGet l k).map f := by
  induction l with
  | nil => rfl
  | cons hd tl ih =>
    by_cases hk : hd.1 = k
    · have hb : (hd.1 == k) = true := beq_iff_eq.mpr hk
      simp [assocGet, assocUpdate, List.find?, hb, hk]
    · have hb : (hd.1 == k) = false := beq_eq_false_iff_ne.mpr hk
      simp [assocGet, assocUpdate, List.find?, hb, hk] at ih ⊢
      exact ih

theorem assocGet_update_other (l : List (String × α)) (k k' : String) (f : α → α)
    (hne : ¬ k' = k) : assocGet (assocUpdate l k f) k' = assocGet l k' := by
  induction l with
  | nil => rfl
  | cons hd tl ih =>
    by_cases hk : hd.1 = k
    · have h' : ¬ hd.1 = k' := by rw [hk]; exact fun e => hne e.symm
      have hb : (hd.1 == k') = false := beq_eq_false_iff_ne.mpr h'
      have hb2 : (k == k') = false := beq_eq_false_iff_ne.mpr (hk ▸ h')
      simp [assocGet, assocUpdate, List.find?, hk, hb, hb2] at ih ⊢
      exact ih
    · by_cases h2 : hd.1 = k'
      · have hb : (hd.1 == k') = true := beq_iff_eq.mpr h2
        simp [assocGet, assocUpdate, List.find?, hk, hb]
      · have hb : (hd.1 == k') = false := beq_eq_false_iff_ne.mpr h2
        simp [assocGet, assocUpdate, List.find?, hk, hb] at ih ⊢
        exact ih

theorem assocGet_append_single_self (l : List (String × α)) (k : String) (v : α)
    (h : assocGet l k = none) : assocGet (l ++ [(k, v)]) k = some v := by
  induction l with
  | nil => simp [assocGet, List.find?]
  | cons hd tl ih =>
    by_cases hk : hd.1 = k
    · have hb : (hd.1 == k) = true := beq_iff_eq.mpr hk
      simp [assocGet, List.find?, hb] at h
    · have hb : (hd.1 == k) = false := beq_eq_false_iff_ne.mpr hk
      simp [assocGet, List.find?, hb] at h ih ⊢
      exact ih h

theorem assocGet_append_single_other (l : List (String × α)) (k k' : String) (v : α)
    (hne : ¬ k' = k) : assocGet (l ++ [(k, v)]) k' = assocGet l k' := by
  induction l with
  | nil =>
    have hb : (k == k') = false := beq_eq_false_iff_ne.mpr (fun e => hne e.symm)
    simp [assocGet, List.find?, hb]
  | cons hd tl ih =>
    by_cases hh : hd.1 = k'
    · have hb : (hd.1 == k') = true := beq_iff_eq.mpr hh
      simp [assocGet, List.find?, hb]
    · have hb : (hd.1 == k') = false := beq_eq_false_iff_ne.mpr hh
      simp [assocGet, List.find?, hb] at ih ⊢
      exact ih

theorem assocGet_set_self (l : List (String × α)) (k : String) (v : α) :
    assocGet (assocSet l k v) k = some v := by
  unfold assocSet
  split
  · rename_i h
    obtain ⟨p, hp⟩ := Option.isSome_iff_exists.mp h
    rw [assocGet_update_self]
    simp [assocGet, hp]
  · rename_i h
    apply assocGet_append_single_self
    simp only [Bool.not_eq_true, Option.not_isSome, Option.isNone_iff_eq_none] at h
    simp [assocGet, h]

theorem assocGet_set_other (l : List (String × α)) (k k' : String) (v : α)
    (hne : ¬ k' = k) : assocGet (assocSet l k v) k' = assocGet l k' := by
  unfold assocSet
  split
  · exact assocGet_update_other l k k' _ hne
  · exact assocGet_append_single_other l k k' v hne

/-- Folding `assocSet acc key (f key)` over a list of keyed entries:
keys not among the entries keep their association. -/
theorem foldl_assocSet_get_of_not_mem {β : Type} (f : String → α)
    (ps : List (String × β)) (d : List (String × α)) (k : String)
    (h : ¬ k ∈ ps.map Prod.fst) :
    assocGet (ps.foldl (fun acc pp => assocSet acc pp.1 (f pp.1)) d) k = assocGet d k := by
  induction ps generalizing d with
  | nil => rfl
  | cons hd tl ih =>
    simp only [List.map_cons, List.mem_cons, not_or] at h
    simp only [List.foldl_cons]
    rw [ih _ h.2, assocGet_set_other _ _ _ _ h.1]

/-- Folding `assocSet acc key (f key)` over a list of keyed entries: a
key among the entries ends associated to `f key`, whatever was there
before. -/
theorem foldl_assocSet_get_of_mem {β : Type} (f : String → α)
    (ps : List (String × β)) (d : List (String × α)) (k : String)
    (h : k ∈ ps.map Prod.fst) :
    assocGet (ps.foldl (fun acc pp => assocSet acc pp.1 (f pp.1)) d) k = some (f k) := by
  induction ps generalizing d with
  | nil => simp at h
  | cons hd tl ih =>
    by_cases hm : k ∈ tl.map Prod.fst
    · simpa only [List.foldl_cons] using ih _ hm
    · simp only [List.map_cons, List.mem_cons] at h
      have hk : hd.1 = k := by
        rcases h with h | h
        · exact h.symm
        · exact absurd h hm
      simp only [List.foldl_cons]
      rw [foldl_assocSet_get_of_not_mem _ _ _ _ hm, hk, assocGet_set_self]

/-! ## C9: anti-cheat resource-drift severities -/
/-- C9 (amended): the anti-cheat resource check is unflagged when both
drifts are within the tolerance and the claimed supply is legal; a gold
drift in `(tolerance, 10·tolerance]` is flagged at severity `warning`
(not `suspicious`); a gold drift beyond `10·tolerance` is flagged at
severity `confirmed`; and no input whatsoever produces severity
`suspicious`. -/
theorem claim9_anticheat_severity (client server : PlayerResources) (tol : ℚ) :
    ((|client.gold - server.gold| ≤ tol ∧ |client.wood - server.wood| ≤ tol ∧
        client.supply ≤ client.maxSupply) →
      (anticheatValidateResources client server tol).flagged = false) ∧
    ((tol < |client.gold - server.gold| ∧ |client.gold - server.gold| ≤ tol * 10) →
      anticheatValidateResources client server tol =
        ⟨true, some "Minor gold discrepancy", .warning⟩) ∧
    (tol * 10 < |client.gold - server.gold| →
      anticheatValidateResources client server tol =
        ⟨true, some "Significant gold discrepancy", .confirmed⟩) ∧
    (anticheatValidateResources client server tol).severity ≠ .suspicious := by
  have h0g := abs_nonneg (client.gold - server.gold)
  have h0w := abs_nonneg (client.wood - server.wood)
  refine ⟨?_, ?_, ?_, ?_⟩
  · rintro ⟨hg, hw, hs⟩
    simp only [anticheatValidateResources]
    split_ifs with c1 c2 c3 c4 c5
    · exact absurd c1 (by linarith)
    · exact absurd c2 (by linarith)
    · exact absurd c3 (by linarith)
    · exact absurd c4 (by linarith)
    · exact absurd c5 (by omega)
    · rfl
  · rintro ⟨hlt, hle⟩
    simp only [anticheatValidateResources]
    split_ifs with c1
    · exact absurd c1 (by linarith)
    · rfl
  · intro hgt
    simp only [anticheatValidateResources]
    split_ifs
    rfl
  · simp only [anticheatValidateResources]
    split_ifs <;> decide

/-- C9 witness: client gold 210 against server gold 200 at tolerance 5
is flagged `warning`. -/
theorem claim9_witness :
    anticheatValidateResources ⟨210, 0, 0, 10⟩ ⟨200, 0, 0, 10⟩ 5 =
      ⟨true, some "Minor gold discrepancy", .warning⟩ :=
  (claim9_anticheat_severity ⟨210, 0, 0, 10⟩ ⟨200, 0, 0, 10⟩ 5).2.1
    (by norm_num)

/-- C9 counterexample: a gold drift of 10 with tolerance 5 (inside the
spec's "larger drift" band) is flagged, but at severity `warning`, not
the `suspicious` the spec promises. -/
theorem claim9_counterexample :
    (anticheatValidateResources ⟨210, 0, 0, 10⟩ ⟨200, 0, 0, 10⟩ 5).flagged = true ∧
    (anticheatValidateResources ⟨210, 0, 0, 10⟩ ⟨200, 0, 0, 10⟩ 5).severity = .warning ∧
    (anticheatValidateResources ⟨210, 0, 0, 10⟩ ⟨200, 0, 0, 10⟩ 5).severity ≠ .suspicious := by
  refine ⟨by norm_num [anticheatValidateResources],
    by norm_num [anticheatValidateResources],
    by norm_num [anticheatValidateResources]; decide⟩

/-- C4 (amended): closed forms of the code's two damage functions when
both players exist.  Melee damage adds `+2·attack` for every attacker
and a further `+3·attack` exactly when a **worker** strikes a tower;
projectile damage (the only way a tower attacks) always adds `+2·attack`. -/
theorem claim4_damage_formula :
    (∀ (st : GameState) (a : GUnit) (t : GUnit ⊕ GBuilding) (pa pt : GPlayer),
      assocGet st.players a.ownerId = some pa →
      assocGet st.players (tgtOwner t) = some pt →
      calculateDamage st a t =
        max 1 ((UNIT_STATS a.kind).damage + (pa.upgrades.attack : ℚ) * 2 +
          (if a.kind = .worker ∧ isTower t = true then (pa.upgrades.attack : ℚ) * 3 else 0) -
          (pt.upgrades.defense : ℚ) * 2)) ∧
    (∀ (st : GameState) (proj : GProjectile) (t : GUnit ⊕ GBuilding) (pa pt : GPlayer),
      assocGet st.players proj.ownerId = some pa →
      assocGet st.players (tgtOwner t) = some pt →
      calculateDamageFromProjectile st proj t =
        max 1 (proj.damage + (pa.upgrades.attack : ℚ) * 2 - (pt.upgrades.defense : ℚ) * 2)) := by
  constructor
  · intro st a t pa pt ha ht
    simp only [calculateDamage, ha, ht]
    split_ifs with h
    · rfl
    · ring_nf
  · intro st proj t pa pt ha ht
    simp only [calculateDamageFromProjectile, ha, ht]

/-- C4 witness: the melee closed form applied to `"A"`'s worker striking
`"B"`'s tower. -/
theorem claim4_witness :
    calculateDamage stC4 (mkUnit "w" "A" .worker 0 0)
      (.inr (mkBuilding "t" "B" .tower 0 0 100)) = 8 := by
  have h := (claim4_damage_formula).1 stC4 (mkUnit "w" "A" .worker 0 0)
    (.inr (mkBuilding "t" "B" .tower 0 0 100))
    ({ mkPlayer "A" "Alice" .host with upgrades := ⟨1, 0, 0⟩ }) (mkPlayer "B" "Bob" .guest)
    (by rfl) (by rfl)
  rw [h]
  norm_num [mkUnit, mkPlayer, UNIT_STATS, isTower, mkBuilding]

/-- C4 counterexample: a worker (not a tower) with attack upgrade 1
deals 8 against a tower where the spec's formula gives 5 — the `+3`
bonus is applied to workers attacking towers, not to towers attacking;
and a tower's own projectile (damage 20, owner's attack upgrade 1)
deals 22 where the spec's tower-attacker formula gives 23. -/
theorem claim4_counterexample :
    calculateDamage stC4 (mkUnit "w" "A" .worker 0 0)
        (.inr (mkBuilding "t" "B" .tower 0 0 100)) = 8 ∧
    specDamage (UNIT_STATS .worker).damage false 1 0 = 5 ∧
    calculateDamageFromProjectile stC4
        ⟨"p", .arrow, 0, 0, "e1", ⟨0, 0⟩, 8, 20, "A", 0, 0⟩
        (.inl (mkUnit "e1" "B" .soldier 0 0)) = 22 ∧
    specDamage 20 true 1 0 = 23 := by
  refine ⟨by decide, by decide, by decide, by decide⟩

/-- C8 (amended): `startGame` succeeds exactly when the caller is the
host, the room is `waiting`, and either every player is ready or the
room has at most one player — readiness is **not** required for a
single-player room, and no all-ready, minimum-size or AI-slot condition
beyond this is checked; on success the room is `playing` with its
player list unchanged. -/
theorem claim8_startGame_characterization (room : GameRoom) (hostId : String)
    (now : ℤ) (rand : List ℚ) (idCtr : ℕ) :
    ((startGame room hostId now rand idCtr).isSome = true ↔
      (room.hostId = hostId ∧ room.status = .waiting ∧
        (room.players.all (fun p => p.2.ready) = true ∨ room.players.length ≤ 1))) ∧
    (∀ room', startGame room hostId now rand idCtr = some room' →
      room'.status = .playing ∧ room'.players = room.players ∧
        room'.startedAt = some now) := by
  unfold startGame
  by_cases h1 : room.hostId = hostId
  case neg =>
    rw [if_pos (by simpa using h1)]
    constructor
    · simp only [Option.isSome_none, Bool.false_eq_true, false_iff]
      intro hc
      exact h1 hc.1
    · intro r hr
      simp at hr
  case pos =>
    rw [if_neg (by simpa using h1)]
    by_cases h2 : room.status = RoomStatus.waiting
    case neg =>
      rw [if_pos h2]
      constructor
      · simp only [Option.isSome_none, Bool.false_eq_true, false_iff]
        intro hc
        exact h2 hc.2.1
      · intro r hr
        simp at hr
    case pos =>
      rw [if_neg (by simpa using h2)]
      by_cases h3 : (¬ (room.players.all (fun p => p.2.ready)) = true ∧ 1 < room.players.length)
      case pos =>
        rw [if_pos (by simpa using h3)]
        constructor
        · simp only [Option.isSome_none, Bool.false_eq_true, false_iff]
          intro hc
          rcases hc.2.2 with hall | hlen
          · exact h3.1 (by simp [hall])
          · omega
        · intro r hr
          simp at hr
      case neg =>
        rw [if_neg (by simpa using h3)]
        constructor
        · simp only [Option.isSome_some, true_iff]
          refine ⟨h1, h2, ?_⟩
          by_cases hall : room.players.all (fun p => p.2.ready) = true
          · exact Or.inl hall
          · refine Or.inr ?_
            by_contra hlen
            exact h3 ⟨by simpa using hall, by omega⟩
        · intro r hr
          simp only [Option.some.injEq] at hr
          subst hr
          exact ⟨rfl, rfl, rfl⟩

/-- C8 witness: the one-player, not-ready room starts. -/
theorem claim8_witness :
    (startGame roomC8 "h" 0 [] 0).isSome = true :=
  (claim8_startGame_characterization roomC8 "h" 0 [] 0).1.mpr
    ⟨rfl, rfl, Or.inr (by decide)⟩

/-- C8 counterexample: a room with a single player who is **not** ready
starts anyway (the source only blocks an unready room when it has more
than one player, and consults no AI slot). -/
theorem claim8_counterexample :
    roomC8.players.length = 1 ∧
    roomC8.players.all (fun p => p.2.ready) = false ∧
    (startGame roomC8 "h" 0 [] 0).isSome = true ∧
    ((startGame roomC8 "h" 0 [] 0).map GameRoom.status) = some .playing := by
  refine ⟨rfl, rfl, rfl, rfl⟩

/-! ## C10: atomicity of rejected actions -/
/-- Every `processAction` handler either rejects without building a new
state or reports success. -/
theorem processAction_shape (st : GameState) (pid : String) (a : Action) :
    processAction st pid a = (false, st) ∨ (processAction st pid a).1 = true := by
  cases a
  all_goals
    simp only [processAction, handleMove, handleAttack, handleStop, handleHoldPosition,
      handlePatrol, handleAttackMove, handleProduce, handleBuild, handleUpgrade, handleGather]
  all_goals repeat' split
  all_goals first | exact Or.inl rfl | exact Or.inr rfl

/-- C10: if `processAction` reports failure, the state it returns is the
input state — no debit, creation or mutation survives a rejected
action. -/
theorem claim10_processAction_atomic (st : GameState) (pid : String) (a : Action)
    (h : (processAction st pid a).1 = false) :
    (processAction st pid a).2 = st := by
  rcases processAction_shape st pid a with hres | hres
  · rw [hres]
  · rw [h] at hres
    simp at hres

/-- C10 witness: a `stop` for an unknown unit in the empty state is
rejected and leaves the state untouched. -/
theorem claim10_witness :
    (processAction st0 "x" (.stop "u")).2 = st0 :=
  claim10_processAction_atomic st0 "x" (.stop "u") (by rfl)

/-- C6 (amended): when a not-yet-over game has a first player without a
base, `checkWinCondition` ends the game, sets the reason to
`<eliminated player's name> eliminated` — naming the **loser**, never
`"draw"` — and sets the winner to the owner of the first remaining
enemy base, `null` if there is none. -/
theorem claim6_win_reason (st : GameState) (pid : String) (pl : GPlayer)
    (hgo : st.gameOver = false)
    (hfind : (assocKeys st.players).find? (fun pid =>
      ((assocValues st.buildings).filter
        (fun b => b.kind == .base && b.ownerId == pid)).isEmpty) = some pid)
    (hpl : assocGet st.players pid = some pl) :
    (checkWinCondition st).gameOver = true ∧
    (checkWinCondition st).winnerReason = some (pl.name ++ " eliminated") ∧
    (checkWinCondition st).winnerReason ≠ some "draw" ∧
    (checkWinCondition st).winner =
      ((((assocKeys st.players).filter (fun i => ¬ i == pid)).filterMap (fun i =>
        (assocValues st.buildings).find? (fun b => b.kind == .base && b.ownerId == i))).head?).map
        GBuilding.ownerId := by
  unfold checkWinCondition
  simp only [hgo, Bool.false_eq_true, if_false, hfind, hpl]
  refine ⟨by trivial, by trivial, ?_, by trivial⟩
  intro hcontra
  rw [Option.some.injEq] at hcontra
  have hlen := congrArg String.length hcontra
  have h1 : (" eliminated").length = 11 := rfl
  have h2 : ("draw").length = 4 := rfl
  rw [String.length_append, h1, h2] at hlen
  omega

/-- C6 witness: the single-base fixture ends the game via the amended
characterisation. -/
theorem claim6_witness : (checkWinCondition stC6b).gameOver = true :=
  (claim6_win_reason stC6b "p2" (mkPlayer "p2" "Bob" .guest) rfl (by decide) rfl).1

/-- C6 counterexample: with both players eliminated the engine reports
winner `null` but reason `"Alice eliminated"`, not `"draw"`; with one
player eliminated the reason `"Bob eliminated"` names the loser, not
the winner; and the standalone win-condition manager reports
`"Bob wins! Enemy army destroyed!"` on the both-eliminated state — no
code path reports `"draw"`. -/
theorem claim6_counterexample :
    ((checkWinCondition stC6a).gameOver = true ∧
     (checkWinCondition stC6a).winner = none ∧
     (checkWinCondition stC6a).winnerReason = some "Alice eliminated") ∧
    ((checkWinCondition stC6b).winner = some "p1" ∧
     (checkWinCondition stC6b).winnerReason = some "Bob eliminated") ∧
    (checkWinConditions stC6a).reason = some "Bob wins! Enemy army destroyed!" := by
  refine ⟨⟨by decide, by decide, by decide⟩, ⟨by decide, by decide⟩, by decide⟩

/-! ## C3: resource debit and supply on produce -/
/-- Shape of `handleProduce`: either it rejects, or it succeeded and the
player table of the result is the input's with exactly gold and wood
debited (supply untouched). -/
theorem handleProduce_cases (st : GameState) (pid bid : String) (u : UnitKind) :
    (handleProduce st pid bid u).1 = false ∨
    ((handleProduce st pid bid u).1 = true ∧
      (handleProduce st pid bid u).2.players =
        assocUpdate st.players pid (fun pl =>
          { pl with resources := { pl.resources with
              gold := pl.resources.gold - (UNIT_STATS u).costGold,
              wood := pl.resources.wood - (UNIT_STATS u).costWood } })) := by
  simp only [handleProduce]
  repeat' split
  all_goals first
    | exact Or.inl rfl
    | exact Or.inr ⟨rfl, rfl⟩

/-- C3 (amended): an accepted produce action debits the sender's gold
and wood by exactly the unit's cost, and leaves `supply` (and
`maxSupply`) untouched — there is no supply reservation. -/
theorem claim3_produce_updates (st : GameState) (pid bid : String) (u : UnitKind)
    (pl : GPlayer) (hp : assocGet st.players pid = some pl)
    (hsucc : (processAction st pid (.produce bid u)).1 = true) :
    ∃ pl', assocGet (processAction st pid (.produce bid u)).2.players pid = some pl' ∧
      pl'.resources.gold = pl.resources.gold - (UNIT_STATS u).costGold ∧
      pl'.resources.wood = pl.resources.wood - (UNIT_STATS u).costWood ∧
      pl'.resources.supply = pl.resources.supply ∧
      pl'.resources.maxSupply = pl.resources.maxSupply := by
  unfold processAction at hsucc ⊢
  rw [hp] at hsucc ⊢
  rcases handleProduce_cases st pid bid u with hf | ⟨_, hpl'⟩
  · rw [hsucc] at hf
    simp at hf
  · rw [hpl', assocGet_update_self, hp]
    exact ⟨_, rfl, rfl, rfl, rfl, rfl⟩

/-- C3 witness: the amended characterisation applied to the 50-gold
fixture producing a worker. -/
theorem claim3_witness :
    ∃ pl', assocGet (processAction stC3 "A" (.produce "b1" .worker)).2.players "A" = some pl' ∧
      pl'.resources.gold = (50 : ℚ) - (UNIT_STATS .worker).costGold ∧
      pl'.resources.wood = (0 : ℚ) - (UNIT_STATS .worker).costWood ∧
      pl'.resources.supply = 5 ∧
      pl'.resources.maxSupply = 10 :=
  claim3_produce_updates stC3 "A" "b1" .worker
    { mkPlayer "A" "Alice" .host with resources := ⟨50, 0, 5, 10⟩ } rfl (by decide)

/-- C3 counterexample: the spec's own example.  A player with
`{gold:50, wood:0}` produces a worker: the action is accepted and the
resources become `{0,0}`, but `supply` stays at 5 instead of the
promised increment to 6; the identical follow-up action is rejected
with the engine leaving the state untouched, and the validator's reason
on the debited resources is `"Insufficient resources"`. -/
theorem claim3_counterexample :
    (processAction stC3 "A" (.produce "b1" .worker)).1 = true ∧
    ((assocGet (processAction stC3 "A" (.produce "b1" .worker)).2.players "A").map
        (fun p => p.resources)) = some ⟨0, 0, 5, 10⟩ ∧
    (processAction (processAction stC3 "A" (.produce "b1" .worker)).2 "A"
        (.produce "b1" .worker)).1 = false ∧
    (processAction (processAction stC3 "A" (.produce "b1" .worker)).2 "A"
        (.produce "b1" .worker)).2 = (processAction stC3 "A" (.produce "b1" .worker)).2 ∧
    validateProduceAction "b1" .worker ["b1"] ⟨0, 0, 5, 10⟩ =
      { valid := false, reason := some "Insufficient resources" } := by
  refine ⟨by decide, by decide, by decide, by decide, by decide⟩

/-! ## C5: incomplete buildings still produce and shoot -/
/-- C5 (amended): `updateBuildingStep` never consults the building's
construction progress: a building whose head queue item is still short
of its build time advances that item by one tick — whatever the
building's `progress`, including any value below 100. -/
theorem claim5_progress_ignored (st : GameState) (bid : String) (b : GBuilding)
    (item : ProdItem) (rest : List ProdItem)
    (hb : assocGet st.buildings bid = some b)
    (hq : b.productionQueue = item :: rest)
    (hlt : item.progress + 1 < (UNIT_STATS item.kind).buildTime)
    (hnt : b.kind ≠ .tower) (hua : b.isUnderAttack = false) :
    assocGet (updateBuildingStep st bid).buildings bid =
      some { b with productionQueue := { item with progress := item.progress + 1 } :: rest } := by
  have hup : assocGet (setBuilding st bid
      { b with productionQueue := { item with progress := item.progress + 1 } :: rest }).buildings
        bid =
      some { b with productionQueue := { item with progress := item.progress + 1 } :: rest } := by
    simp only [setBuilding]
    rw [assocGet_update_self, hb]
    rfl
  simp only [updateBuildingStep, hb, hq]
  rw [if_neg (show ¬ (UNIT_STATS item.kind).buildTime ≤ item.progress + 1 by omega)]
  rw [hup]
  simp only []
  rw [if_neg (by
    rintro ⟨hk, _⟩
    exact hnt hk)]
  rw [hup]
  simp only []
  rw [if_neg (by
    rintro ⟨hk, _⟩
    rw [hua] at hk
    exact Bool.false_ne_true hk)]
  exact hup

/-- C5 witness: the amended characterisation applied to the progress-10
barracks. -/
theorem claim5_witness :
    assocGet (updateBuildingStep stC5w "b1").buildings "b1" =
      some { b1C5w with productionQueue := [{ qC5 with progress := qC5.progress + 1 }] } :=
  claim5_progress_ignored stC5w "b1" b1C5w qC5 [] (by decide) (by decide) (by decide)
    (by decide) (by decide)

/-- C5 counterexample: after one `updateBuildings` tick on the fixture,
the progress-10 barracks has spawned its worker (unit count 2, queue
emptied) and the progress-10 tower has fired (one projectile in
flight) — buildings under construction both produce and shoot. -/
theorem claim5_counterexample :
    (assocGet stC5.buildings "b1").map GBuilding.progress = some 10 ∧
    (assocGet stC5.buildings "t1").map GBuilding.progress = some 10 ∧
    (updateBuildings stC5).units.length = 2 ∧
    (assocGet (updateBuildings stC5).buildings "b1").map GBuilding.productionQueue = some [] ∧
    (updateBuildings stC5).projectiles.length = 1 := by
  refine ⟨by decide, by decide, by decide, by decide, by decide⟩

/-! ## C2: fog-of-war discovery is rebuilt, not accumulated -/
/-- C2 (amended): on every tick `updateFogOfWar` **replaces** each
player's discovered-tiles entry with the freshly computed list of
currently visible tiles; what was discovered before does not feed into
the new value, so a tile leaves the set as soon as no owned entity sees
it. -/
theorem claim2_fog_rebuilt (st : GameState) (pid : String)
    (h : pid ∈ assocKeys st.players) :
    assocGet (updateFogOfWar st).discoveredTiles pid = some (playerVisionTiles st pid) := by
  simp only [updateFogOfWar]
  exact foldl_assocSet_get_of_mem _ _ _ _ h

/-- C2 witness: the rebuild characterisation on the concrete scenario
state. -/
theorem claim2_witness :
    assocGet (updateFogOfWar stC2).discoveredTiles "A" = some (playerVisionTiles stC2 "A") :=
  claim2_fog_rebuilt stC2 "A" (by decide)

/-- C2 counterexample: tile (39,7) is discovered for player `"A"` at the
end of tick 1 (the worker passes exactly 200 px away), the match is not
over, yet at the end of tick 2 the tile is no longer in the
discovered-tiles set — discovery is not monotonic. -/
theorem claim2_counterexample :
    ((((assocGet (update stC2).discoveredTiles "A").getD []).any
        (fun t => t.x == 39 && t.y == 7)) = true) ∧
    ((update (update stC2)).gameOver = false) ∧
    ((((assocGet (update (update stC2)).discoveredTiles "A").getD []).any
        (fun t => t.x == 39 && t.y == 7)) = false) := by
  refine ⟨by decide, by decide, by decide⟩

/-- C7 (amended): `canBuildAt` accepts exactly when the footprint is
inside the map bounds and every existing building's centre is at least
`(size + existing.size)/2 + 10` away — the tile grid is never
consulted, so terrain (impassable or not) cannot affect the answer. -/
theorem claim7_placement_no_terrain_check (st : GameState) (bt : BuildingKind)
    (pos : Pos) :
    canBuildAt st bt pos = true ↔
      (0 ≤ pos.x - (BUILDING_STATS bt).size / 2 ∧
       pos.x + (BUILDING_STATS bt).size / 2 ≤ (st.map.width : ℚ) * st.map.tileSize ∧
       0 ≤ pos.y - (BUILDING_STATS bt).size / 2 ∧
       pos.y + (BUILDING_STATS bt).size / 2 ≤ (st.map.height : ℚ) * st.map.tileSize ∧
       ∀ b ∈ assocValues st.buildings,
         ((b.size + (BUILDING_STATS bt).size) / 2 + 10) *
             ((b.size + (BUILDING_STATS bt).size) / 2 + 10) ≤
           (b.x - pos.x) * (b.x - pos.x) + (b.y - pos.y) * (b.y - pos.y)) := by
  simp only [canBuildAt]
  split_ifs with h1 h2
  · simp only [Bool.false_eq_true, false_iff]
    rintro ⟨ha, hb, -, -, -⟩
    rcases h1 with h | h
    · linarith
    · linarith
  · simp only [Bool.false_eq_true, false_iff]
    rintro ⟨-, -, hc, hd, -⟩
    rcases h2 with h | h
    · linarith
    · linarith
  · push_neg at h1 h2
    simp only [Bool.not_eq_true', List.any_eq_false, decide_eq_true_eq, not_lt]
    constructor
    · intro hall
      rw [List.any_eq_true] at hall
      push_neg at hall
      refine ⟨by linarith [h1.1], by linarith [h1.2], by linarith [h2.1],
        by linarith [h2.2], ?_⟩
      intro b hb
      simpa [not_lt] using hall b hb
    · rintro ⟨-, -, -, -, hall⟩
      rw [List.any_eq_true]
      push_neg
      intro b hb
      simpa [not_lt] using hall b hb

/-! ## C1: seed determinism of map generation -/
/-- C1 (amended): map generation is seed-deterministic **up to resource
ids**: whatever the global id counter holds when each engine is
constructed, the tile grids are identical, the resources agree on
everything except their ids, and equally many ids are consumed. -/
theorem claim1_map_deterministic_up_to_ids (seed i j : ℕ) :
    (generateMap seed i).1.tiles = (generateMap seed j).1.tiles ∧
    (generateMap seed i).1.resources.map stripId =
      (generateMap seed j).1.resources.map stripId ∧
    (generateMap seed i).2 - i = (generateMap seed j).2 - j := by
  rw [generateMap_shift seed i, generateMap_shift seed j]
  have hcomp : ∀ c : ℕ, stripId ∘ shiftRes c = stripId := fun c => funext fun r => rfl
  refine ⟨rfl, ?_, ?_⟩
  · show ((generateMap seed 0).1.resources.map (shiftRes i)).map stripId =
      ((generateMap seed 0).1.resources.map (shiftRes j)).map stripId
    rw [List.map_map, List.map_map, hcomp i, hcomp j]
  · show (generateMap seed 0).2 + i - i = (generateMap seed 0).2 + j - j
    omega

/-- C1 counterexample: two engines constructed in sequence with seed
424242 (the second starts at the id counter the first left behind, 27)
produce byte-identical tile grids but **disjoint** resource id sets:
id 0 belongs to the first map only — the "same resource id set" half of
the claim fails. -/
theorem claim1_counterexample :
    (generateMap 424242 0).2 = 27 ∧
    (generateMap 424242 0).1.tiles = (generateMap 424242 27).1.tiles ∧
    (0 : ℕ) ∈ (generateMap 424242 0).1.resources.map Res.id ∧
    ¬ (0 : ℕ) ∈ (generateMap 424242 27).1.resources.map Res.id := by
  refine ⟨by rw [generateMap424242], ?_, ?_, ?_⟩
  · rw [generateMap424242, generateMap_shift 424242 27, generateMap424242]
  · rw [generateMap424242]
    decide
  · rw [generateMap_shift 424242 27, generateMap424242]
    decide

/-- C7 witness: the bounds-and-distance characterisation accepts the
wall on the water tile. -/
theorem claim7_witness : canBuildAt stC7 .wall ⟨220, 20⟩ = true :=
  (claim7_placement_no_terrain_check stC7 .wall ⟨220, 20⟩).mpr
    ⟨by decide, by decide, by decide, by decide,
      by intro b hb; simp [stC7, st0, assocValues] at hb⟩

/-- C7 counterexample: on the seed-424242 map, tile (5,0) is water; a
wall (size 40) centred at (220,20) has its whole footprint on that
water tile, so the spec's terrain rule rejects it — yet both
`canBuildAt` and `validateBuildAction` accept the placement (neither
ever reads the tile grid). -/
theorem claim7_counterexample :
    (generateMap 424242 0).1.tiles = mapC7.tiles ∧
    getTile mapC7.tiles 5 0 = .water ∧
    specFootprintPassable mapC7 .wall ⟨220, 20⟩ = false ∧
    canBuildAt stC7 .wall ⟨220, 20⟩ = true ∧
    validateBuildAction .wall ⟨220, 20⟩ ⟨100, 100, 0, 10⟩
        (some ⟨2400, 2400, [], []⟩) = { valid := true, reason := none } := by
  refine ⟨by rw [generateMap424242]; rfl, by decide, by decide, by decide, by decide⟩

end OpenRTS
